import Mathlib

/-!
# Lustre socklnd transport glue: a shallow embedding

Source: lnet/klnds/socklnd/socklnd_lib-linux.c and lnet/include/lnet/socklnd.h.

Conventions of the embedding.

* A byte is a natural number below 256; a byte range is a list of bytes.
* C int values (rc, nob, sum, fragnob, tx_nob, tx_resid) are integers; fragment
  lengths (size_t iov_len, kiov_len) are natural numbers; a __u32 is a natural
  number kept below 2^32, with wrap-around written out where the C code can wrap.
* Memory the fragments point at is a map from an object identity (a buffer or a
  page) to the bytes it holds. A fragment base is either a position inside the
  message header of its owner (tx_msg, ksnc_msg) or a position inside an object.
* LASSERT failures and accesses outside an array end the run: the functions
  return none there.
* Socket calls are made through a function argument that answers each call; the
  call issued is recorded in the list of events a function returns.
* kmap and kunmap only move map counts; they are not recorded. The address
  kmap(page) + offset is the base (page, offset).
-/

namespace Lustre

/-! ## Data model -/

/-- Header that frames every message (socklnd.h, ksock_msg_t). The union ksm_u is
kept as the bytes of the embedded lnet message; it is empty for a NOOP. -/
structure ksock_msg_t where
  ksm_type : Nat
  ksm_csum : Nat
  ksm_zc_req_cookie : Nat
  ksm_zc_ack_cookie : Nat
  ksm_u : List Nat
  deriving DecidableEq, Repr

def KSOCK_MSG_NOOP : Nat := 0xc0

def KSOCK_MSG_LNET : Nat := 0xc1

/-- The n bytes of an unsigned value, least significant byte first (the byte
order of the hosts the driver is built for). -/
def le_bytes (n v : Nat) : List Nat :=
  (List.range n).map (fun i => (v / 256 ^ i) % 256)

/-- Memory image of a packed (WIRE_ATTR) ksock_msg_t: the four fixed fields in
declaration order, then the union. -/
def ksock_msg_bytes (m : ksock_msg_t) : List Nat :=
  le_bytes 4 m.ksm_type ++ le_bytes 4 m.ksm_csum ++ le_bytes 8 m.ksm_zc_req_cookie ++
    le_bytes 8 m.ksm_zc_ack_cookie ++ m.ksm_u

/-- Contents of the buffers and pages fragments point into, by object identity. -/
abbrev memory := Nat → List Nat

/-- Where a fragment starts: off bytes into the message header of the owner
(the unit for tx_iov, the connection for ksnc_rx_iov), or off bytes into the
buffer or page id. -/
inductive iov_base_t where
  | msg (off : Nat)
  | obj (id : Nat) (off : Nat)
  deriving DecidableEq, Repr

structure iovec where
  iov_base : iov_base_t
  iov_len : Nat
  deriving DecidableEq, Repr

structure lnet_kiov_t where
  kiov_page : Nat
  kiov_len : Nat
  kiov_offset : Nat
  deriving DecidableEq, Repr

/-- The n bytes found at a fragment base. -/
def mem_read (mem : memory) (m : ksock_msg_t) : iov_base_t → Nat → List Nat
  | .msg off, n => ((ksock_msg_bytes m).drop off).take n
  | .obj id off, n => ((mem id).drop off).take n

/-- The address kmap(kiov_page) + kiov_offset together with kiov_len. -/
def kiov_map (k : lnet_kiov_t) : iovec :=
  { iov_base := .obj k.kiov_page k.kiov_offset, iov_len := k.kiov_len }

/-- The bytes of a whole buffer fragment: iov_len bytes at iov_base. -/
def iov_bytes (mem : memory) (m : ksock_msg_t) (v : iovec) : List Nat :=
  mem_read mem m v.iov_base v.iov_len

/-- The bytes of a whole page fragment: kiov_len bytes at kmap(kiov_page) + kiov_offset. -/
def kiov_bytes (mem : memory) (m : ksock_msg_t) (k : lnet_kiov_t) : List Nat :=
  mem_read mem m (kiov_map k).iov_base k.kiov_len

/-- The protocol a connection negotiated; the code only ever compares the
pointer with ksocknal_protocol_v2x. -/
inductive ksock_proto_t where
  | ksocknal_protocol_v2x
  | other (id : Nat)
  deriving DecidableEq, Repr

open ksock_proto_t (ksocknal_protocol_v2x)

/-- The tunables read by the transmit path (each is an int behind a pointer in
ksocknal_tunables). The fragment threshold is a size, taken non-negative. -/
structure ksock_tunables_t where
  ksnd_enable_csum : Int
  ksnd_inject_csum_error : Int
  ksnd_zc_min_frag : Nat
  deriving DecidableEq, Repr

/-- Compile-time switches of socklnd_lib-linux.h that select the fragment counts. -/
structure build_config where
  SOCKNAL_SINGLE_FRAG_TX : Bool
  SOCKNAL_SINGLE_FRAG_RX : Bool
  SOCKNAL_RISK_KMAP_DEADLOCK : Bool
  deriving DecidableEq, Repr

/-- Outbound unit. tx_iov holds the tx_niov buffer fragments still to go, tx_kiov
is NULL (none) or the tx_nkiov page fragments still to go. tx_conn is NULL (none)
or the connection the unit is bound to, seen through the one field read through
it, ksnc_proto. -/
structure ksock_tx_t where
  tx_msg : ksock_msg_t
  tx_iov : List iovec
  tx_kiov : Option (List lnet_kiov_t)
  tx_nob : Int
  tx_resid : Int
  tx_conn : Option ksock_proto_t
  deriving DecidableEq, Repr

def ksock_tx_t.tx_niov (tx : ksock_tx_t) : Nat := tx.tx_iov.length

def ksock_tx_t.tx_nkiov (tx : ksock_tx_t) : Nat :=
  match tx.tx_kiov with
  | none => 0
  | some k => k.length

/-- Connection record, the fields the send and receive paths touch.
ksnc_tx_queue lists the units queued on the connection (by identity);
sk_prot_sendpage tells whether ksnc_sock->sk->sk_prot->sendpage is non-NULL. -/
structure ksock_conn_t where
  ksnc_proto : ksock_proto_t
  ksnc_closing : Bool
  ksnc_tx_queue : List Nat
  sk_prot_sendpage : Bool
  ksnc_rx_iov : List iovec
  ksnc_rx_kiov : List lnet_kiov_t
  ksnc_rx_nob_wanted : Int
  ksnc_msg : ksock_msg_t
  ksnc_rx_csum : Nat

def ksock_conn_t.ksnc_rx_niov (conn : ksock_conn_t) : Nat := conn.ksnc_rx_iov.length

def ksock_conn_t.ksnc_rx_nkiov (conn : ksock_conn_t) : Nat := conn.ksnc_rx_kiov.length

/-! ## Socket calls -/

def MSG_DONTWAIT : Nat := 0x40

def MSG_MORE : Nat := 0x8000

/-- One call into the socket layer, with the arguments the driver passes. -/
inductive sock_call where
  | sock_sendmsg (msg_iov : List iovec) (msg_flags : Nat) (nob : Int)
  | sendpage (page : Nat) (offset : Nat) (fragsize : Nat) (msgflg : Nat)
  | tcp_sendpage (page : Nat) (offset : Nat) (fragsize : Nat) (msgflg : Nat)
  | sock_recvmsg (msg_iov : List iovec) (msg_flags : Nat) (nob : Int) (flags : Nat)
  deriving DecidableEq, Repr

/-- What a driver function did that is visible outside it. -/
inductive event where
  | csum_tx
  | call (c : sock_call)
  deriving DecidableEq, Repr

/-- The answer of the socket layer to a send call: the int it returns. -/
abbrev send_answer := sock_call → Int

/-- Outcome of a receive call: the int it returns, and the memory as
the call left it (the header of the connection and the objects). -/
structure recv_result where
  rc : Int
  msg : ksock_msg_t
  mem : memory

abbrev recv_answer := sock_call → recv_result

/-! ## Checksum accumulator -/

/-- Modelled from the spec: ksocknal_csum, declared in the socklnd.h next to this
file, which is not among the sources at hand. The spec (2, 4.2) has it as a
stateless 32-bit rolling checksum, pure and order-dependent: the running value is
rolled over the byte range one byte after the other. The per-byte update upd is
not fixed by the spec and stays an argument; each rolled value is kept to 32
bits, and crc is the __u32 the caller passes. -/
def ksocknal_csum (upd : Nat → Nat → Nat) (crc : Nat) (p : List Nat) : Nat :=
  p.foldl (fun c b => upd c b % 2 ^ 32) crc

/-- One byte of the reflected CRC-32 (polynomial 0xedb88320), bit by bit, as
crc32_le of the Linux kernel computes it: an update the accumulator can be
built on. -/
def crc32_le_byte (crc b : Nat) : Nat :=
  (List.range 8).foldl
    (fun c _ => if c % 2 = 1 then (c / 2) ^^^ 0xedb88320 else c / 2) (crc ^^^ b)

/-! ## Transmit path -/

/-- Sum of the lengths of staged fragments (the nob loops). -/
def iov_nob (iov : List iovec) : Int :=
  iov.foldl (fun nob v => nob + (v.iov_len : Int)) 0

/-- The flag word of a send call: MSG_DONTWAIT, with MSG_MORE or-ed in when
the transmit queue is not empty or fewer bytes are offered than remain. -/
def send_flags (conn : ksock_conn_t) (tx : ksock_tx_t) (nob : Int) : Nat :=
  if ¬ conn.ksnc_tx_queue.isEmpty ∨ nob < tx.tx_resid then MSG_DONTWAIT ||| MSG_MORE
  else MSG_DONTWAIT

/-- Body of ksocknal_lib_csum_tx (lines 654-691). Returns the unit with its
checksum field stored and the tunables (the injection flag may be cleared). -/
def ksocknal_lib_csum_tx (upd : Nat → Nat → Nat) (mem : memory) (tun : ksock_tunables_t)
    (tx : ksock_tx_t) : Option (ksock_tx_t × ksock_tunables_t) :=
  match tx.tx_iov with
  | [] => none
  | hdr :: _ =>
    -- LASSERT(tx->tx_iov[0].iov_base == (void *)&tx->tx_msg)
    if hdr.iov_base ≠ iov_base_t.msg 0 then none
    else
      match tx.tx_conn with
      -- LASSERT(tx->tx_conn != NULL)
      | none => none
      | some proto =>
        -- LASSERT(tx->tx_conn->ksnc_proto == &ksocknal_protocol_v2x)
        if proto ≠ ksocknal_protocol_v2x then none
        else
          -- tx->tx_msg.ksm_csum = 0
          let msg0 : ksock_msg_t := { tx.tx_msg with ksm_csum := 0 }
          let csum0 := ksocknal_csum upd 0xffffffff (iov_bytes mem msg0 hdr)
          let csum1 :=
            match tx.tx_kiov with
            | some kiov =>
              kiov.foldl (fun c k => ksocknal_csum upd c (kiov_bytes mem msg0 k)) csum0
            | none =>
              (tx.tx_iov.drop 1).foldl (fun c v => ksocknal_csum upd c (iov_bytes mem msg0 v)) csum0
          if tun.ksnd_inject_csum_error ≠ 0 then
            -- csum++ on a __u32, and the flag is cleared
            some ({ tx with tx_msg := { msg0 with ksm_csum := (csum1 + 1) % 2 ^ 32 } },
                  { tun with ksnd_inject_csum_error := 0 })
          else
            some ({ tx with tx_msg := { msg0 with ksm_csum := csum1 } }, tun)

/-- What a send attempt leaves behind. -/
structure send_result where
  rc : Int
  tx : ksock_tx_t
  tunables : ksock_tunables_t
  events : List event
  deriving DecidableEq, Repr

/-- The test that guards the call of ksocknal_lib_csum_tx (lines 375-378). -/
def csum_wanted (tun : ksock_tunables_t) (conn : ksock_conn_t) (tx : ksock_tx_t) : Prop :=
  tun.ksnd_enable_csum ≠ 0 ∧ conn.ksnc_proto = ksocknal_protocol_v2x ∧
    tx.tx_nob = tx.tx_resid ∧ tx.tx_msg.ksm_csum = 0

instance (tun : ksock_tunables_t) (conn : ksock_conn_t) (tx : ksock_tx_t) :
    Decidable (csum_wanted tun conn tx) := by
  unfold csum_wanted; infer_instance

/-- Body of ksocknal_lib_send_iov (lines 368-419). -/
def ksocknal_lib_send_iov (cfg : build_config) (upd : Nat → Nat → Nat) (mem : memory)
    (sock : send_answer) (tun : ksock_tunables_t) (conn : ksock_conn_t) (tx : ksock_tx_t) :
    Option send_result :=
  let csummed : Option (ksock_tx_t × ksock_tunables_t × List event) :=
    if csum_wanted tun conn tx then
      (ksocknal_lib_csum_tx upd mem tun tx).map (fun r => (r.1, r.2, [event.csum_tx]))
    else some (tx, tun, [])
  match csummed with
  | none => none
  | some (tx1, tun1, ev) =>
    let niov : Nat := if cfg.SOCKNAL_SINGLE_FRAG_TX then 1 else tx1.tx_niov
    -- scratchiov[i] = tx->tx_iov[i] for i < niov
    if niov > tx1.tx_iov.length then none
    else
      let scratchiov := tx1.tx_iov.take niov
      let nob := iov_nob scratchiov
      let c := sock_call.sock_sendmsg scratchiov (send_flags conn tx1 nob) nob
      some { rc := sock c, tx := tx1, tunables := tun1, events := ev ++ [event.call c] }

/-- Result of a page send attempt: nothing of the unit or the tunables is written. -/
structure send_kiov_result where
  rc : Int
  events : List event
  deriving DecidableEq, Repr

/-- The test that selects the zero-copy branch (lines 432-433). -/
def zc_wanted (tun : ksock_tunables_t) (tx : ksock_tx_t) (k : lnet_kiov_t) : Prop :=
  k.kiov_len ≥ tun.ksnd_zc_min_frag ∧ tx.tx_msg.ksm_zc_req_cookie ≠ 0

instance (tun : ksock_tunables_t) (tx : ksock_tx_t) (k : lnet_kiov_t) :
    Decidable (zc_wanted tun tx k) := by
  unfold zc_wanted; infer_instance

/-- Body of ksocknal_lib_send_kiov (lines 421-496). -/
def ksocknal_lib_send_kiov (cfg : build_config) (sock : send_answer) (tun : ksock_tunables_t)
    (conn : ksock_conn_t) (tx : ksock_tx_t) : Option send_kiov_result :=
  match tx.tx_kiov with
  | none => none
  | some [] => none
  | some (k :: ks) =>
    if zc_wanted tun tx k then
      let fragsize : Nat := k.kiov_len
      let msgflg := send_flags conn tx (fragsize : Int)
      let c :=
        if conn.sk_prot_sendpage then
          sock_call.sendpage k.kiov_page k.kiov_offset fragsize msgflg
        else sock_call.tcp_sendpage k.kiov_page k.kiov_offset fragsize msgflg
      some { rc := sock c, events := [event.call c] }
    else
      let niov : Nat :=
        if cfg.SOCKNAL_SINGLE_FRAG_TX || !cfg.SOCKNAL_RISK_KMAP_DEADLOCK then 1
        else (k :: ks).length
      let scratchiov := ((k :: ks).take niov).map kiov_map
      let nob := iov_nob scratchiov
      let c := sock_call.sock_sendmsg scratchiov (send_flags conn tx nob) nob
      some { rc := sock c, events := [event.call c] }

/-! ## Receive path -/

/-- The checksum accumulation loop of the receive functions (lines 568-577 and
630-646): i walks the staged fragments, sum counts down from rc. -/
def rx_csum_loop (upd : Nat → Nat → Nat) (mem : memory) (m : ksock_msg_t) :
    List iovec → Int → Nat → Option Nat
  | [], sum, csum => if sum > 0 then none else some csum
  | v :: rest, sum, csum =>
    if sum > 0 then
      let fragnob : Int := if (v.iov_len : Int) > sum then sum else (v.iov_len : Int)
      rx_csum_loop upd mem m rest (sum - fragnob)
        (ksocknal_csum upd csum (mem_read mem m v.iov_base fragnob.toNat))
    else some csum

/-- What a receive attempt leaves behind. -/
structure recv_outcome where
  rc : Int
  conn : ksock_conn_t
  mem : memory
  events : List event

/-- Body of ksocknal_lib_recv_iov (lines 516-582). -/
def ksocknal_lib_recv_iov (cfg : build_config) (upd : Nat → Nat → Nat) (sock : recv_answer)
    (conn : ksock_conn_t) : Option recv_outcome :=
  let niov : Nat := if cfg.SOCKNAL_SINGLE_FRAG_RX then 1 else conn.ksnc_rx_niov
  let iov := conn.ksnc_rx_iov
  -- LASSERT (niov > 0)
  if ¬ niov > 0 then none
  else if niov > iov.length then none
  else
    let scratchiov := iov.take niov
    let nob := iov_nob scratchiov
    -- LASSERT (nob <= conn->ksnc_rx_nob_wanted)
    if ¬ nob ≤ conn.ksnc_rx_nob_wanted then none
    else
      let c := sock_call.sock_recvmsg scratchiov 0 nob MSG_DONTWAIT
      let r := sock c
      let v2x : Bool := decide (conn.ksnc_proto = ksocknal_protocol_v2x)
      let saved_csum : Nat := if v2x then r.msg.ksm_csum else 0
      let msg0 : ksock_msg_t := if v2x then { r.msg with ksm_csum := 0 } else r.msg
      if saved_csum ≠ 0 then
        match rx_csum_loop upd r.mem msg0 (iov.take niov) r.rc conn.ksnc_rx_csum with
        | none => none
        | some csum =>
          some { rc := r.rc,
                 conn := { conn with ksnc_rx_csum := csum,
                                     ksnc_msg := { msg0 with ksm_csum := saved_csum } },
                 mem := r.mem, events := [event.call c] }
      else
        some { rc := r.rc, conn := { conn with ksnc_msg := msg0 }, mem := r.mem,
               events := [event.call c] }

/-- Body of ksocknal_lib_recv_kiov (lines 584-652). -/
def ksocknal_lib_recv_kiov (cfg : build_config) (upd : Nat → Nat → Nat) (sock : recv_answer)
    (conn : ksock_conn_t) : Option recv_outcome :=
  let niov : Nat :=
    if cfg.SOCKNAL_SINGLE_FRAG_RX || !cfg.SOCKNAL_RISK_KMAP_DEADLOCK then 1
    else conn.ksnc_rx_nkiov
  let kiov := conn.ksnc_rx_kiov
  if niov > kiov.length then none
  else
    let scratchiov := (kiov.take niov).map kiov_map
    let nob := iov_nob scratchiov
    -- LASSERT (nob <= conn->ksnc_rx_nob_wanted)
    if ¬ nob ≤ conn.ksnc_rx_nob_wanted then none
    else
      let c := sock_call.sock_recvmsg scratchiov 0 nob MSG_DONTWAIT
      let r := sock c
      if r.msg.ksm_csum ≠ 0 then
        match rx_csum_loop upd r.mem r.msg ((kiov.take niov).map kiov_map) r.rc
            conn.ksnc_rx_csum with
        | none => none
        | some csum =>
          some { rc := r.rc, conn := { conn with ksnc_rx_csum := csum, ksnc_msg := r.msg },
                 mem := r.mem, events := [event.call c] }
      else
        some { rc := r.rc, conn := { conn with ksnc_msg := r.msg }, mem := r.mem,
               events := [event.call c] }

/-! ## The checksum of a unit -/

/-- The first fragment of the unit is its header: tx_iov[0].iov_base is &tx_msg. -/
def tx_header_first (tx : ksock_tx_t) : Prop :=
  tx.tx_iov.head?.map (fun v => v.iov_base) = some (iov_base_t.msg 0)

instance (tx : ksock_tx_t) : Decidable (tx_header_first tx) := by
  unfold tx_header_first; infer_instance

/-- The byte range the loops of ksocknal_lib_csum_tx walk: the header fragment
read with the checksum field zero, then the page fragments when tx_kiov is not
NULL, the buffer fragments after the header otherwise. -/
def tx_csum_bytes (mem : memory) (tx : ksock_tx_t) : List Nat :=
  let msg0 : ksock_msg_t := { tx.tx_msg with ksm_csum := 0 }
  ((tx.tx_iov.take 1).map (iov_bytes mem msg0)).flatten ++
    (match tx.tx_kiov with
     | some kiov => (kiov.map (kiov_bytes mem msg0)).flatten
     | none => ((tx.tx_iov.drop 1).map (iov_bytes mem msg0)).flatten)

/-- The checksum of the unit before any fault injection: seeded with ~0. -/
def tx_true_csum (upd : Nat → Nat → Nat) (mem : memory) (tx : ksock_tx_t) : Nat :=
  ksocknal_csum upd 0xffffffff (tx_csum_bytes mem tx)

/-! ## Repeated send attempts on one unit -/

/-- Modelled from the spec: the bookkeeping of the caller between two attempts
(ksocknal_send_iov in socklnd_cb.c, which is not among the sources at hand). An
attempt that sent nothing (rc <= 0, the socket would block) leaves the unit as it
is; after rc > 0 bytes went out tx_resid is lowered by rc and tx_iov is advanced
to iov, the fragments still to go. -/
def tx_advance (tx : ksock_tx_t) (rc : Int) (iov : List iovec) : ksock_tx_t :=
  if rc > 0 then { tx with tx_resid := tx.tx_resid - rc, tx_iov := iov } else tx

/-- A sequence of ksocknal_lib_send_iov attempts on one unit. Each round gives
the answer of the socket to that attempt and the fragment list the caller
advances to when bytes went out; the tunables are carried from attempt to
attempt. The result lists what every attempt left behind. -/
def send_iov_attempts (cfg : build_config) (upd : Nat → Nat → Nat) (mem : memory)
    (conn : ksock_conn_t) :
    ksock_tunables_t → ksock_tx_t → List (send_answer × List iovec) → Option (List send_result)
  | _, _, [] => some []
  | tun, tx, (sock, iov) :: more =>
    match ksocknal_lib_send_iov cfg upd mem sock tun conn tx with
    | none => none
    | some r =>
      (send_iov_attempts cfg upd mem conn r.tunables (tx_advance r.tx r.rc iov) more).map
        (fun rs => r :: rs)

/-! ## Reading the events of an attempt -/

/-- The socket calls among the events, in order. -/
def sock_calls (evs : List event) : List sock_call :=
  evs.filterMap (fun e => match e with
    | event.call c => some c
    | event.csum_tx => none)

/-- The flag word a call carries (msg_flags of the msghdr, or msgflg). -/
def call_flags : sock_call → Nat
  | .sock_sendmsg _ f _ => f
  | .sendpage _ _ _ f => f
  | .tcp_sendpage _ _ _ f => f
  | .sock_recvmsg _ f _ _ => f

/-- The number of bytes a call offers to (or asks from) the socket. -/
def call_offered : sock_call → Int
  | .sock_sendmsg _ _ nob => nob
  | .sendpage _ _ fragsize _ => (fragsize : Int)
  | .tcp_sendpage _ _ fragsize _ => (fragsize : Int)
  | .sock_recvmsg _ _ nob _ => nob

/-- A zero-copy page transfer: sendpage of the protocol, or tcp_sendpage. -/
def is_page_transfer : sock_call → Bool
  | .sendpage _ _ _ _ => true
  | .tcp_sendpage _ _ _ _ => true
  | _ => false

/-- A flag is set in a flag word. -/
def flag_set (flags flag : Nat) : Prop := flags &&& flag ≠ 0

instance (flags flag : Nat) : Decidable (flag_set flags flag) := by
  unfold flag_set; infer_instance

/-! ## Readiness callbacks (lines 933-1036)

The socket is seen through the fields the callbacks read and write. A
connection is named by its address. Functions outside this file (the targets a
socket held before the driver borrowed its notification slot,
ksocknal_read_callback, ksocknal_write_callback) and the operations on the global
lock are recorded as events, in the order the code makes them; what those
functions do is their own affair. -/

/-- What a notification slot of a socket can point at: one of the two callbacks
of this driver, or some other function. -/
inductive sk_callback where
  | ksocknal_data_ready
  | ksocknal_write_space
  | other (id : Nat)
  deriving DecidableEq, Repr

/-- The bit of sk->sk_socket->flags that says the socket ran out of send space. -/
def SOCK_NOSPACE : Nat := 2

/-- The socket as the callbacks see it: the binding sk_user_data (NULL or the
address of a connection), the two notification slots, the values the macros
SOCKNAL_WSPACE(sk) and SOCKNAL_MIN_WSPACE(sk) yield, and the bits of
sk->sk_socket->flags. -/
structure struct_sock where
  sk_user_data : Option Nat
  sk_data_ready : sk_callback
  sk_write_space : sk_callback
  wspace : Int
  min_wspace : Int
  flags : Nat → Bool

/-- The function clear_bit(nr, addr) on a flag word. -/
def clear_bit (nr : Nat) (flags : Nat → Bool) : Nat → Bool :=
  fun i => if i = nr then false else flags i

/-- What a callback does that is visible outside it. -/
inductive sk_event where
  | read_lock
  | read_unlock
  | load_user_data
  | sk_data_ready (target : sk_callback) (n : Int)
  | sk_write_space (target : sk_callback)
  | ksocknal_read_callback (conn : Nat)
  | ksocknal_write_callback (conn : Nat)
  | clear_bit (nr : Nat)
  deriving DecidableEq, Repr

/-- What a callback leaves behind: the socket and the events, in order. -/
structure callback_result where
  sk : struct_sock
  events : List sk_event

/-- Body of ksocknal_data_ready (lines 938-958). -/
def ksocknal_data_ready (in_irq : Bool) (sk : struct_sock) (n : Int) :
    Option callback_result :=
  -- LASSERT(!in_irq())
  if in_irq then none
  else
    match sk.sk_user_data with
    | none =>
      -- LASSERT (sk->sk_data_ready != &ksocknal_data_ready)
      if sk.sk_data_ready = sk_callback.ksocknal_data_ready then none
      else
        some { sk := sk,
               events := [sk_event.read_lock, sk_event.load_user_data,
                          sk_event.sk_data_ready sk.sk_data_ready n, sk_event.read_unlock] }
    | some conn =>
      some { sk := sk,
             events := [sk_event.read_lock, sk_event.load_user_data,
                        sk_event.ksocknal_read_callback conn, sk_event.read_unlock] }

/-- Body of ksocknal_write_space (lines 960-1003). -/
def ksocknal_write_space (in_irq : Bool) (sk : struct_sock) : Option callback_result :=
  -- LASSERT(!in_irq())
  if in_irq then none
  else
    let wspace := sk.wspace
    let min_wpace := sk.min_wspace
    match sk.sk_user_data with
    | none =>
      -- LASSERT (sk->sk_write_space != &ksocknal_write_space)
      if sk.sk_write_space = sk_callback.ksocknal_write_space then none
      else
        some { sk := sk,
               events := [sk_event.read_lock, sk_event.load_user_data,
                          sk_event.sk_write_space sk.sk_write_space, sk_event.read_unlock] }
    | some conn =>
      if wspace ≥ min_wpace then
        some { sk := { sk with flags := clear_bit SOCK_NOSPACE sk.flags },
               events := [sk_event.read_lock, sk_event.load_user_data,
                          sk_event.ksocknal_write_callback conn,
                          sk_event.clear_bit SOCK_NOSPACE, sk_event.read_unlock] }
      else
        some { sk := sk,
               events := [sk_event.read_lock, sk_event.load_user_data, sk_event.read_unlock] }

/-- The two fields of the connection record the callback bookkeeping writes and
reads: the notification targets the socket held before the connection
borrowed its slot. -/
structure ksock_conn_saved where
  ksnc_saved_data_ready : sk_callback
  ksnc_saved_write_space : sk_callback
  deriving DecidableEq, Repr

/-- Body of ksocknal_lib_save_callback (lines 1005-1010): the connection record
after the call. -/
def ksocknal_lib_save_callback (sk : struct_sock) (_conn : ksock_conn_saved) :
    ksock_conn_saved :=
  { ksnc_saved_data_ready := sk.sk_data_ready, ksnc_saved_write_space := sk.sk_write_space }

/-- Body of ksocknal_lib_set_callback (lines 1012-1019): the socket after the
call; conn is the address of the connection. -/
def ksocknal_lib_set_callback (sk : struct_sock) (conn : Nat) : struct_sock :=
  { sk with sk_user_data := some conn,
            sk_data_ready := sk_callback.ksocknal_data_ready,
            sk_write_space := sk_callback.ksocknal_write_space }

/-- Body of ksocknal_lib_reset_callback (lines 1021-1036): the socket after the
call. -/
def ksocknal_lib_reset_callback (sk : struct_sock) (conn : ksock_conn_saved) : struct_sock :=
  { sk with sk_data_ready := conn.ksnc_saved_data_ready,
            sk_write_space := conn.ksnc_saved_write_space,
            sk_user_data := none }

/-- A readiness notification the networking layer delivers to a socket:
readable with the byte count it passes on, or write space regained, with the
values SOCKNAL_WSPACE and SOCKNAL_MIN_WSPACE have at that moment. -/
inductive sk_notification where
  | readable (n : Int)
  | writable (wspace : Int) (min_wspace : Int)
  deriving DecidableEq, Repr

/-- One notification handled by the callbacks of this driver, outside
interrupt context. -/
def sk_notify (sk : struct_sock) : sk_notification → Option callback_result
  | .readable n => ksocknal_data_ready false sk n
  | .writable w m => ksocknal_write_space false { sk with wspace := w, min_wspace := m }

/-- A sequence of notifications handled one after the other; the result lists
the events of each, and the socket at the end. -/
def sk_notify_all : struct_sock → List sk_notification →
    Option (struct_sock × List (List sk_event))
  | sk, [] => some (sk, [])
  | sk, e :: more =>
    match sk_notify sk e with
    | none => none
    | some r => (sk_notify_all r.sk more).map (fun p => (p.1, r.events :: p.2))

/-- The events of a callback that only forwards a notification to target. -/
def forward_events (target_ready target_space : sk_callback) : sk_notification → List sk_event
  | .readable n =>
    [sk_event.read_lock, sk_event.load_user_data, sk_event.sk_data_ready target_ready n,
     sk_event.read_unlock]
  | .writable _ _ =>
    [sk_event.read_lock, sk_event.load_user_data, sk_event.sk_write_space target_space,
     sk_event.read_unlock]

/-! ## Socket set-up (lines 727-874) -/

/-- Compile-time switches ksocknal_lib_setup_sock depends on. -/
structure setup_build where
  SOCKNAL_BACKOFF : Bool
  SOCKNAL_BACKOFF_MS : Bool
  deriving DecidableEq, Repr

/-- The tunables ksocknal_lib_setup_sock reads (each an int behind a pointer in
ksocknal_tunables). -/
structure ksock_setup_tunables_t where
  ksnd_nagle : Int
  ksnd_tx_buffer_size : Int
  ksnd_rx_buffer_size : Int
  ksnd_backoff_init : Int
  ksnd_backoff_max : Int
  ksnd_keepalive_idle : Int
  ksnd_keepalive_count : Int
  ksnd_keepalive_intvl : Int
  deriving DecidableEq, Repr

/-- One option-setting call, named by the option it sets, with the value
passed. SO_LINGER and SO_KEEPALIVE go through sock_setsockopt at SOL_SOCKET, the
TCP options through sock->ops->setsockopt at SOL_TCP, the buffer sizes through
libcfs_sock_setbuf. -/
inductive sockopt_call where
  | SO_LINGER (l_onoff : Int) (l_linger : Int)
  | TCP_LINGER2 (option : Int)
  | TCP_NODELAY (option : Int)
  | libcfs_sock_setbuf (txbufsize : Int) (rxbufsize : Int)
  | TCP_BACKOFF_INIT (option : Int)
  | TCP_BACKOFF_MAX (option : Int)
  | SO_KEEPALIVE (option : Int)
  | TCP_KEEPIDLE (option : Int)
  | TCP_KEEPINTVL (option : Int)
  | TCP_KEEPCNT (option : Int)
  deriving DecidableEq, Repr

/-- The answer of the socket layer to an option-setting call: the int it returns. -/
abbrev sockopt_answer := sockopt_call → Int

/-- The allocation modes sk_allocation is given. -/
inductive gfp_t where
  | GFP_NOFS
  | other (v : Nat)
  deriving DecidableEq, Repr

/-- What ksocknal_lib_setup_sock leaves behind: the value it returns, the
option calls it issued, in order, and sk_allocation. -/
structure setup_result where
  rc : Int
  calls : List sockopt_call
  sk_allocation : gfp_t
  deriving DecidableEq, Repr

/-- One step of the set-up: issue the call c after the calls done; a non-zero
answer is returned at once (rc = ...; if (rc != 0) return rc), otherwise go on. -/
def sockopt_step (ans : sockopt_answer) (c : sockopt_call) (done : List sockopt_call)
    (next : List sockopt_call → setup_result) : setup_result :=
  if ans c ≠ 0 then { rc := ans c, calls := done ++ [c], sk_allocation := gfp_t.GFP_NOFS }
  else next (done ++ [c])

/-- A value stored in a 32-bit C int: the two's-complement wrap of x. -/
def int32_wrap (x : Int) : Int :=
  (x + 2 ^ 31) % 2 ^ 32 - 2 ^ 31

/-- The value passed for a back-off tunable: option = tunable, and under
SOCKNAL_BACKOFF_MS option *= 1000, on the C int option. -/
def backoff_option (b : setup_build) (v : Int) : Int :=
  if b.SOCKNAL_BACKOFF_MS then int32_wrap (v * 1000) else v

/-- Body of ksocknal_lib_setup_sock (lines 727-874). -/
def ksocknal_lib_setup_sock (b : setup_build) (ans : sockopt_answer)
    (tun : ksock_setup_tunables_t) : setup_result :=
  -- sock->sk->sk_allocation = GFP_NOFS comes first; every result carries it
  sockopt_step ans (sockopt_call.SO_LINGER 0 0) [] fun d1 =>
  sockopt_step ans (sockopt_call.TCP_LINGER2 (-1)) d1 fun d2 =>
  (fun (next : List sockopt_call → setup_result) =>
    -- if (!*ksocknal_tunables.ksnd_nagle)
    if tun.ksnd_nagle == 0 then sockopt_step ans (sockopt_call.TCP_NODELAY 1) d2 next
    else next d2) fun d3 =>
  sockopt_step ans
    (sockopt_call.libcfs_sock_setbuf tun.ksnd_tx_buffer_size tun.ksnd_rx_buffer_size) d3
    fun d4 =>
  (fun (next : List sockopt_call → setup_result) =>
    -- #ifdef SOCKNAL_BACKOFF, if (*ksocknal_tunables.ksnd_backoff_init > 0)
    if b.SOCKNAL_BACKOFF && decide (tun.ksnd_backoff_init > 0) then
      sockopt_step ans (sockopt_call.TCP_BACKOFF_INIT (backoff_option b tun.ksnd_backoff_init))
        d4 next
    else next d4) fun d5 =>
  (fun (next : List sockopt_call → setup_result) =>
    -- #ifdef SOCKNAL_BACKOFF, if (*ksocknal_tunables.ksnd_backoff_max > 0)
    if b.SOCKNAL_BACKOFF && decide (tun.ksnd_backoff_max > 0) then
      sockopt_step ans (sockopt_call.TCP_BACKOFF_MAX (backoff_option b tun.ksnd_backoff_max))
        d5 next
    else next d5) fun d6 =>
  -- snapshot tunables
  let keep_idle := tun.ksnd_keepalive_idle
  let keep_count := tun.ksnd_keepalive_count
  let keep_intvl := tun.ksnd_keepalive_intvl
  let do_keepalive : Bool :=
    decide (keep_idle > 0) && decide (keep_count > 0) && decide (keep_intvl > 0)
  sockopt_step ans (sockopt_call.SO_KEEPALIVE (if do_keepalive then 1 else 0)) d6 fun d7 =>
  if !do_keepalive then { rc := 0, calls := d7, sk_allocation := gfp_t.GFP_NOFS }
  else
    sockopt_step ans (sockopt_call.TCP_KEEPIDLE keep_idle) d7 fun d8 =>
    sockopt_step ans (sockopt_call.TCP_KEEPINTVL keep_intvl) d8 fun d9 =>
    sockopt_step ans (sockopt_call.TCP_KEEPCNT keep_count) d9 fun d10 =>
    { rc := 0, calls := d10, sk_allocation := gfp_t.GFP_NOFS }

/-- The option calls ksocknal_lib_setup_sock makes when none fails, in order. -/
def setup_plan (b : setup_build) (tun : ksock_setup_tunables_t) : List sockopt_call :=
  [sockopt_call.SO_LINGER 0 0, sockopt_call.TCP_LINGER2 (-1)] ++
  (if tun.ksnd_nagle == 0 then [sockopt_call.TCP_NODELAY 1] else []) ++
  [sockopt_call.libcfs_sock_setbuf tun.ksnd_tx_buffer_size tun.ksnd_rx_buffer_size] ++
  (if b.SOCKNAL_BACKOFF && decide (tun.ksnd_backoff_init > 0) then
    [sockopt_call.TCP_BACKOFF_INIT (backoff_option b tun.ksnd_backoff_init)] else []) ++
  (if b.SOCKNAL_BACKOFF && decide (tun.ksnd_backoff_max > 0) then
    [sockopt_call.TCP_BACKOFF_MAX (backoff_option b tun.ksnd_backoff_max)] else []) ++
  [sockopt_call.SO_KEEPALIVE
    (if decide (tun.ksnd_keepalive_idle > 0) && decide (tun.ksnd_keepalive_count > 0) &&
        decide (tun.ksnd_keepalive_intvl > 0) then 1 else 0)] ++
  (if decide (tun.ksnd_keepalive_idle > 0) && decide (tun.ksnd_keepalive_count > 0) &&
      decide (tun.ksnd_keepalive_intvl > 0) then
    [sockopt_call.TCP_KEEPIDLE tun.ksnd_keepalive_idle,
     sockopt_call.TCP_KEEPINTVL tun.ksnd_keepalive_intvl,
     sockopt_call.TCP_KEEPCNT tun.ksnd_keepalive_count] else [])

/-- A list of option calls issued one after the other until one fails. -/
def run_plan (ans : sockopt_answer) : List sockopt_call → List sockopt_call → setup_result
  | [], done => { rc := 0, calls := done, sk_allocation := gfp_t.GFP_NOFS }
  | c :: rest, done =>
    if ans c ≠ 0 then { rc := ans c, calls := done ++ [c], sk_allocation := gfp_t.GFP_NOFS }
    else run_plan ans rest (done ++ [c])

/-! ## Layout of the message header (socklnd.h) -/

/-- Members of ksock_msg_t, in declaration order (socklnd.h, lines 72-80). -/
inductive ksock_msg_field where
  | ksm_type
  | ksm_csum
  | ksm_zc_req_cookie
  | ksm_zc_ack_cookie
  | ksm_u
  deriving DecidableEq, Repr

/-- Types of the members: the fixed-width integers __u32 and __u64, and an
aggregate (the union ksm_u) of a given size and alignment. -/
inductive c_type where
  | u32
  | u64
  | aggregate (size align : Nat)
  deriving DecidableEq, Repr

def c_sizeof : c_type → Nat
  | c_type.u32 => 4
  | c_type.u64 => 8
  | c_type.aggregate size _ => size

def c_alignof : c_type → Nat
  | c_type.u32 => 4
  | c_type.u64 => 8
  | c_type.aggregate _ align => align

/-- The declaration of ksock_msg_t: member and type, in source order. The union
holds a ksock_lnet_msg_t, whose size and alignment come from lnet_hdr_t. -/
def ksock_msg_decl (ksm_u_type : c_type) : List (ksock_msg_field × c_type) :=
  [(ksock_msg_field.ksm_type, c_type.u32),
   (ksock_msg_field.ksm_csum, c_type.u32),
   (ksock_msg_field.ksm_zc_req_cookie, c_type.u64),
   (ksock_msg_field.ksm_zc_ack_cookie, c_type.u64),
   (ksock_msg_field.ksm_u, ksm_u_type)]

/-- Smallest multiple of align that is not below off (off itself when align is 0). -/
def align_up (off align : Nat) : Nat :=
  if align = 0 then off else (off + align - 1) / align * align

/-- Byte offsets the compiler gives the members of a struct, starting at cur:
a packed struct places each member right after the one before; otherwise each
member is first moved up to its alignment. -/
def struct_offsets (packed : Bool) :
    Nat → List (ksock_msg_field × c_type) → List (ksock_msg_field × Nat)
  | _, [] => []
  | cur, (f, t) :: rest =>
    let off := if packed then cur else align_up cur (c_alignof t)
    (f, off) :: struct_offsets packed (off + c_sizeof t) rest

/-- The offsetof of a member of ksock_msg_t. -/
def ksock_msg_offsetof (packed : Bool) (ksm_u_type : c_type) (f : ksock_msg_field) :
    Option Nat :=
  ((struct_offsets packed 0 (ksock_msg_decl ksm_u_type)).find? (fun p => p.1 == f)).map
    (fun p => p.2)

/-- Value of an unsigned integer stored least significant byte first. -/
def le_value (bytes : List Nat) : Nat :=
  bytes.foldr (fun b acc => b + 256 * acc) 0

/-- The len bytes of a memory image that start at byte off. -/
def bytes_at (image : List Nat) (off len : Nat) : List Nat :=
  (image.drop off).take len

/-! ## Object metadata (obd_class.h) -/

def OBD_FL_INLINEDATA : Nat := 0x00000001

def OBD_FL_OBDMDEXISTS : Nat := 0x00000002

def OBD_MD_FLID : Nat := 0x00000001

def OBD_MD_FLATIME : Nat := 0x00000002

def OBD_MD_FLMTIME : Nat := 0x00000004

def OBD_MD_FLCTIME : Nat := 0x00000008

def OBD_MD_FLSIZE : Nat := 0x00000010

def OBD_MD_FLBLOCKS : Nat := 0x00000020

def OBD_MD_FLBLKSZ : Nat := 0x00000040

def OBD_MD_FLMODE : Nat := 0x00000080

def OBD_MD_FLUID : Nat := 0x00000100

def OBD_MD_FLGID : Nat := 0x00000200

def OBD_MD_FLFLAGS : Nat := 0x00000400

def OBD_MD_FLOBDFLG : Nat := 0x00000800

def OBD_MD_FLNLINK : Nat := 0x00001000

def OBD_MD_FLGENER : Nat := 0x00002000

def OBD_MD_FLINLINE : Nat := 0x00004000

def OBD_MD_FLOBDMD : Nat := 0x00008000

/-- The object descriptor struct obdo (obd_class.h, lines 45-66), without the
list linkage o_list and the method table o_op, which the metadata functions do
not touch. The two byte arrays are kept as lists. -/
structure obdo where
  o_id : Nat
  o_gr : Nat
  o_atime : Nat
  o_mtime : Nat
  o_ctime : Nat
  o_size : Nat
  o_blocks : Nat
  o_blksize : Nat
  o_mode : Nat
  o_uid : Nat
  o_gid : Nat
  o_flags : Nat
  o_obdflags : Nat
  o_nlink : Nat
  o_generation : Nat
  o_valid : Nat
  o_inline : List Nat
  o_obdmd : List Nat
  deriving DecidableEq, Repr

/-- Body of obdo_cpy_md (obd_class.h, lines 301-345); the CDEBUG line only logs. -/
def obdo_cpy_md (dst src : obdo) : obdo :=
  let dst := if src.o_valid &&& OBD_MD_FLATIME ≠ 0 then { dst with o_atime := src.o_atime } else dst
  let dst := if src.o_valid &&& OBD_MD_FLMTIME ≠ 0 then { dst with o_mtime := src.o_mtime } else dst
  let dst := if src.o_valid &&& OBD_MD_FLCTIME ≠ 0 then { dst with o_ctime := src.o_ctime } else dst
  let dst := if src.o_valid &&& OBD_MD_FLSIZE ≠ 0 then { dst with o_size := src.o_size } else dst
  let dst := if src.o_valid &&& OBD_MD_FLBLOCKS ≠ 0 then { dst with o_blocks := src.o_blocks } else dst
  let dst := if src.o_valid &&& OBD_MD_FLBLKSZ ≠ 0 then { dst with o_blksize := src.o_blksize } else dst
  let dst := if src.o_valid &&& OBD_MD_FLMODE ≠ 0 then { dst with o_mode := src.o_mode } else dst
  let dst := if src.o_valid &&& OBD_MD_FLUID ≠ 0 then { dst with o_uid := src.o_uid } else dst
  let dst := if src.o_valid &&& OBD_MD_FLGID ≠ 0 then { dst with o_gid := src.o_gid } else dst
  let dst := if src.o_valid &&& OBD_MD_FLFLAGS ≠ 0 then { dst with o_flags := src.o_flags } else dst
  -- the copy of o_obdflags under OBD_MD_FLOBDFLG is commented out in the source
  let dst := if src.o_valid &&& OBD_MD_FLNLINK ≠ 0 then { dst with o_nlink := src.o_nlink } else dst
  let dst := if src.o_valid &&& OBD_MD_FLGENER ≠ 0 then
    { dst with o_generation := src.o_generation } else dst
  let dst :=
    if src.o_valid &&& OBD_MD_FLINLINE ≠ 0 ∧ src.o_obdflags &&& OBD_FL_INLINEDATA ≠ 0 then
      { dst with o_inline := src.o_inline,
                 o_obdflags := dst.o_obdflags ||| OBD_FL_INLINEDATA }
    else dst
  let dst :=
    if src.o_valid &&& OBD_MD_FLOBDMD ≠ 0 ∧ src.o_obdflags &&& OBD_FL_OBDMDEXISTS ≠ 0 then
      { dst with o_obdmd := src.o_obdmd,
                 o_obdflags := dst.o_obdflags ||| OBD_FL_OBDMDEXISTS }
    else dst
  { dst with o_valid := dst.o_valid ||| src.o_valid }

/-- One line of obdo_cmp_md: under a flag of compare, res = (res || differs). -/
def cmp_md_step (compare flag : Nat) (differs : Bool) (res : Int) : Int :=
  if compare &&& flag ≠ 0 then (if res ≠ 0 ∨ differs = true then 1 else 0) else res

/-- Body of obdo_cmp_md (obd_class.h, lines 408-445). -/
def obdo_cmp_md (dst src : obdo) (compare : Nat) : Int :=
  let res : Int := 0
  let res := cmp_md_step compare OBD_MD_FLATIME (decide (dst.o_atime ≠ src.o_atime)) res
  let res := cmp_md_step compare OBD_MD_FLMTIME (decide (dst.o_mtime ≠ src.o_mtime)) res
  let res := cmp_md_step compare OBD_MD_FLCTIME (decide (dst.o_ctime ≠ src.o_ctime)) res
  let res := cmp_md_step compare OBD_MD_FLSIZE (decide (dst.o_size ≠ src.o_size)) res
  let res := cmp_md_step compare OBD_MD_FLBLOCKS (decide (dst.o_blocks ≠ src.o_blocks)) res
  let res := cmp_md_step compare OBD_MD_FLBLKSZ (decide (dst.o_blksize ≠ src.o_blksize)) res
  let res := cmp_md_step compare OBD_MD_FLMODE (decide (dst.o_mode ≠ src.o_mode)) res
  let res := cmp_md_step compare OBD_MD_FLUID (decide (dst.o_uid ≠ src.o_uid)) res
  let res := cmp_md_step compare OBD_MD_FLGID (decide (dst.o_gid ≠ src.o_gid)) res
  let res := cmp_md_step compare OBD_MD_FLFLAGS (decide (dst.o_flags ≠ src.o_flags)) res
  let res := cmp_md_step compare OBD_MD_FLNLINK (decide (dst.o_nlink ≠ src.o_nlink)) res
  let res := cmp_md_step compare OBD_MD_FLGENER
    (decide (dst.o_generation ≠ src.o_generation)) res
  -- the comparisons of o_inline and o_obdmd are commented out in the source
  res

/-- The twelve flags obdo_cmp_md looks at. -/
def OBD_MD_CMP_FLAGS : List Nat :=
  [OBD_MD_FLATIME, OBD_MD_FLMTIME, OBD_MD_FLCTIME, OBD_MD_FLSIZE, OBD_MD_FLBLOCKS,
   OBD_MD_FLBLKSZ, OBD_MD_FLMODE, OBD_MD_FLUID, OBD_MD_FLGID, OBD_MD_FLFLAGS,
   OBD_MD_FLNLINK, OBD_MD_FLGENER]

/-- The twelve flags of obdo_cmp_md as one mask. -/
def OBD_MD_CMP_MASK : Nat :=
  OBD_MD_CMP_FLAGS.foldl (fun a f => a ||| f) 0

/-! ## Concrete units used to evaluate the code -/

/-- An LNET message header with all cookies zero and a 72-byte zero lnet header. -/
def lnet_msg_blank : ksock_msg_t :=
  { ksm_type := KSOCK_MSG_LNET, ksm_csum := 0, ksm_zc_req_cookie := 0,
    ksm_zc_ack_cookie := 0, ksm_u := List.replicate 72 0 }

/-- Memory with one 4-byte payload buffer (object 1). -/
def mem_payload (b0 b1 b2 b3 : Nat) : memory :=
  fun id => if id = 1 then [b0, b1, b2, b3] else []

/-- A fresh unit on a V2.x connection: the 96-byte header fragment and one 4-byte
payload fragment in object 1. -/
def tx_payload4 : ksock_tx_t :=
  { tx_msg := lnet_msg_blank,
    tx_iov := [{ iov_base := .msg 0, iov_len := 96 }, { iov_base := .obj 1 0, iov_len := 4 }],
    tx_kiov := none, tx_nob := 100, tx_resid := 100,
    tx_conn := some ksocknal_protocol_v2x }

def tun_csum_on : ksock_tunables_t :=
  { ksnd_enable_csum := 1, ksnd_inject_csum_error := 0, ksnd_zc_min_frag := 2048 }

def tun_csum_inject : ksock_tunables_t :=
  { ksnd_enable_csum := 1, ksnd_inject_csum_error := 1, ksnd_zc_min_frag := 2048 }

/-- A V2.x connection with an empty transmit queue and nothing staged for receive. -/
def conn_v2x : ksock_conn_t :=
  { ksnc_proto := ksocknal_protocol_v2x, ksnc_closing := false, ksnc_tx_queue := [],
    sk_prot_sendpage := true, ksnc_rx_iov := [], ksnc_rx_kiov := [],
    ksnc_rx_nob_wanted := 0, ksnc_msg := lnet_msg_blank, ksnc_rx_csum := 0xffffffff }

/-- A build that stages several fragments per call, on send and on receive. -/
def cfg_multi_frag : build_config :=
  { SOCKNAL_SINGLE_FRAG_TX := false, SOCKNAL_SINGLE_FRAG_RX := false,
    SOCKNAL_RISK_KMAP_DEADLOCK := true }

/-- A socket that accepts nothing: every send call answers -EAGAIN (-11). -/
def sock_would_block : send_answer := fun _ => -11

/-- A socket that takes all 100 bytes of the unit tx_payload4. -/
def sock_takes_all : send_answer := fun _ => 100

/-- The unit tx_payload4 once its checksum over the payload 1 2 3 4 is stored. -/
def tx_payload4_csummed : ksock_tx_t :=
  { tx_payload4 with tx_msg := { lnet_msg_blank with ksm_csum := 784570568 } }

/-- The one send call an attempt on tx_payload4 issues: both fragments, 100
bytes, MSG_DONTWAIT alone. -/
def call_payload4 : sock_call :=
  sock_call.sock_sendmsg
    [{ iov_base := .msg 0, iov_len := 96 }, { iov_base := .obj 1 0, iov_len := 4 }] 0x40 100

/-- A paged unit after its header went out: two page fragments (4096 and 100
bytes) still to go, and a zero-copy request cookie. -/
def tx_paged : ksock_tx_t :=
  { tx_msg := { lnet_msg_blank with ksm_zc_req_cookie := 7 },
    tx_iov := [],
    tx_kiov := some [{ kiov_page := 2, kiov_len := 4096, kiov_offset := 0 },
                     { kiov_page := 3, kiov_len := 100, kiov_offset := 0 }],
    tx_nob := 4292, tx_resid := 4196, tx_conn := some ksocknal_protocol_v2x }

/-- Memory after a receive: objects 1 and 2 are 4-byte buffers, every other
object is a run of 8 bytes. -/
def mem_rx : memory :=
  fun id => if id = 1 then [1, 2, 3, 4] else if id = 2 then [5, 6, 0, 0]
    else [9, 9, 9, 9, 9, 9, 9, 9]

/-- A socket that delivers up to 6 bytes (never more than asked for) and leaves
a header whose checksum field is 5. -/
def sock_recv6 : recv_answer :=
  fun c => { rc := min (call_offered c) 6, msg := { lnet_msg_blank with ksm_csum := 5 },
             mem := mem_rx }

/-- A V2.x connection receiving into two 4-byte buffers. -/
def conn_rx_iov : ksock_conn_t :=
  { conn_v2x with
    ksnc_rx_iov := [{ iov_base := .obj 1 0, iov_len := 4 }, { iov_base := .obj 2 0, iov_len := 4 }],
    ksnc_rx_nob_wanted := 8 }

/-- A V2.x connection receiving into 8 bytes of page 5. -/
def conn_rx_kiov : ksock_conn_t :=
  { conn_v2x with
    ksnc_rx_kiov := [{ kiov_page := 5, kiov_len := 8, kiov_offset := 0 }],
    ksnc_rx_nob_wanted := 8 }

/-- The connection conn_rx_iov on a protocol other than V2.x. -/
def conn_rx_iov_v1 : ksock_conn_t := { conn_rx_iov with ksnc_proto := ksock_proto_t.other 1 }

/-- The connection conn_rx_kiov on a protocol other than V2.x. -/
def conn_rx_kiov_v1 : ksock_conn_t := { conn_rx_kiov with ksnc_proto := ksock_proto_t.other 1 }

/-- A fresh socket: nothing bound, both slots on functions of the socket layer,
16384 bytes of write space over a low-water mark of 5461, SOCK_NOSPACE set. -/
def sk_fresh : struct_sock :=
  { sk_user_data := none, sk_data_ready := sk_callback.other 1,
    sk_write_space := sk_callback.other 2, wspace := 16384, min_wspace := 5461,
    flags := fun i => decide (i = SOCK_NOSPACE) }

/-- The socket sk_fresh bound to the connection at address 42. -/
def sk_bound : struct_sock := ksocknal_lib_set_callback sk_fresh 42

/-- The socket sk_bound with only 100 bytes of write space. -/
def sk_bound_low : struct_sock := { sk_bound with wspace := 100 }

/-- A connection record that has never saved a target. -/
def conn_saved_none : ksock_conn_saved :=
  { ksnc_saved_data_ready := sk_callback.other 0, ksnc_saved_write_space := sk_callback.other 0 }

/-- The error code ESHUTDOWN of Linux. -/
def ESHUTDOWN : Int := 108

/-- The connection conn_v2x with its closing flag set. -/
def conn_closing : ksock_conn_t := { conn_v2x with ksnc_closing := true }

/-- The connection conn_rx_iov with its closing flag set. -/
def conn_rx_iov_closing : ksock_conn_t := { conn_rx_iov with ksnc_closing := true }

/-- The connection conn_rx_kiov with its closing flag set. -/
def conn_rx_kiov_closing : ksock_conn_t := { conn_rx_kiov with ksnc_closing := true }

/-- A socket layer that accepts every option. -/
def sockopt_all_ok : sockopt_answer := fun _ => 0

/-- Tunables with Nagle off, keepalive 30/5/5, and back-off tunables 2 and 60. -/
def setup_tun_backoff : ksock_setup_tunables_t :=
  { ksnd_nagle := 0, ksnd_tx_buffer_size := 0, ksnd_rx_buffer_size := 0,
    ksnd_backoff_init := 2, ksnd_backoff_max := 60,
    ksnd_keepalive_idle := 30, ksnd_keepalive_count := 5, ksnd_keepalive_intvl := 5 }

/-- A build with SOCKNAL_BACKOFF defined (seconds, not milliseconds). -/
def build_backoff : setup_build := { SOCKNAL_BACKOFF := true, SOCKNAL_BACKOFF_MS := false }

/-- A build for a stock kernel: SOCKNAL_BACKOFF not defined. -/
def build_stock : setup_build := { SOCKNAL_BACKOFF := false, SOCKNAL_BACKOFF_MS := false }

/-- An object with every member 0 and empty arrays, and two variations of it. -/
def obdo_zero : obdo :=
  { o_id := 0, o_gr := 0, o_atime := 0, o_mtime := 0, o_ctime := 0, o_size := 0,
    o_blocks := 0, o_blksize := 0, o_mode := 0, o_uid := 0, o_gid := 0, o_flags := 0,
    o_obdflags := 0, o_nlink := 0, o_generation := 0, o_valid := 0, o_inline := [],
    o_obdmd := [] }

def obdo_inline_src : obdo :=
  { obdo_zero with o_valid := OBD_MD_FLINLINE, o_obdflags := OBD_FL_INLINEDATA,
                   o_inline := [7] }

/-! ## Tracing helper not_uml (lltrace.h) -/

/-- The error code ENOENT of Linux. -/
def ENOENT : Int := 2

/-- Answer of stat("/dev/ubd", &buf): the return value, and errno after the call. -/
structure stat_answer where
  rc : Int
  errno : Int
  deriving DecidableEq, Repr

/-- What not_uml returns, and the errno of each "Cannot stat /dev/ubd" line it
printed on stderr. -/
structure not_uml_result where
  rc : Int
  stderr : List Int
  deriving DecidableEq, Repr

/-- Body of not_uml (lltrace.h, lines 124-139). -/
def not_uml (st : stat_answer) : not_uml_result :=
  let rc := st.rc
  let rc := if rc < 0 ∧ st.errno = ENOENT then 1 else rc
  if rc < 0 then
    -- fprintf(stderr, ...); rc = 1; /* Assume host */
    { rc := 1, stderr := [st.errno] }
  else { rc := rc, stderr := [] }

/-! ## Reading the tunables of a connection (socklnd_lib-linux.c) -/

/-- Calls ksocknal_lib_get_conn_tunables makes outside the file. -/
inductive tunables_call where
  | ksocknal_connsock_addref
  | libcfs_sock_getbuf
  | getsockopt_TCP_NODELAY
  | ksocknal_connsock_decref
  deriving DecidableEq, Repr

/-- Answer of libcfs_sock_getbuf: its return value and what it left in *txmem
and *rxmem. -/
structure getbuf_answer where
  rc : Int
  txmem : Int
  rxmem : Int
  deriving DecidableEq, Repr

/-- Answer of getsockopt(TCP_NODELAY): its return value and what it left in
*nagle. -/
structure getsockopt_answer where
  rc : Int
  val : Int
  deriving DecidableEq, Repr

/-- What ksocknal_lib_get_conn_tunables returns, the three outputs, and the
calls it made, in order. -/
structure conn_tunables_result where
  rc : Int
  txmem : Int
  rxmem : Int
  nagle : Int
  calls : List tunables_call
  deriving DecidableEq, Repr

/-- Body of ksocknal_lib_get_conn_tunables (lines 693-725). addref is what
ksocknal_connsock_addref returns; none is the failure of the LASSERT. -/
def ksocknal_lib_get_conn_tunables (conn : ksock_conn_t) (addref : Int)
    (getbuf : getbuf_answer) (getsockopt : getsockopt_answer) :
    Option conn_tunables_result :=
  let rc := addref
  if rc ≠ 0 then
    -- LASSERT (conn->ksnc_closing)
    if ¬ conn.ksnc_closing then none
    else
      some { rc := -ESHUTDOWN, txmem := 0, rxmem := 0, nagle := 0,
             calls := [tunables_call.ksocknal_connsock_addref] }
  else
    let rc := getbuf.rc
    if rc = 0 then
      let rc := getsockopt.rc
      let nagle := getsockopt.val
      let calls := [tunables_call.ksocknal_connsock_addref, tunables_call.libcfs_sock_getbuf,
                    tunables_call.getsockopt_TCP_NODELAY,
                    tunables_call.ksocknal_connsock_decref]
      if rc = 0 then
        -- *nagle = !*nagle
        some { rc := rc, txmem := getbuf.txmem, rxmem := getbuf.rxmem,
               nagle := if nagle = 0 then 1 else 0, calls := calls }
      else
        some { rc := rc, txmem := 0, rxmem := 0, nagle := 0, calls := calls }
    else
      some { rc := rc, txmem := 0, rxmem := 0, nagle := 0,
             calls := [tunables_call.ksocknal_connsock_addref,
                       tunables_call.libcfs_sock_getbuf,
                       tunables_call.ksocknal_connsock_decref] }

/-! ## Bookkeeping of the receive checksum loop -/

/-- The loop at lines 568-577 and 630-646 reduced to its counters: the fragment
lengths in order, the index i and the count-down sum. The result lists, for
each iteration, the index i and the byte count fragnob; none is the failure of
LASSERT (i < niov). -/
def rx_csum_loop_steps : List Nat → Nat → Int → Option (List (Nat × Int))
  | [], _, sum => if sum > 0 then none else some []
  | len :: rest, i, sum =>
    if sum > 0 then
      let fragnob : Int := if (len : Int) > sum then sum else (len : Int)
      (rx_csum_loop_steps rest (i + 1) (sum - fragnob)).map (fun t => (i, fragnob) :: t)
    else some []

/-! ## Sequences of save, set and reset on one socket -/

/-- The three operations on the notification slots of a socket. -/
inductive callback_op where
  | save
  | set (conn : Nat)
  | reset
  deriving DecidableEq, Repr

/-- A socket and the connection record that holds its saved targets. -/
structure callback_state where
  sk : struct_sock
  conn : ksock_conn_saved

def callback_apply (s : callback_state) : callback_op → callback_state
  | callback_op.save => { s with conn := ksocknal_lib_save_callback s.sk s.conn }
  | callback_op.set p => { s with sk := ksocknal_lib_set_callback s.sk p }
  | callback_op.reset => { s with sk := ksocknal_lib_reset_callback s.sk s.conn }

def callback_run (s : callback_state) (ops : List callback_op) : callback_state :=
  ops.foldl callback_apply s

/-- The order asked of a sequence. installed: the callbacks of the driver are
in the slots (a set was made and not reset). saved: the targets now saved in
the connection were saved while they were not installed, that is before the
matching set. A reset is only made when saved holds. -/
def callback_ordered : Bool → Bool → List callback_op → Bool
  | _, _, [] => true
  | installed, _, callback_op.save :: rest => callback_ordered installed (!installed) rest
  | _, saved, callback_op.set _ :: rest => callback_ordered true saved rest
  | _, saved, callback_op.reset :: rest => saved && callback_ordered false saved rest

/-- The invariant on the slots of a socket: with nothing bound, neither slot
holds the callback of the driver. -/
def sk_slot_invariant (sk : struct_sock) : Prop :=
  sk.sk_user_data = none →
    sk.sk_data_ready ≠ sk_callback.ksocknal_data_ready ∧
    sk.sk_write_space ≠ sk_callback.ksocknal_write_space

instance (sk : struct_sock) : Decidable (sk_slot_invariant sk) := by
  unfold sk_slot_invariant
  infer_instance

/-! ## FLD client (fld_request.c) -/

/-- The error codes ENOMEM, EEXIST and EINVAL of Linux. -/
def ENOMEM : Int := 12

def EEXIST : Int := 17

def EINVAL : Int := 22

/-- A target of the FLD client (struct lu_fld_target): the export and the server
site it stands for, NULL being none, and its index. The list linkage ft_chain
is the position of the target in lcf_targets. -/
structure lu_fld_target where
  ft_exp : Option Nat
  ft_srv : Option Nat
  ft_idx : Nat
  deriving DecidableEq, Repr

inductive fld_hash_func_t where
  | fld_dht_hash
  | fld_rrb_hash
  deriving DecidableEq, Repr

inductive fld_scan_func_t where
  | fld_dht_scan
  | fld_rrb_scan
  deriving DecidableEq, Repr

/-- A hash method (struct lu_fld_hash); a NULL member is none. -/
structure lu_fld_hash where
  fh_name : Option String
  fh_hash_func : Option fld_hash_func_t
  fh_scan_func : Option fld_scan_func_t
  deriving DecidableEq, Repr

/-- The array fld_hash[3] (lines 91-105): two methods and an entry of zeros. -/
def fld_hash : List lu_fld_hash :=
  [ { fh_name := some "DHT",
      fh_hash_func := some fld_hash_func_t.fld_dht_hash,
      fh_scan_func := some fld_scan_func_t.fld_dht_scan },
    { fh_name := some "RRB",
      fh_hash_func := some fld_hash_func_t.fld_rrb_hash,
      fh_scan_func := some fld_scan_func_t.fld_rrb_scan },
    { fh_name := none, fh_hash_func := none, fh_scan_func := none } ]

/-- The FLD client (struct lu_client_fld): the members the functions of this
file read or write. lcf_hash is the index of the entry of fld_hash it points
to, lcf_cache the cache, NULL being none. lcf_count is counted as an integer. -/
structure lu_client_fld where
  lcf_count : Int
  lcf_targets : List lu_fld_target
  lcf_hash : Option Nat
  lcf_cache : Option Nat
  deriving DecidableEq, Repr

/-- Calls the FLD client functions make outside the file. -/
inductive fld_call where
  | OBD_ALLOC_PTR
  | OBD_FREE_PTR
  | class_export_get (exp : Nat)
  | class_export_put (exp : Nat)
  | fld_cache_init
  | fld_cache_fini
  | fld_client_proc_init
  | fld_client_proc_fini
  deriving DecidableEq, Repr

/-- What an FLD client function returns, the client after it, and its calls. -/
structure fld_result where
  rc : Int
  fld : lu_client_fld
  calls : List fld_call
  deriving DecidableEq, Repr

/-- Body of fld_rrb_hash (lines 55-60): do_div gives the remainder; none is the
failure of LASSERT(fld->lcf_count > 0). -/
def fld_rrb_hash (fld : lu_client_fld) (seq : Nat) : Option Int :=
  if ¬ fld.lcf_count > 0 then none else some ((seq : Int) % fld.lcf_count)

/-- Body of fld_rrb_scan (lines 62-80): the first target whose index is the
hash; none is LBUG. -/
def fld_rrb_scan (fld : lu_client_fld) (seq : Nat) : Option lu_fld_target :=
  match fld_rrb_hash fld seq with
  | none => none
  | some hash => fld.lcf_targets.find? (fun target => decide ((target.ft_idx : Int) = hash))

def fld_dht_hash (fld : lu_client_fld) (seq : Nat) : Option Int :=
  fld_rrb_hash fld seq

def fld_dht_scan (fld : lu_client_fld) (seq : Nat) : Option lu_fld_target :=
  fld_rrb_scan fld seq

/-- Body of fld_client_get_target (lines 112-126): none is the failure of the
LASSERT, a call through a NULL fh_scan_func, or a failure inside the scan. -/
def fld_client_get_target (fld : lu_client_fld) (seq : Nat) : Option lu_fld_target :=
  match fld.lcf_hash with
  | none => none
  | some i =>
    match fld_hash.get? i with
    | none => none
    | some h =>
      match h.fh_scan_func with
      | none => none
      | some fld_scan_func_t.fld_dht_scan => fld_dht_scan fld seq
      | some fld_scan_func_t.fld_rrb_scan => fld_rrb_scan fld seq

/-- The loop of fld_client_add_target over lcf_targets (lines 150-160): whether
a target of the same name is found; none is strlen of a NULL name. -/
def fld_name_scan (name : lu_fld_target → Option (List Nat)) (tar_name : List Nat) :
    List lu_fld_target → Option Bool
  | [] => some false
  | tmp :: rest =>
    match name tmp with
    | none => none
    | some tmp_name =>
      if tar_name.length = tmp_name.length ∧ tmp_name = tar_name then some true
      else fld_name_scan name tar_name rest

/-- Body of fld_client_add_target (lines 132-175). name is fld_target_name,
alloc says whether OBD_ALLOC_PTR gives memory; none is the failure of a
LASSERT or of the scan. -/
def fld_client_add_target (alloc : Bool) (name : lu_fld_target → Option (List Nat))
    (fld : lu_client_fld) (tar : lu_fld_target) : Option fld_result :=
  match name tar with
  | none => none
  | some tar_name =>
    -- LASSERT(tar->ft_srv != NULL || tar->ft_exp != NULL)
    if ¬ (tar.ft_srv ≠ none ∨ tar.ft_exp ≠ none) then none
    else if ¬ alloc then
      some { rc := -ENOMEM, fld := fld, calls := [fld_call.OBD_ALLOC_PTR] }
    else
      match fld_name_scan name tar_name fld.lcf_targets with
      | none => none
      | some true =>
        some { rc := -EEXIST, fld := fld,
               calls := [fld_call.OBD_ALLOC_PTR, fld_call.OBD_FREE_PTR] }
      | some false =>
        let target : lu_fld_target :=
          { ft_exp := tar.ft_exp, ft_srv := tar.ft_srv, ft_idx := tar.ft_idx }
        let get : List fld_call :=
          match target.ft_exp with
          | none => []
          | some exp => [fld_call.class_export_get exp]
        some { rc := 0,
               fld := { fld with lcf_targets := fld.lcf_targets ++ [target],
                                 lcf_count := fld.lcf_count + 1 },
               calls := fld_call.OBD_ALLOC_PTR :: get }

/-- The loop of fld_client_del_target (lines 186-199): the first target whose
index is idx, and the list without it. -/
def fld_del_scan (idx : Nat) : List lu_fld_target → Option (lu_fld_target × List lu_fld_target)
  | [] => none
  | target :: rest =>
    if target.ft_idx = idx then some (target, rest)
    else (fld_del_scan idx rest).map (fun r => (r.1, target :: r.2))

/-- What releasing a target calls: class_export_put when it has an export,
then OBD_FREE_PTR. -/
def fld_target_release (target : lu_fld_target) : List fld_call :=
  match target.ft_exp with
  | none => [fld_call.OBD_FREE_PTR]
  | some exp => [fld_call.class_export_put exp, fld_call.OBD_FREE_PTR]

/-- Body of fld_client_del_target (lines 179-202). -/
def fld_client_del_target (fld : lu_client_fld) (idx : Nat) : fld_result :=
  match fld_del_scan idx fld.lcf_targets with
  | some (target, others) =>
    { rc := 0,
      fld := { fld with lcf_count := fld.lcf_count - 1, lcf_targets := others },
      calls := fld_target_release target }
  | none => { rc := -ENOENT, fld := fld, calls := [] }

/-- The loop of fld_client_fini (lines 337-344): every target is unlinked and
released, lcf_count going down by one each time. -/
def fld_client_fini_loop : List lu_fld_target → Int → List fld_call → Int × List fld_call
  | [], count, calls => (count, calls)
  | target :: rest, count, calls =>
    fld_client_fini_loop rest (count - 1) (calls ++ fld_target_release target)

/-- Body of fld_client_fini (lines 328-355); kernel is __KERNEL__. -/
def fld_client_fini (kernel : Bool) (fld : lu_client_fld) : lu_client_fld × List fld_call :=
  let r := fld_client_fini_loop fld.lcf_targets fld.lcf_count [fld_call.fld_client_proc_fini]
  let fld := { fld with lcf_count := r.1, lcf_targets := [] }
  if kernel then
    match fld.lcf_cache with
    | some _ => ({ fld with lcf_cache := none }, r.2 ++ [fld_call.fld_cache_fini])
    | none => (fld, r.2)
  else (fld, r.2)

/-- Body of hash_is_sane (lines 261-264); ARRAY_SIZE(fld_hash) is 3. -/
def hash_is_sane (hash : Int) : Bool :=
  decide (hash ≥ 0) && decide (hash < (fld_hash.length : Int))

/-- Body of fld_client_init (lines 272-325). cache_err is 0 when fld_cache_init
gives a cache and its PTR_ERR otherwise; proc_rc is what fld_client_proc_init
returns. The name lcf_name is not kept. -/
def fld_client_init (kernel : Bool) (cache_err proc_rc : Int) (fld : lu_client_fld)
    (hash : Int) : fld_result :=
  if ¬ hash_is_sane hash then { rc := -EINVAL, fld := fld, calls := [] }
  else
    let fld : lu_client_fld :=
      { fld with lcf_count := 0, lcf_hash := some hash.toNat, lcf_targets := [] }
    if kernel ∧ cache_err ≠ 0 then
      -- rc = PTR_ERR(fld->lcf_cache); fld->lcf_cache = NULL; GOTO(out, rc)
      let fld := { fld with lcf_cache := none }
      let r := fld_client_fini kernel fld
      { rc := cache_err, fld := r.1, calls := fld_call.fld_cache_init :: r.2 }
    else
      let fld := if kernel then { fld with lcf_cache := some 1 } else fld
      let calls := if kernel then [fld_call.fld_cache_init, fld_call.fld_client_proc_init]
        else [fld_call.fld_client_proc_init]
      let rc := proc_rc
      if rc ≠ 0 then
        let r := fld_client_fini kernel fld
        { rc := rc, fld := r.1, calls := calls ++ r.2 }
      else { rc := rc, fld := fld, calls := calls }

/-! ## The sysctl table of the tunables (socklnd_lib-linux.c) -/

/-- The compile-time options ksocknal_lib_tunables_init depends on. -/
structure tunables_build where
  CPU_AFFINITY : Bool
  SOCKNAL_BACKOFF : Bool
  SOCKNAL_VERSION_DEBUG : Bool
  deriving DecidableEq, Repr

/-- The members of ksocknal_tunables the table entries point to. -/
inductive ksnd_tunable where
  | ksnd_timeout
  | ksnd_credits
  | ksnd_peercredits
  | ksnd_nconnds
  | ksnd_min_reconnectms
  | ksnd_max_reconnectms
  | ksnd_eager_ack
  | ksnd_zc_min_frag
  | ksnd_typed_conns
  | ksnd_min_bulk
  | ksnd_rx_buffer_size
  | ksnd_tx_buffer_size
  | ksnd_nagle
  | ksnd_irq_affinity
  | ksnd_keepalive_idle
  | ksnd_keepalive_count
  | ksnd_keepalive_intvl
  | ksnd_backoff_init
  | ksnd_backoff_max
  | ksnd_protocol
  deriving DecidableEq, Repr

inductive proc_handler_t where
  | proc_dointvec
  deriving DecidableEq, Repr

/-- An entry of a sysctl table (cfs_sysctl_table_t); a NULL member is none. -/
structure cfs_sysctl_table_t where
  ctl_name : Int
  procname : Option String
  data : Option ksnd_tunable
  maxlen : Nat
  mode : Nat
  proc_handler : Option proc_handler_t
  deriving DecidableEq, Repr

/-- The entry of zeros that ends a table. -/
def ctl_zero : cfs_sysctl_table_t :=
  { ctl_name := 0, procname := none, data := none, maxlen := 0, mode := 0,
    proc_handler := none }

/-- The array ksocknal_ctl_table[21] with the counters i and j of
ksocknal_lib_tunables_init. -/
structure ctl_state where
  table : List cfs_sysctl_table_t
  i : Int
  j : Int
  deriving DecidableEq, Repr

/-- The store ksocknal_ctl_table[i++] = e; none is a store outside the array. -/
def ctl_store (st : ctl_state) (e : cfs_sysctl_table_t) : Option ctl_state :=
  if 0 ≤ st.i ∧ st.i < (st.table.length : Int) then
    some { st with table := st.table.set st.i.toNat e, i := st.i + 1 }
  else none

/-- One entry of the table: ctl_name = j++, the name under /proc, the tunable,
maxlen = sizeof (int), the mode and proc_dointvec. -/
def ctl_entry (st : ctl_state) (procname : String) (data : ksnd_tunable) (mode : Nat) :
    Option ctl_state :=
  (ctl_store st
    { ctl_name := st.j, procname := some procname, data := some data, maxlen := 4,
      mode := mode, proc_handler := some proc_handler_t.proc_dointvec }).map
    (fun s => { s with j := s.j + 1 })

/-- What ksocknal_lib_tunables_init leaves behind. -/
structure tunables_init_result where
  rc : Int
  table : List cfs_sysctl_table_t
  i : Int
  j : Int
  ksnd_sysctl : Bool
  warned : Bool
  deriving DecidableEq, Repr

/-- The entries ksocknal_lib_tunables_init stores, in the order of the source
(lines 57-225): the name under /proc, the tunable and the mode of each. -/
def ctl_entries (b : tunables_build) : List (String × ksnd_tunable × Nat) :=
  [("timeout", ksnd_tunable.ksnd_timeout, 0o644),
   ("credits", ksnd_tunable.ksnd_credits, 0o444),
   ("peer_credits", ksnd_tunable.ksnd_peercredits, 0o444),
   ("nconnds", ksnd_tunable.ksnd_nconnds, 0o444),
   ("min_reconnectms", ksnd_tunable.ksnd_min_reconnectms, 0o444),
   ("max_reconnectms", ksnd_tunable.ksnd_max_reconnectms, 0o444),
   ("eager_ack", ksnd_tunable.ksnd_eager_ack, 0o644),
   ("zero_copy", ksnd_tunable.ksnd_zc_min_frag, 0o644),
   ("typed", ksnd_tunable.ksnd_typed_conns, 0o444),
   ("min_bulk", ksnd_tunable.ksnd_min_bulk, 0o644),
   ("rx_buffer_size", ksnd_tunable.ksnd_rx_buffer_size, 0o644),
   ("tx_buffer_size", ksnd_tunable.ksnd_tx_buffer_size, 0o644),
   ("nagle", ksnd_tunable.ksnd_nagle, 0o644)] ++
  (if b.CPU_AFFINITY then [("irq_affinity", ksnd_tunable.ksnd_irq_affinity, 0o644)] else []) ++
  [("keepalive_idle", ksnd_tunable.ksnd_keepalive_idle, 0o644),
   ("keepalive_count", ksnd_tunable.ksnd_keepalive_count, 0o644),
   ("keepalive_intvl", ksnd_tunable.ksnd_keepalive_intvl, 0o644)] ++
  (if b.SOCKNAL_BACKOFF then
    [("backoff_init", ksnd_tunable.ksnd_backoff_init, 0o644),
     ("backoff_max", ksnd_tunable.ksnd_backoff_max, 0o644)] else []) ++
  (if b.SOCKNAL_VERSION_DEBUG then [("protocol", ksnd_tunable.ksnd_protocol, 0o644)] else [])

/-- The stores of the entries, one after the other. -/
def ctl_fill : ctl_state → List (String × ksnd_tunable × Nat) → Option ctl_state
  | st, [] => some st
  | st, e :: rest =>
    match ctl_entry st e.1 e.2.1 e.2.2 with
    | none => none
    | some st => ctl_fill st rest

/-- Body of ksocknal_lib_tunables_init (lines 52-238). registered says whether
cfs_register_sysctl_table gives a table; none is a store outside the array or
the failure of a LASSERT. -/
def ksocknal_lib_tunables_init (b : tunables_build) (registered : Bool) :
    Option tunables_init_result :=
  let st : ctl_state := { table := List.replicate 21 ctl_zero, i := 0, j := 1 }
  match ctl_fill st (ctl_entries b) with
  | none => none
  | some st =>
    -- ksocknal_ctl_table[i++] = (cfs_sysctl_table_t) { 0 }
    match ctl_store st ctl_zero with
    | none => none
    | some st =>
      -- LASSERT (j == i)
      if st.j ≠ st.i then none
      -- LASSERT (i <= sizeof(ksocknal_ctl_table)/sizeof(ksocknal_ctl_table[0]))
      else if ¬ st.i ≤ 21 then none
      else
        some { rc := 0, table := st.table, i := st.i, j := st.j, ksnd_sysctl := registered,
               warned := !registered }

/-! ## Concrete FLD clients -/

/-- A client record before fld_client_init. -/
def fld_blank : lu_client_fld :=
  { lcf_count := 0, lcf_targets := [], lcf_hash := none, lcf_cache := none }

/-- The name of a target, taken here to be made of its index. -/
def fld_name_by_idx (t : lu_fld_target) : Option (List Nat) := some [t.ft_idx]

def fld_target_0 : lu_fld_target := { ft_exp := some 10, ft_srv := none, ft_idx := 0 }

def fld_target_1 : lu_fld_target := { ft_exp := none, ft_srv := some 11, ft_idx := 1 }

/-- A client with the two targets fld_target_0 and fld_target_1. -/
def fld_two : lu_client_fld :=
  { lcf_count := 2, lcf_targets := [fld_target_0, fld_target_1], lcf_hash := some 1,
    lcf_cache := none }

/-- The client fld_client_init leaves for a hash index, with fld_target_0 added. -/
def fld_after_init (hash : Int) : Option lu_client_fld :=
  (fld_client_add_target true fld_name_by_idx (fld_client_init false 0 0 fld_blank hash).fld
    fld_target_0).map (fun r => r.fld)

theorem ksocknal_csum_nil (upd : Nat → Nat → Nat) (s : Nat) : ksocknal_csum upd s [] = s := rfl

theorem ksocknal_csum_concat (upd : Nat → Nat → Nat) (s : Nat) (A B : List Nat) :
    ksocknal_csum upd (ksocknal_csum upd s A) B = ksocknal_csum upd s (A ++ B) := by
  unfold ksocknal_csum
  rw [List.foldl_append]

theorem ksocknal_csum_foldl_join (upd : Nat → Nat → Nat) (frags : List (List Nat)) (s : Nat) :
    frags.foldl (ksocknal_csum upd) s = ksocknal_csum upd s frags.flatten := by
  induction frags generalizing s with
  | nil => rfl
  | cons f fs ih =>
    rw [List.foldl_cons, ih, List.flatten_cons, ksocknal_csum_concat]

theorem ksocknal_csum_foldl_map {α : Type} (upd : Nat → Nat → Nat) (g : α → List Nat)
    (xs : List α) (s : Nat) :
    xs.foldl (fun c x => ksocknal_csum upd c (g x)) s = ksocknal_csum upd s (xs.map g).flatten := by
  rw [← ksocknal_csum_foldl_join, List.foldl_map]

theorem ksocknal_csum_lt (upd : Nat → Nat → Nat) (s : Nat) (p : List Nat) (hs : s < 2 ^ 32) :
    ksocknal_csum upd s p < 2 ^ 32 := by
  unfold ksocknal_csum
  induction p generalizing s with
  | nil => simpa using hs
  | cons b bs ih =>
    rw [List.foldl_cons]
    exact ih _ (Nat.mod_lt _ (by norm_num))

/-- C1. Rolling the checksum over A and then over B from the value reached is
rolling it over A followed by B; hence for a byte range cut into any number
of fragments (empty ones allowed, so non-empty ones in particular), folding
ksocknal_csum over the fragments in order gives the checksum of the whole range
taken at once. -/
theorem ksocknal_csum_fragments (upd : Nat → Nat → Nat) (s : Nat) :
    (∀ A B : List Nat,
        ksocknal_csum upd (ksocknal_csum upd s A) B = ksocknal_csum upd s (A ++ B)) ∧
    (∀ frags : List (List Nat),
        frags.foldl (ksocknal_csum upd) s = ksocknal_csum upd s frags.flatten) :=
  ⟨fun A B => ksocknal_csum_concat upd s A B, fun frags => ksocknal_csum_foldl_join upd frags s⟩

/-! ## ksocknal_lib_csum_tx -/

/-- What ksocknal_lib_csum_tx returns once its assertions hold. -/
theorem ksocknal_lib_csum_tx_eq (upd : Nat → Nat → Nat) (mem : memory) (tun : ksock_tunables_t)
    (tx : ksock_tx_t) (hh : tx_header_first tx)
    (hc : tx.tx_conn = some ksocknal_protocol_v2x) :
    ksocknal_lib_csum_tx upd mem tun tx =
      some ({ tx with tx_msg := { tx.tx_msg with
                ksm_csum := if tun.ksnd_inject_csum_error ≠ 0
                  then (tx_true_csum upd mem tx + 1) % 2 ^ 32 else tx_true_csum upd mem tx } },
            if tun.ksnd_inject_csum_error ≠ 0 then { tun with ksnd_inject_csum_error := 0 }
            else tun) := by
  obtain ⟨msg, iov, kiov, nob, resid, conn⟩ := tx
  simp only at hc
  subst hc
  cases iov with
  | nil => simp [tx_header_first] at hh
  | cons hdr rest =>
    have hb : hdr.iov_base = iov_base_t.msg 0 := by simpa [tx_header_first] using hh
    cases kiov with
    | none =>
      by_cases hi : tun.ksnd_inject_csum_error = 0 <;>
        simp [ksocknal_lib_csum_tx, hb, hi, tx_true_csum, tx_csum_bytes,
          ksocknal_csum_foldl_map, ksocknal_csum_concat]
    | some k =>
      by_cases hi : tun.ksnd_inject_csum_error = 0 <;>
        simp [ksocknal_lib_csum_tx, hb, hi, tx_true_csum, tx_csum_bytes,
          ksocknal_csum_foldl_map, ksocknal_csum_concat]

theorem tx_true_csum_lt (upd : Nat → Nat → Nat) (mem : memory) (tx : ksock_tx_t) :
    tx_true_csum upd mem tx < 2 ^ 32 :=
  ksocknal_csum_lt upd _ _ (by norm_num)

theorem ksocknal_lib_send_iov_no_csum (cfg : build_config) (upd : Nat → Nat → Nat)
    (mem : memory) (sock : send_answer) (tun : ksock_tunables_t) (conn : ksock_conn_t)
    (tx : ksock_tx_t) (r : send_result) (hw : ¬ csum_wanted tun conn tx)
    (hr : ksocknal_lib_send_iov cfg upd mem sock tun conn tx = some r) :
    r.tx = tx ∧ r.tunables = tun ∧ event.csum_tx ∉ r.events := by
  simp only [ksocknal_lib_send_iov, hw, if_false] at hr
  split_ifs at hr <;> simp only [Option.some.injEq] at hr <;> subst hr <;> simp

theorem ksocknal_lib_send_iov_with_csum (cfg : build_config) (upd : Nat → Nat → Nat)
    (mem : memory) (sock : send_answer) (tun : ksock_tunables_t) (conn : ksock_conn_t)
    (tx : ksock_tx_t) (r : send_result) (hw : csum_wanted tun conn tx)
    (hr : ksocknal_lib_send_iov cfg upd mem sock tun conn tx = some r) :
    ksocknal_lib_csum_tx upd mem tun tx = some (r.tx, r.tunables) ∧
      r.events.count event.csum_tx = 1 := by
  simp only [ksocknal_lib_send_iov, hw, if_true] at hr
  cases hcs : ksocknal_lib_csum_tx upd mem tun tx with
  | none => simp [hcs] at hr
  | some p =>
    obtain ⟨tx1, tun1⟩ := p
    simp only [hcs, Option.map_some'] at hr
    split_ifs at hr <;> simp only [Option.some.injEq] at hr <;> subst hr <;>
      simp [List.count_cons]

theorem ksocknal_lib_send_iov_returns (cfg : build_config) (upd : Nat → Nat → Nat)
    (mem : memory) (sock : send_answer) (tun : ksock_tunables_t) (conn : ksock_conn_t)
    (tx : ksock_tx_t) (hfrag : tx.tx_iov ≠ [])
    (hassert : csum_wanted tun conn tx →
      tx_header_first tx ∧ tx.tx_conn = some ksocknal_protocol_v2x) :
    ∃ r, ksocknal_lib_send_iov cfg upd mem sock tun conn tx = some r := by
  have hlen : 1 ≤ tx.tx_iov.length := by
    cases h : tx.tx_iov with
    | nil => exact absurd h hfrag
    | cons a l => simp
  by_cases hw : csum_wanted tun conn tx
  · obtain ⟨hh, hc⟩ := hassert hw
    simp only [ksocknal_lib_send_iov, hw, if_true, ksocknal_lib_csum_tx_eq upd mem tun tx hh hc,
      Option.map_some', ksock_tx_t.tx_niov]
    split <;> simp_all
  · simp only [ksocknal_lib_send_iov, hw, if_false, ksock_tx_t.tx_niov]
    split <;> simp_all

/-- C3. ksocknal_lib_send_iov, given a unit with a fragment to stage (and, when
the checksum is due, one that passes the assertions of ksocknal_lib_csum_tx),
returns; it calls ksocknal_lib_csum_tx if and only if the enable_csum tunable is
non-zero, the connection is V2.x, tx_nob == tx_resid and tx_msg.ksm_csum is 0,
and then the unit and tunables it leaves are those of ksocknal_lib_csum_tx; in
every other case it leaves the unit, tx_msg.ksm_csum included, and the tunables
unchanged. -/
theorem ksocknal_lib_send_iov_csum_iff (cfg : build_config) (upd : Nat → Nat → Nat)
    (mem : memory) (sock : send_answer) (tun : ksock_tunables_t) (conn : ksock_conn_t)
    (tx : ksock_tx_t) (hfrag : tx.tx_iov ≠ [])
    (hassert : csum_wanted tun conn tx →
      tx_header_first tx ∧ tx.tx_conn = some ksocknal_protocol_v2x) :
    ∃ r, ksocknal_lib_send_iov cfg upd mem sock tun conn tx = some r ∧
      (event.csum_tx ∈ r.events ↔
        (tun.ksnd_enable_csum ≠ 0 ∧ conn.ksnc_proto = ksocknal_protocol_v2x ∧
          tx.tx_nob = tx.tx_resid ∧ tx.tx_msg.ksm_csum = 0)) ∧
      (event.csum_tx ∈ r.events →
        ksocknal_lib_csum_tx upd mem tun tx = some (r.tx, r.tunables)) ∧
      (event.csum_tx ∉ r.events →
        r.tx = tx ∧ r.tunables = tun ∧ r.tx.tx_msg.ksm_csum = tx.tx_msg.ksm_csum) := by
  obtain ⟨r, hr⟩ := ksocknal_lib_send_iov_returns cfg upd mem sock tun conn tx hfrag hassert
  refine ⟨r, hr, ?_⟩
  by_cases hw : csum_wanted tun conn tx
  · obtain ⟨hcs, hcount⟩ := ksocknal_lib_send_iov_with_csum cfg upd mem sock tun conn tx r hw hr
    have hmem : event.csum_tx ∈ r.events := by
      apply List.count_pos_iff.mp
      omega
    exact ⟨⟨fun _ => hw, fun _ => hmem⟩, fun _ => hcs, fun h => absurd hmem h⟩
  · obtain ⟨htx, htun, hno⟩ := ksocknal_lib_send_iov_no_csum cfg upd mem sock tun conn tx r hw hr
    exact ⟨⟨fun h => absurd h hno, fun h => absurd h hw⟩, fun h => absurd h hno,
      fun _ => ⟨htx, htun, by rw [htx]⟩⟩

/-- Witness for C3: the fresh unit tx_payload4 on a V2.x connection with
checksums enabled. -/
theorem ksocknal_lib_send_iov_csum_iff_witness :
    ∃ r, ksocknal_lib_send_iov cfg_multi_frag crc32_le_byte (mem_payload 1 2 3 4)
        sock_takes_all tun_csum_on conn_v2x tx_payload4 = some r ∧
      (event.csum_tx ∈ r.events ↔
        (tun_csum_on.ksnd_enable_csum ≠ 0 ∧ conn_v2x.ksnc_proto = ksocknal_protocol_v2x ∧
          tx_payload4.tx_nob = tx_payload4.tx_resid ∧ tx_payload4.tx_msg.ksm_csum = 0)) ∧
      (event.csum_tx ∈ r.events →
        ksocknal_lib_csum_tx crc32_le_byte (mem_payload 1 2 3 4) tun_csum_on tx_payload4 =
          some (r.tx, r.tunables)) ∧
      (event.csum_tx ∉ r.events →
        r.tx = tx_payload4 ∧ r.tunables = tun_csum_on ∧
          r.tx.tx_msg.ksm_csum = tx_payload4.tx_msg.ksm_csum) :=
  ksocknal_lib_send_iov_csum_iff cfg_multi_frag crc32_le_byte (mem_payload 1 2 3 4)
    sock_takes_all tun_csum_on conn_v2x tx_payload4 (by decide) (fun _ => ⟨by decide, rfl⟩)

/-! ## Repeated attempts: the checksum is computed once -/

theorem ksocknal_lib_csum_tx_asserts (upd : Nat → Nat → Nat) (mem : memory)
    (tun : ksock_tunables_t) (tx : ksock_tx_t) (p : ksock_tx_t × ksock_tunables_t)
    (h : ksocknal_lib_csum_tx upd mem tun tx = some p) :
    tx_header_first tx ∧ tx.tx_conn = some ksocknal_protocol_v2x := by
  obtain ⟨msg, iov, kiov, nob, resid, conn⟩ := tx
  cases iov with
  | nil => simp [ksocknal_lib_csum_tx] at h
  | cons hdr rest =>
    by_cases hb : hdr.iov_base = iov_base_t.msg 0
    · cases conn with
      | none => simp [ksocknal_lib_csum_tx, hb] at h
      | some proto =>
        by_cases hp : proto = ksocknal_protocol_v2x
        · subst hp
          exact ⟨by simp [tx_header_first, hb], rfl⟩
        · simp [ksocknal_lib_csum_tx, hb, hp] at h
    · simp [ksocknal_lib_csum_tx, hb] at h

theorem tx_advance_msg (tx : ksock_tx_t) (rc : Int) (iov : List iovec) :
    (tx_advance tx rc iov).tx_msg = tx.tx_msg := by
  unfold tx_advance
  split_ifs <;> rfl

/-- Once the guard of the checksum can no longer pass (checksums off, another
protocol, or a non-zero checksum field), no attempt of a run computes a checksum
or touches the field. -/
theorem send_iov_attempts_settled (cfg : build_config) (upd : Nat → Nat → Nat) (mem : memory)
    (conn : ksock_conn_t) (rounds : List (send_answer × List iovec)) :
    ∀ (tun : ksock_tunables_t) (tx : ksock_tx_t) (rs : List send_result),
      (tun.ksnd_enable_csum = 0 ∨ conn.ksnc_proto ≠ ksocknal_protocol_v2x ∨
        tx.tx_msg.ksm_csum ≠ 0) →
      send_iov_attempts cfg upd mem conn tun tx rounds = some rs →
      ∀ r ∈ rs, event.csum_tx ∉ r.events ∧ r.tx.tx_msg.ksm_csum = tx.tx_msg.ksm_csum := by
  induction rounds with
  | nil =>
    intro tun tx rs _ hrun r hr
    simp only [send_iov_attempts, Option.some.injEq] at hrun
    subst hrun
    simp at hr
  | cons round more ih =>
    intro tun tx rs hset hrun r hr
    obtain ⟨sock, iov⟩ := round
    have hw : ¬ csum_wanted tun conn tx := by
      rintro ⟨h1, h2, -, h4⟩
      rcases hset with h | h | h
      · exact h1 h
      · exact h h2
      · exact h h4
    simp only [send_iov_attempts] at hrun
    cases hs : ksocknal_lib_send_iov cfg upd mem sock tun conn tx with
    | none => simp [hs] at hrun
    | some r1 =>
      simp only [hs] at hrun
      obtain ⟨htx, htun, hno⟩ :=
        ksocknal_lib_send_iov_no_csum cfg upd mem sock tun conn tx r1 hw hs
      cases hm : send_iov_attempts cfg upd mem conn r1.tunables
          (tx_advance r1.tx r1.rc iov) more with
      | none => simp [hm] at hrun
      | some rs1 =>
        simp only [hm, Option.map_some', Option.some.injEq] at hrun
        subst hrun
        rcases List.mem_cons.mp hr with h | h
        · subst h
          exact ⟨hno, by rw [htx]⟩
        · have hset1 : r1.tunables.ksnd_enable_csum = 0 ∨
              conn.ksnc_proto ≠ ksocknal_protocol_v2x ∨
              (tx_advance r1.tx r1.rc iov).tx_msg.ksm_csum ≠ 0 := by
            rw [tx_advance_msg, htx, htun]
            exact hset
          have := ih r1.tunables (tx_advance r1.tx r1.rc iov) rs1 hset1 hm r h
          rw [tx_advance_msg, htx] at this
          exact this

theorem ksocknal_lib_send_iov_guard (cfg : build_config) (upd : Nat → Nat → Nat)
    (mem : memory) (sock : send_answer) (tun : ksock_tunables_t) (conn : ksock_conn_t)
    (tx : ksock_tx_t) (r : send_result)
    (hr : ksocknal_lib_send_iov cfg upd mem sock tun conn tx = some r) :
    r.events.count event.csum_tx ≤ 1 ∧
      (r.tx.tx_nob ≠ r.tx.tx_resid → event.csum_tx ∉ r.events) := by
  by_cases hw : csum_wanted tun conn tx
  · obtain ⟨hcs, hcount⟩ := ksocknal_lib_send_iov_with_csum cfg upd mem sock tun conn tx r hw hr
    obtain ⟨hh, hc⟩ := ksocknal_lib_csum_tx_asserts upd mem tun tx _ hcs
    rw [ksocknal_lib_csum_tx_eq upd mem tun tx hh hc] at hcs
    simp only [Option.some.injEq, Prod.mk.injEq] at hcs
    refine ⟨by omega, fun hne => absurd ?_ hne⟩
    rw [← hcs.1]
    exact hw.2.2.1
  · obtain ⟨-, -, hno⟩ := ksocknal_lib_send_iov_no_csum cfg upd mem sock tun conn tx r hw hr
    have hc0 : List.count event.csum_tx r.events = 0 := List.count_eq_zero.mpr hno
    exact ⟨by omega, fun _ => hno⟩

/-- In a run of attempts, an attempt made after bytes went out (tx_nob differs
from tx_resid) never computes a checksum, and no attempt computes it twice. -/
theorem send_iov_attempts_guard (cfg : build_config) (upd : Nat → Nat → Nat) (mem : memory)
    (conn : ksock_conn_t) (rounds : List (send_answer × List iovec)) :
    ∀ (tun : ksock_tunables_t) (tx : ksock_tx_t) (rs : List send_result),
      send_iov_attempts cfg upd mem conn tun tx rounds = some rs →
      ∀ r ∈ rs, r.events.count event.csum_tx ≤ 1 ∧
        (r.tx.tx_nob ≠ r.tx.tx_resid → event.csum_tx ∉ r.events) := by
  induction rounds with
  | nil =>
    intro tun tx rs hrun r hr
    simp only [send_iov_attempts, Option.some.injEq] at hrun
    subst hrun
    simp at hr
  | cons round more ih =>
    intro tun tx rs hrun r hr
    obtain ⟨sock, iov⟩ := round
    simp only [send_iov_attempts] at hrun
    cases hs : ksocknal_lib_send_iov cfg upd mem sock tun conn tx with
    | none => simp [hs] at hrun
    | some r1 =>
      simp only [hs] at hrun
      cases hm : send_iov_attempts cfg upd mem conn r1.tunables
          (tx_advance r1.tx r1.rc iov) more with
      | none => simp [hm] at hrun
      | some rs1 =>
        simp only [hm, Option.map_some', Option.some.injEq] at hrun
        subst hrun
        rcases List.mem_cons.mp hr with h | h
        · subst h
          exact ksocknal_lib_send_iov_guard cfg upd mem sock tun conn tx r hs
        · exact ih r1.tunables (tx_advance r1.tx r1.rc iov) rs1 hm r h

/-- C4 (as amended). For every fresh outbound unit (tx_nob == tx_resid) and every
sequence of ksocknal_lib_send_iov attempts on it (attempts that send nothing
because the socket would block, and retries after bytes went out that lower
tx_resid): no attempt runs ksocknal_lib_csum_tx more than once, an attempt made
after bytes went out never runs it, and, provided the checksum the first attempt
computed (when it computed one) is not zero, no attempt after the first runs
it or changes tx_msg.ksm_csum. -/
theorem send_iov_attempts_csum_once (cfg : build_config) (upd : Nat → Nat → Nat) (mem : memory)
    (conn : ksock_conn_t) (tun : ksock_tunables_t) (tx : ksock_tx_t)
    (rounds : List (send_answer × List iovec)) (r0 : send_result) (rs : List send_result)
    (hfresh : tx.tx_nob = tx.tx_resid)
    (hrun : send_iov_attempts cfg upd mem conn tun tx rounds = some (r0 :: rs)) :
    (∀ r ∈ r0 :: rs, r.events.count event.csum_tx ≤ 1 ∧
      (r.tx.tx_nob ≠ r.tx.tx_resid → event.csum_tx ∉ r.events)) ∧
    ((event.csum_tx ∈ r0.events → r0.tx.tx_msg.ksm_csum ≠ 0) →
      ∀ r ∈ rs, event.csum_tx ∉ r.events ∧
        r.tx.tx_msg.ksm_csum = r0.tx.tx_msg.ksm_csum) := by
  refine ⟨send_iov_attempts_guard cfg upd mem conn rounds tun tx _ hrun, fun hnz => ?_⟩
  cases rounds with
  | nil => simp [send_iov_attempts] at hrun
  | cons round more =>
    obtain ⟨sock, iov⟩ := round
    simp only [send_iov_attempts] at hrun
    cases hs : ksocknal_lib_send_iov cfg upd mem sock tun conn tx with
    | none => simp [hs] at hrun
    | some r1 =>
      simp only [hs] at hrun
      cases hm : send_iov_attempts cfg upd mem conn r1.tunables
          (tx_advance r1.tx r1.rc iov) more with
      | none => simp [hm] at hrun
      | some rs1 =>
        simp only [hm, Option.map_some', Option.some.injEq, List.cons.injEq] at hrun
        obtain ⟨h1, h2⟩ := hrun
        subst h1
        subst h2
        have hset : r1.tunables.ksnd_enable_csum = 0 ∨
            conn.ksnc_proto ≠ ksocknal_protocol_v2x ∨
            (tx_advance r1.tx r1.rc iov).tx_msg.ksm_csum ≠ 0 := by
          rw [tx_advance_msg]
          by_cases hw : csum_wanted tun conn tx
          · obtain ⟨-, hcount⟩ :=
              ksocknal_lib_send_iov_with_csum cfg upd mem sock tun conn tx r1 hw hs
            have hmem : event.csum_tx ∈ r1.events := by
              apply List.count_pos_iff.mp
              omega
            exact Or.inr (Or.inr (hnz hmem))
          · obtain ⟨htx, htun, -⟩ :=
              ksocknal_lib_send_iov_no_csum cfg upd mem sock tun conn tx r1 hw hs
            by_cases he : tun.ksnd_enable_csum = 0
            · exact Or.inl (by rw [htun]; exact he)
            · by_cases hp : conn.ksnc_proto = ksocknal_protocol_v2x
              · refine Or.inr (Or.inr ?_)
                rw [htx]
                intro hz
                exact hw ⟨he, hp, hfresh, hz⟩
              · exact Or.inr (Or.inl hp)
        intro r hr
        have := send_iov_attempts_settled cfg upd mem conn more r1.tunables
          (tx_advance r1.tx r1.rc iov) rs1 hset hm r hr
        rw [tx_advance_msg] at this
        exact this

/-- Witness for C4: a first attempt that would block, then one that sends all. -/
theorem send_iov_attempts_csum_once_witness :
    (∀ r ∈ [({ rc := -11, tx := tx_payload4_csummed, tunables := tun_csum_on,
                events := [event.csum_tx, event.call call_payload4] } : send_result),
             { rc := 100, tx := tx_payload4_csummed, tunables := tun_csum_on,
                events := [event.call call_payload4] }],
      r.events.count event.csum_tx ≤ 1 ∧
        (r.tx.tx_nob ≠ r.tx.tx_resid → event.csum_tx ∉ r.events)) ∧
    (∀ r ∈ [({ rc := 100, tx := tx_payload4_csummed, tunables := tun_csum_on,
                events := [event.call call_payload4] } : send_result)],
        event.csum_tx ∉ r.events ∧
          r.tx.tx_msg.ksm_csum = tx_payload4_csummed.tx_msg.ksm_csum) :=
  ⟨(send_iov_attempts_csum_once cfg_multi_frag crc32_le_byte (mem_payload 1 2 3 4) conn_v2x
      tun_csum_on tx_payload4 [(sock_would_block, []), (sock_takes_all, [])]
      { rc := -11, tx := tx_payload4_csummed, tunables := tun_csum_on,
        events := [event.csum_tx, event.call call_payload4] }
      [{ rc := 100, tx := tx_payload4_csummed, tunables := tun_csum_on,
         events := [event.call call_payload4] }]
      rfl (by decide!)).1,
   (send_iov_attempts_csum_once cfg_multi_frag crc32_le_byte (mem_payload 1 2 3 4) conn_v2x
      tun_csum_on tx_payload4 [(sock_would_block, []), (sock_takes_all, [])]
      { rc := -11, tx := tx_payload4_csummed, tunables := tun_csum_on,
        events := [event.csum_tx, event.call call_payload4] }
      [{ rc := 100, tx := tx_payload4_csummed, tunables := tun_csum_on,
         events := [event.call call_payload4] }]
      rfl (by decide!)).2 (fun _ => by decide)⟩

/-- Counterexample to C4 as stated. The payload 46 151 164 176 gives the unit
the CRC-32 checksum 0. The first attempt computes it and would block; the second
attempt finds tx_nob == tx_resid and ksm_csum == 0 and runs ksocknal_lib_csum_tx
again. With the payload 76 98 130 34 and the injection flag set the first
attempt stores 0 (0xffffffff plus one) and the second attempt changes the field
to 0xffffffff. -/
theorem send_iov_attempts_recomputes :
    (send_iov_attempts cfg_multi_frag crc32_le_byte (mem_payload 46 151 164 176) conn_v2x
        tun_csum_on tx_payload4 [(sock_would_block, []), (sock_takes_all, [])]).map
      (fun rs => rs.map (fun r => (decide (event.csum_tx ∈ r.events), r.tx.tx_msg.ksm_csum)))
      = some [(true, 0), (true, 0)] ∧
    (send_iov_attempts cfg_multi_frag crc32_le_byte (mem_payload 76 98 130 34) conn_v2x
        tun_csum_inject tx_payload4 [(sock_would_block, []), (sock_takes_all, [])]).map
      (fun rs => rs.map (fun r => (decide (event.csum_tx ∈ r.events), r.tx.tx_msg.ksm_csum)))
      = some [(true, 0), (true, 0xffffffff)] := by
  constructor <;> decide!

/-! ## The value ksocknal_lib_csum_tx stores -/

/-- C5 (as amended). For every unit that passes the assertions of
ksocknal_lib_csum_tx, the function returns and stores a 32-bit value in
tx_msg.ksm_csum; that value is zero exactly when the checksum of the unit is 0
and the injection flag is clear, or the checksum is 0xffffffff and the flag is
set. No zero result is mapped to another value. -/
theorem ksocknal_lib_csum_tx_zero_iff (upd : Nat → Nat → Nat) (mem : memory)
    (tun : ksock_tunables_t) (tx : ksock_tx_t) (hh : tx_header_first tx)
    (hc : tx.tx_conn = some ksocknal_protocol_v2x) :
    ∃ tx1 tun1, ksocknal_lib_csum_tx upd mem tun tx = some (tx1, tun1) ∧
      tx1.tx_msg.ksm_csum < 2 ^ 32 ∧
      (tx1.tx_msg.ksm_csum = 0 ↔
        (tun.ksnd_inject_csum_error = 0 ∧ tx_true_csum upd mem tx = 0) ∨
        (tun.ksnd_inject_csum_error ≠ 0 ∧ tx_true_csum upd mem tx = 0xffffffff)) := by
  refine ⟨_, _, ksocknal_lib_csum_tx_eq upd mem tun tx hh hc, ?_, ?_⟩
  · simp only
    split_ifs
    · exact Nat.mod_lt _ (by norm_num)
    · exact tx_true_csum_lt upd mem tx
  · have hlt := tx_true_csum_lt upd mem tx
    by_cases hi : tun.ksnd_inject_csum_error = 0
    · simp [hi]
    · simp only [ne_eq, hi, not_false_eq_true, if_true, false_and, true_and, false_or]
      omega

/-- Witness for C5: the unit tx_payload4 with the payload 1 2 3 4. -/
theorem ksocknal_lib_csum_tx_zero_iff_witness :
    ∃ tx1 tun1, ksocknal_lib_csum_tx crc32_le_byte (mem_payload 1 2 3 4) tun_csum_on
        tx_payload4 = some (tx1, tun1) ∧
      tx1.tx_msg.ksm_csum < 2 ^ 32 ∧
      (tx1.tx_msg.ksm_csum = 0 ↔
        (tun_csum_on.ksnd_inject_csum_error = 0 ∧
          tx_true_csum crc32_le_byte (mem_payload 1 2 3 4) tx_payload4 = 0) ∨
        (tun_csum_on.ksnd_inject_csum_error ≠ 0 ∧
          tx_true_csum crc32_le_byte (mem_payload 1 2 3 4) tx_payload4 = 0xffffffff)) :=
  ksocknal_lib_csum_tx_zero_iff crc32_le_byte (mem_payload 1 2 3 4) tun_csum_on tx_payload4
    (by decide) rfl

/-- Counterexample to C5 as stated. With CRC-32 as the rolling update, the unit
made of the 96-byte header lnet_msg_blank and the payload 46 151 164 176 has
checksum 0, and ksocknal_lib_csum_tx stores 0 with the injection flag clear; with
the payload 76 98 130 34 the checksum is 0xffffffff and it stores 0 with the flag
set. -/
theorem ksocknal_lib_csum_tx_stores_zero :
    (ksocknal_lib_csum_tx crc32_le_byte (mem_payload 46 151 164 176) tun_csum_on
        tx_payload4).map (fun r => r.1.tx_msg.ksm_csum) = some 0 ∧
    (ksocknal_lib_csum_tx crc32_le_byte (mem_payload 76 98 130 34) tun_csum_inject
        tx_payload4).map (fun r => r.1.tx_msg.ksm_csum) = some 0 := by
  constructor <;> decide!

/-- C6. With the injection flag set, ksocknal_lib_csum_tx stores the checksum
of the unit plus one modulo 2^32, a value different from the checksum, and
clears the flag, so that the next call (on any unit, the flag not set again)
stores the checksum of its unit and leaves the flag clear; with the flag clear
the value stored is the checksum of the unit and the tunables are unchanged. -/
theorem ksocknal_lib_csum_tx_inject_once (upd : Nat → Nat → Nat) (mem mem2 : memory)
    (tun : ksock_tunables_t) (tx tx2 : ksock_tx_t)
    (hh : tx_header_first tx) (hc : tx.tx_conn = some ksocknal_protocol_v2x)
    (hh2 : tx_header_first tx2) (hc2 : tx2.tx_conn = some ksocknal_protocol_v2x) :
    ∃ tx1 tun1 tx3 tun3,
      ksocknal_lib_csum_tx upd mem tun tx = some (tx1, tun1) ∧
      ksocknal_lib_csum_tx upd mem2 tun1 tx2 = some (tx3, tun3) ∧
      (tun.ksnd_inject_csum_error ≠ 0 →
        tx1.tx_msg.ksm_csum = (tx_true_csum upd mem tx + 1) % 2 ^ 32 ∧
        tx1.tx_msg.ksm_csum ≠ tx_true_csum upd mem tx) ∧
      (tun.ksnd_inject_csum_error = 0 →
        tx1.tx_msg.ksm_csum = tx_true_csum upd mem tx ∧ tun1 = tun) ∧
      tun1 = { tun with ksnd_inject_csum_error := 0 } ∧
      tx3.tx_msg.ksm_csum = tx_true_csum upd mem2 tx2 ∧
      tun3 = tun1 := by
  have hlt := tx_true_csum_lt upd mem tx
  by_cases hi : tun.ksnd_inject_csum_error = 0
  · refine ⟨_, _, _, _, ksocknal_lib_csum_tx_eq upd mem tun tx hh hc,
      ksocknal_lib_csum_tx_eq upd mem2 _ tx2 hh2 hc2, ?_⟩
    simp only [ne_eq, hi, not_true_eq_false, if_false, false_implies, true_implies, and_self,
      true_and]
    refine ⟨?_, trivial⟩
    cases tun
    simp_all
  · refine ⟨_, _, _, _, ksocknal_lib_csum_tx_eq upd mem tun tx hh hc,
      ksocknal_lib_csum_tx_eq upd mem2 _ tx2 hh2 hc2, ?_⟩
    simp only [ne_eq, hi, not_false_eq_true, if_true, true_implies, false_implies, true_and,
      not_true_eq_false, if_false, and_self, and_true]
    omega

/-- Witness for C6: the flag set, the unit tx_payload4 checksummed twice. -/
theorem ksocknal_lib_csum_tx_inject_once_witness :
    ∃ tx1 tun1 tx3 tun3,
      ksocknal_lib_csum_tx crc32_le_byte (mem_payload 1 2 3 4) tun_csum_inject tx_payload4 =
        some (tx1, tun1) ∧
      ksocknal_lib_csum_tx crc32_le_byte (mem_payload 1 2 3 4) tun1 tx_payload4 =
        some (tx3, tun3) ∧
      (tun_csum_inject.ksnd_inject_csum_error ≠ 0 →
        tx1.tx_msg.ksm_csum =
          (tx_true_csum crc32_le_byte (mem_payload 1 2 3 4) tx_payload4 + 1) % 2 ^ 32 ∧
        tx1.tx_msg.ksm_csum ≠ tx_true_csum crc32_le_byte (mem_payload 1 2 3 4) tx_payload4) ∧
      (tun_csum_inject.ksnd_inject_csum_error = 0 →
        tx1.tx_msg.ksm_csum = tx_true_csum crc32_le_byte (mem_payload 1 2 3 4) tx_payload4 ∧
        tun1 = tun_csum_inject) ∧
      tun1 = { tun_csum_inject with ksnd_inject_csum_error := 0 } ∧
      tx3.tx_msg.ksm_csum = tx_true_csum crc32_le_byte (mem_payload 1 2 3 4) tx_payload4 ∧
      tun3 = tun1 :=
  ksocknal_lib_csum_tx_inject_once crc32_le_byte (mem_payload 1 2 3 4) (mem_payload 1 2 3 4)
    tun_csum_inject tx_payload4 tx_payload4 (by decide) rfl (by decide) rfl

/-! ## Staged byte counts and the accumulation loop -/

theorem iov_nob_foldl (iov : List iovec) (a : Int) :
    iov.foldl (fun nob v => nob + (v.iov_len : Int)) a = a + iov_nob iov := by
  unfold iov_nob
  induction iov generalizing a with
  | nil => simp
  | cons v rest ih =>
    simp only [List.foldl_cons]
    rw [ih, ih (0 + (v.iov_len : Int))]
    ring

theorem iov_nob_nil : iov_nob [] = 0 := rfl

theorem iov_nob_cons (v : iovec) (rest : List iovec) :
    iov_nob (v :: rest) = (v.iov_len : Int) + iov_nob rest := by
  have h := iov_nob_foldl rest (0 + (v.iov_len : Int))
  unfold iov_nob at *
  simp only [List.foldl_cons]
  rw [h]
  ring

theorem iov_nob_eq_sum (iov : List iovec) :
    iov_nob iov = ((iov.map (fun v => v.iov_len)).sum : Nat) := by
  induction iov with
  | nil => rfl
  | cons v rest ih =>
    rw [iov_nob_cons, ih]
    simp

theorem iov_nob_nonneg (iov : List iovec) : 0 ≤ iov_nob iov := by
  rw [iov_nob_eq_sum]
  exact Int.natCast_nonneg _

theorem iov_nob_take_le (iov : List iovec) (n : Nat) : iov_nob (iov.take n) ≤ iov_nob iov := by
  induction iov generalizing n with
  | nil => simp
  | cons v rest ih =>
    cases n with
    | zero =>
      simp only [List.take_zero]
      exact iov_nob_nonneg _
    | succ n =>
      simp only [List.take_succ_cons, iov_nob_cons]
      have := ih n
      omega

theorem mem_read_take (mem : memory) (m : ksock_msg_t) (v : iovec) (n : Nat)
    (hn : n ≤ v.iov_len) :
    mem_read mem m v.iov_base n = (iov_bytes mem m v).take n := by
  unfold iov_bytes
  cases v.iov_base <;> simp [mem_read, List.take_take, Nat.min_eq_left hn]

/-- The accumulation loop, when no more bytes came in than the fragments hold
and every fragment lies inside its object: it ends without tripping the
assertion, having rolled the checksum over the first sum bytes of the fragments. -/
theorem rx_csum_loop_eq (upd : Nat → Nat → Nat) (mem : memory) (m : ksock_msg_t)
    (frags : List iovec) :
    ∀ (sum : Int) (csum : Nat), sum ≤ iov_nob frags →
      (∀ v ∈ frags, (iov_bytes mem m v).length = v.iov_len) →
      rx_csum_loop upd mem m frags sum csum =
        some (ksocknal_csum upd csum
          (((frags.map (iov_bytes mem m)).flatten).take sum.toNat)) := by
  induction frags with
  | nil =>
    intro sum csum hsum _
    have : ¬ sum > 0 := by
      rw [iov_nob_nil] at hsum
      omega
    simp [rx_csum_loop, this, ksocknal_csum_nil]
  | cons v rest ih =>
    intro sum csum hsum hwf
    rw [iov_nob_cons] at hsum
    have hv : (iov_bytes mem m v).length = v.iov_len := hwf v (List.mem_cons_self _ _)
    have hrest : ∀ w ∈ rest, (iov_bytes mem m w).length = w.iov_len :=
      fun w hw => hwf w (List.mem_cons_of_mem _ hw)
    by_cases hpos : sum > 0
    · by_cases hbig : (v.iov_len : Int) > sum
      · have h0 : (0 : Int) ≤ iov_nob rest := iov_nob_nonneg rest
        have hle : sum.toNat ≤ v.iov_len := by omega
        simp only [rx_csum_loop, hpos, if_true, hbig, sub_self]
        rw [ih 0 _ h0 hrest, mem_read_take mem m v _ hle]
        simp only [Int.toNat_zero, List.take_zero, ksocknal_csum_nil, List.map_cons,
          List.flatten_cons]
        rw [List.take_append_of_le_length (by rw [hv]; exact hle)]
      · have hle : (sum - (v.iov_len : Int)) ≤ iov_nob rest := by omega
        simp only [rx_csum_loop, hpos, if_true, hbig, if_false]
        rw [ih _ _ hle hrest, Int.toNat_ofNat, mem_read_take mem m v _ (le_refl _),
          ksocknal_csum_concat]
        simp only [List.map_cons, List.flatten_cons]
        have hs : sum.toNat = (iov_bytes mem m v).length + (sum - (v.iov_len : Int)).toNat := by
          rw [hv]
          omega
        rw [hs, List.take_append, List.take_of_length_le (by rw [hv])]
    · have hz : sum.toNat = 0 := by omega
      simp [rx_csum_loop, hpos, hz, ksocknal_csum_nil]

/-! ## The send calls -/

theorem send_flags_more (conn : ksock_conn_t) (tx : ksock_tx_t) (nob : Int) :
    (flag_set (send_flags conn tx nob) MSG_MORE ↔
      (conn.ksnc_tx_queue ≠ [] ∨ nob < tx.tx_resid)) ∧
    flag_set (send_flags conn tx nob) MSG_DONTWAIT := by
  have he : (¬ conn.ksnc_tx_queue.isEmpty = true) ↔ conn.ksnc_tx_queue ≠ [] := by
    rw [List.isEmpty_iff]
  by_cases h : conn.ksnc_tx_queue ≠ [] ∨ nob < tx.tx_resid
  · have h2 : ¬ conn.ksnc_tx_queue.isEmpty = true ∨ nob < tx.tx_resid := by
      rcases h with h | h
      · exact Or.inl (he.mpr h)
      · exact Or.inr h
    have hf : send_flags conn tx nob = MSG_DONTWAIT ||| MSG_MORE := by
      unfold send_flags
      rw [if_pos h2]
    rw [hf]
    exact ⟨⟨fun _ => h, fun _ => by decide⟩, by decide⟩
  · have h2 : ¬ (¬ conn.ksnc_tx_queue.isEmpty = true ∨ nob < tx.tx_resid) := by
      rintro (h3 | h3)
      · exact h (Or.inl (he.mp h3))
      · exact h (Or.inr h3)
    have hf : send_flags conn tx nob = MSG_DONTWAIT := by
      unfold send_flags
      rw [if_neg h2]
    rw [hf]
    exact ⟨⟨fun hf => absurd hf (by decide), fun hc => absurd hc h⟩, by decide⟩

/-- What an attempt of ksocknal_lib_send_iov that returns has done: one
sock_sendmsg over the first fragments of the unit, whose answer it returns. -/
theorem ksocknal_lib_send_iov_call (cfg : build_config) (upd : Nat → Nat → Nat)
    (mem : memory) (sock : send_answer) (tun : ksock_tunables_t) (conn : ksock_conn_t)
    (tx : ksock_tx_t) (r : send_result)
    (hr : ksocknal_lib_send_iov cfg upd mem sock tun conn tx = some r) :
    ∃ staged : List iovec,
      staged = tx.tx_iov.take (if cfg.SOCKNAL_SINGLE_FRAG_TX then 1 else tx.tx_niov) ∧
      sock_calls r.events =
        [sock_call.sock_sendmsg staged (send_flags conn tx (iov_nob staged)) (iov_nob staged)] ∧
      r.rc = sock (sock_call.sock_sendmsg staged (send_flags conn tx (iov_nob staged))
        (iov_nob staged)) := by
  by_cases hw : csum_wanted tun conn tx
  · simp only [ksocknal_lib_send_iov, hw, if_true] at hr
    cases hcs : ksocknal_lib_csum_tx upd mem tun tx with
    | none => simp [hcs] at hr
    | some p =>
      obtain ⟨hh, hc⟩ := ksocknal_lib_csum_tx_asserts upd mem tun tx p hcs
      rw [ksocknal_lib_csum_tx_eq upd mem tun tx hh hc] at hr
      simp only [Option.map_some', ksock_tx_t.tx_niov] at hr
      split_ifs at hr <;> simp only [Option.some.injEq] at hr <;> subst hr <;>
        simp_all [sock_calls, send_flags, ksock_tx_t.tx_niov]
  · simp only [ksocknal_lib_send_iov, hw, if_false, ksock_tx_t.tx_niov] at hr
    split_ifs at hr <;> simp only [Option.some.injEq] at hr <;> subst hr <;>
      simp_all [sock_calls, ksock_tx_t.tx_niov]

theorem ksocknal_lib_send_kiov_zc (cfg : build_config) (sock : send_answer)
    (tun : ksock_tunables_t) (conn : ksock_conn_t) (tx : ksock_tx_t) (k : lnet_kiov_t)
    (ks : List lnet_kiov_t) (hk : tx.tx_kiov = some (k :: ks)) (hz : zc_wanted tun tx k)
    (c : sock_call)
    (hc : c = if conn.sk_prot_sendpage then
          sock_call.sendpage k.kiov_page k.kiov_offset k.kiov_len
            (send_flags conn tx (k.kiov_len : Int))
        else sock_call.tcp_sendpage k.kiov_page k.kiov_offset k.kiov_len
            (send_flags conn tx (k.kiov_len : Int))) :
    ksocknal_lib_send_kiov cfg sock tun conn tx = some { rc := sock c, events := [event.call c] } := by
  subst hc
  simp only [ksocknal_lib_send_kiov, hk, hz, if_true]

theorem ksocknal_lib_send_kiov_copy (cfg : build_config) (sock : send_answer)
    (tun : ksock_tunables_t) (conn : ksock_conn_t) (tx : ksock_tx_t) (k : lnet_kiov_t)
    (ks : List lnet_kiov_t) (hk : tx.tx_kiov = some (k :: ks)) (hz : ¬ zc_wanted tun tx k)
    (staged : List iovec)
    (hs : staged = ((k :: ks).take
      (if cfg.SOCKNAL_SINGLE_FRAG_TX || !cfg.SOCKNAL_RISK_KMAP_DEADLOCK then 1
        else (k :: ks).length)).map kiov_map) :
    ksocknal_lib_send_kiov cfg sock tun conn tx =
      some { rc := sock (sock_call.sock_sendmsg staged (send_flags conn tx (iov_nob staged))
                (iov_nob staged)),
             events := [event.call (sock_call.sock_sendmsg staged
                (send_flags conn tx (iov_nob staged)) (iov_nob staged))] } := by
  subst hs
  simp only [ksocknal_lib_send_kiov, hk, hz, if_false]

/-- C7. ksocknal_lib_send_kiov, given page fragments to send, returns having made
exactly one socket call. That call is a zero-copy page transfer of the first
page fragment (sendpage of the protocol when there is one, tcp_sendpage
otherwise) if and only if kiov_len of that fragment is at least zc_min_frag and
tx_msg.ksm_zc_req_cookie is non-zero; in every other case it is one sock_sendmsg
over the leading page fragments mapped into scratch iovecs, and no sendpage is
made. -/
theorem ksocknal_lib_send_kiov_zero_copy_iff (cfg : build_config) (sock : send_answer)
    (tun : ksock_tunables_t) (conn : ksock_conn_t) (tx : ksock_tx_t) (k : lnet_kiov_t)
    (ks : List lnet_kiov_t) (hk : tx.tx_kiov = some (k :: ks)) :
    ∃ r c, ksocknal_lib_send_kiov cfg sock tun conn tx = some r ∧
      r.events = [event.call c] ∧
      (is_page_transfer c = true ↔
        (k.kiov_len ≥ tun.ksnd_zc_min_frag ∧ tx.tx_msg.ksm_zc_req_cookie ≠ 0)) ∧
      (is_page_transfer c = true → ∃ flg,
        c = if conn.sk_prot_sendpage then
              sock_call.sendpage k.kiov_page k.kiov_offset k.kiov_len flg
            else sock_call.tcp_sendpage k.kiov_page k.kiov_offset k.kiov_len flg) ∧
      (is_page_transfer c = false → ∃ n flg, 1 ≤ n ∧
        c = sock_call.sock_sendmsg (((k :: ks).take n).map kiov_map) flg
              (iov_nob (((k :: ks).take n).map kiov_map))) := by
  by_cases hz : zc_wanted tun tx k
  · have hz2 : k.kiov_len ≥ tun.ksnd_zc_min_frag ∧ tx.tx_msg.ksm_zc_req_cookie ≠ 0 := hz
    refine ⟨_, _, ksocknal_lib_send_kiov_zc cfg sock tun conn tx k ks hk hz _ rfl, rfl, ?_, ?_, ?_⟩
    · cases conn.sk_prot_sendpage <;> simp [is_page_transfer, hz2]
    · intro _
      exact ⟨_, rfl⟩
    · cases conn.sk_prot_sendpage <;> simp [is_page_transfer]
  · have hz2 : ¬ (k.kiov_len ≥ tun.ksnd_zc_min_frag ∧ tx.tx_msg.ksm_zc_req_cookie ≠ 0) := hz
    refine ⟨_, _, ksocknal_lib_send_kiov_copy cfg sock tun conn tx k ks hk hz _ rfl, rfl, ?_, ?_, ?_⟩
    · simp only [is_page_transfer]
      exact ⟨fun h => absurd h (by decide), fun h => absurd h hz2⟩
    · intro h
      simp [is_page_transfer] at h
    · intro _
      exact ⟨_, _, by split_ifs <;> simp, rfl⟩

/-- Witness for C7: the paged unit tx_paged, whose first fragment is a whole page. -/
theorem ksocknal_lib_send_kiov_zero_copy_iff_witness :
    ∃ r c, ksocknal_lib_send_kiov cfg_multi_frag sock_would_block tun_csum_on conn_v2x tx_paged
        = some r ∧
      r.events = [event.call c] ∧
      (is_page_transfer c = true ↔
        ((4096 : Nat) ≥ tun_csum_on.ksnd_zc_min_frag ∧ tx_paged.tx_msg.ksm_zc_req_cookie ≠ 0)) ∧
      (is_page_transfer c = true → ∃ flg,
        c = if conn_v2x.sk_prot_sendpage then sock_call.sendpage 2 0 4096 flg
            else sock_call.tcp_sendpage 2 0 4096 flg) ∧
      (is_page_transfer c = false → ∃ n flg, 1 ≤ n ∧
        c = sock_call.sock_sendmsg
              ((([{ kiov_page := 2, kiov_len := 4096, kiov_offset := 0 },
                  { kiov_page := 3, kiov_len := 100, kiov_offset := 0 }] :
                    List lnet_kiov_t).take n).map kiov_map) flg
              (iov_nob ((([{ kiov_page := 2, kiov_len := 4096, kiov_offset := 0 },
                  { kiov_page := 3, kiov_len := 100, kiov_offset := 0 }] :
                    List lnet_kiov_t).take n).map kiov_map))) :=
  ksocknal_lib_send_kiov_zero_copy_iff cfg_multi_frag sock_would_block tun_csum_on conn_v2x
    tx_paged { kiov_page := 2, kiov_len := 4096, kiov_offset := 0 }
    [{ kiov_page := 3, kiov_len := 100, kiov_offset := 0 }] rfl

/-- C8. In ksocknal_lib_send_iov and in whichever path ksocknal_lib_send_kiov
takes, the one send call carries MSG_MORE if and only if the transmit queue of
the connection is not empty or the bytes offered to the call (the sum of the
staged fragment lengths; the size of the page fragment for a zero-copy
transfer) are fewer than tx_resid, and it always carries MSG_DONTWAIT. -/
theorem send_calls_msg_more (cfg : build_config) (upd : Nat → Nat → Nat) (mem : memory)
    (sock : send_answer) (tun : ksock_tunables_t) (conn : ksock_conn_t)
    (tx txk : ksock_tx_t) (k : lnet_kiov_t) (ks : List lnet_kiov_t)
    (hfrag : tx.tx_iov ≠ [])
    (hassert : csum_wanted tun conn tx →
      tx_header_first tx ∧ tx.tx_conn = some ksocknal_protocol_v2x)
    (hk : txk.tx_kiov = some (k :: ks)) :
    (∃ r c, ksocknal_lib_send_iov cfg upd mem sock tun conn tx = some r ∧
      sock_calls r.events = [c] ∧
      call_offered c =
        (((tx.tx_iov.take (if cfg.SOCKNAL_SINGLE_FRAG_TX then 1 else tx.tx_niov)).map
          (fun v => v.iov_len)).sum : Nat) ∧
      (flag_set (call_flags c) MSG_MORE ↔
        (conn.ksnc_tx_queue ≠ [] ∨ call_offered c < tx.tx_resid)) ∧
      flag_set (call_flags c) MSG_DONTWAIT) ∧
    (∃ r c, ksocknal_lib_send_kiov cfg sock tun conn txk = some r ∧
      sock_calls r.events = [c] ∧
      (is_page_transfer c = true → call_offered c = (k.kiov_len : Int)) ∧
      (is_page_transfer c = false → ∃ n, 1 ≤ n ∧
        call_offered c = ((((k :: ks).take n).map (fun f => f.kiov_len)).sum : Nat)) ∧
      (flag_set (call_flags c) MSG_MORE ↔
        (conn.ksnc_tx_queue ≠ [] ∨ call_offered c < txk.tx_resid)) ∧
      flag_set (call_flags c) MSG_DONTWAIT) := by
  constructor
  · obtain ⟨r, hr⟩ := ksocknal_lib_send_iov_returns cfg upd mem sock tun conn tx hfrag hassert
    obtain ⟨staged, hst, hcalls, -⟩ := ksocknal_lib_send_iov_call cfg upd mem sock tun conn tx r hr
    refine ⟨r, _, hr, hcalls, ?_, ?_⟩
    · simp only [call_offered]
      rw [iov_nob_eq_sum, hst]
    · simp only [call_offered, call_flags]
      exact send_flags_more conn tx (iov_nob staged)
  · by_cases hz : zc_wanted tun txk k
    · refine ⟨_, _, ksocknal_lib_send_kiov_zc cfg sock tun conn txk k ks hk hz _ rfl, rfl, ?_⟩
      cases conn.sk_prot_sendpage
      · simp only [Bool.false_eq_true, if_false, call_offered, call_flags, is_page_transfer,
          true_implies, true_and]
        exact ⟨fun h => absurd h (by decide), send_flags_more conn txk _⟩
      · simp only [if_true, call_offered, call_flags, is_page_transfer, true_implies, true_and]
        exact ⟨fun h => absurd h (by decide), send_flags_more conn txk _⟩
    · refine ⟨_, _, ksocknal_lib_send_kiov_copy cfg sock tun conn txk k ks hk hz _ rfl, rfl, ?_⟩
      simp only [call_offered, call_flags, is_page_transfer]
      refine ⟨fun h => absurd h (by decide), fun _ => ?_, send_flags_more conn txk _⟩
      refine ⟨if cfg.SOCKNAL_SINGLE_FRAG_TX || !cfg.SOCKNAL_RISK_KMAP_DEADLOCK then 1
        else (k :: ks).length, by split_ifs <;> simp, ?_⟩
      rw [iov_nob_eq_sum, List.map_map]
      rfl

/-- Witness for C8: the fresh unit tx_payload4 through ksocknal_lib_send_iov and
the paged unit tx_paged through ksocknal_lib_send_kiov. -/
theorem send_calls_msg_more_witness :
    (∃ r c, ksocknal_lib_send_iov cfg_multi_frag crc32_le_byte (mem_payload 1 2 3 4)
        sock_would_block tun_csum_on conn_v2x tx_payload4 = some r ∧
      sock_calls r.events = [c] ∧
      call_offered c =
        (((tx_payload4.tx_iov.take
            (if cfg_multi_frag.SOCKNAL_SINGLE_FRAG_TX then 1 else tx_payload4.tx_niov)).map
          (fun v => v.iov_len)).sum : Nat) ∧
      (flag_set (call_flags c) MSG_MORE ↔
        (conn_v2x.ksnc_tx_queue ≠ [] ∨ call_offered c < tx_payload4.tx_resid)) ∧
      flag_set (call_flags c) MSG_DONTWAIT) ∧
    (∃ r c, ksocknal_lib_send_kiov cfg_multi_frag sock_would_block tun_csum_on conn_v2x
        tx_paged = some r ∧
      sock_calls r.events = [c] ∧
      (is_page_transfer c = true → call_offered c = ((4096 : Nat) : Int)) ∧
      (is_page_transfer c = false → ∃ n, 1 ≤ n ∧
        call_offered c =
          (((([{ kiov_page := 2, kiov_len := 4096, kiov_offset := 0 },
               { kiov_page := 3, kiov_len := 100, kiov_offset := 0 }] :
                 List lnet_kiov_t).take n).map (fun f => f.kiov_len)).sum : Nat)) ∧
      (flag_set (call_flags c) MSG_MORE ↔
        (conn_v2x.ksnc_tx_queue ≠ [] ∨ call_offered c < tx_paged.tx_resid)) ∧
      flag_set (call_flags c) MSG_DONTWAIT) :=
  send_calls_msg_more cfg_multi_frag crc32_le_byte (mem_payload 1 2 3 4) sock_would_block
    tun_csum_on conn_v2x tx_payload4 tx_paged
    { kiov_page := 2, kiov_len := 4096, kiov_offset := 0 }
    [{ kiov_page := 3, kiov_len := 100, kiov_offset := 0 }]
    (by decide) (fun _ => ⟨by decide, rfl⟩) rfl

/-! ## The receive functions -/

/-- The accumulation loop ends without tripping its assertion when no more
bytes came in than the fragments hold. -/
theorem rx_csum_loop_some (upd : Nat → Nat → Nat) (mem : memory) (m : ksock_msg_t)
    (frags : List iovec) :
    ∀ (sum : Int) (csum : Nat), sum ≤ iov_nob frags →
      ∃ c, rx_csum_loop upd mem m frags sum csum = some c := by
  induction frags with
  | nil =>
    intro sum csum hsum
    have : ¬ sum > 0 := by
      rw [iov_nob_nil] at hsum
      omega
    exact ⟨csum, by simp [rx_csum_loop, this]⟩
  | cons v rest ih =>
    intro sum csum hsum
    rw [iov_nob_cons] at hsum
    by_cases hpos : sum > 0
    · simp only [rx_csum_loop, hpos, if_true]
      apply ih
      have h0 : (0 : Int) ≤ iov_nob rest := iov_nob_nonneg rest
      split_ifs <;> omega
    · exact ⟨csum, by simp [rx_csum_loop, hpos]⟩

theorem rx_csum_loop_nonpos (upd : Nat → Nat → Nat) (mem : memory) (m : ksock_msg_t)
    (frags : List iovec) (sum : Int) (csum : Nat) (h : sum ≤ 0) :
    rx_csum_loop upd mem m frags sum csum = some csum := by
  have : ¬ sum > 0 := by omega
  cases frags <;> simp [rx_csum_loop, this]

/-- What ksocknal_lib_recv_iov returns when something is staged, the staged
bytes are wanted and the socket answers with no more than it was asked for. -/
theorem ksocknal_lib_recv_iov_eq (cfg : build_config) (upd : Nat → Nat → Nat)
    (sock : recv_answer) (conn : ksock_conn_t) (staged : List iovec) (c : sock_call)
    (hst : staged = conn.ksnc_rx_iov.take
      (if cfg.SOCKNAL_SINGLE_FRAG_RX then 1 else conn.ksnc_rx_niov))
    (hc : c = sock_call.sock_recvmsg staged 0 (iov_nob staged) MSG_DONTWAIT)
    (hiov : conn.ksnc_rx_iov ≠ [])
    (hwant : iov_nob conn.ksnc_rx_iov ≤ conn.ksnc_rx_nob_wanted)
    (hrc : (sock c).rc ≤ iov_nob staged) :
    ∃ csum,
      (if conn.ksnc_proto = ksocknal_protocol_v2x ∧ (sock c).msg.ksm_csum ≠ 0 then
        rx_csum_loop upd (sock c).mem { (sock c).msg with ksm_csum := 0 } staged (sock c).rc
          conn.ksnc_rx_csum = some csum
       else csum = conn.ksnc_rx_csum) ∧
      ksocknal_lib_recv_iov cfg upd sock conn =
        some { rc := (sock c).rc,
               conn := { conn with ksnc_rx_csum := csum, ksnc_msg := (sock c).msg },
               mem := (sock c).mem, events := [event.call c] } := by
  have hlen : 1 ≤ conn.ksnc_rx_iov.length := by
    cases h : conn.ksnc_rx_iov with
    | nil => exact absurd h hiov
    | cons a l => simp
  have hn1 : (if cfg.SOCKNAL_SINGLE_FRAG_RX then 1 else conn.ksnc_rx_niov) > 0 := by
    unfold ksock_conn_t.ksnc_rx_niov
    split_ifs <;> omega
  have hn2 : ¬ (if cfg.SOCKNAL_SINGLE_FRAG_RX then 1 else conn.ksnc_rx_niov) >
      conn.ksnc_rx_iov.length := by
    unfold ksock_conn_t.ksnc_rx_niov
    split_ifs <;> omega
  have hn3 : iov_nob staged ≤ conn.ksnc_rx_nob_wanted := by
    rw [hst]
    exact le_trans (iov_nob_take_le _ _) hwant
  have hmsg : ∀ m : ksock_msg_t, ({ m with ksm_csum := m.ksm_csum } : ksock_msg_t) = m := by
    intro m
    cases m
    rfl
  have hn3' : iov_nob (conn.ksnc_rx_iov.take
      (if cfg.SOCKNAL_SINGLE_FRAG_RX then 1 else conn.ksnc_rx_niov)) ≤
      conn.ksnc_rx_nob_wanted := by
    rw [← hst]
    exact hn3
  have hfun : ksocknal_lib_recv_iov cfg upd sock conn =
      (if (if conn.ksnc_proto = ksocknal_protocol_v2x then (sock c).msg.ksm_csum else 0) ≠ 0 then
        match rx_csum_loop upd (sock c).mem
            (if conn.ksnc_proto = ksocknal_protocol_v2x then { (sock c).msg with ksm_csum := 0 }
              else (sock c).msg) staged (sock c).rc conn.ksnc_rx_csum with
        | none => none
        | some csum =>
          some { rc := (sock c).rc,
                 conn := { conn with
                   ksnc_rx_csum := csum,
                   ksnc_msg := { (if conn.ksnc_proto = ksocknal_protocol_v2x then
                       { (sock c).msg with ksm_csum := 0 } else (sock c).msg) with
                     ksm_csum := if conn.ksnc_proto = ksocknal_protocol_v2x then
                       (sock c).msg.ksm_csum else 0 } },
                 mem := (sock c).mem, events := [event.call c] }
      else
        some { rc := (sock c).rc,
               conn := { conn with ksnc_msg :=
                 if conn.ksnc_proto = ksocknal_protocol_v2x then
                   { (sock c).msg with ksm_csum := 0 } else (sock c).msg },
               mem := (sock c).mem, events := [event.call c] }) := by
    simp only [ksocknal_lib_recv_iov, hn1, hn2, hn3', not_true_eq_false, if_false,
      decide_eq_true_eq]
    rw [← hst, ← hc]
  rw [hfun]
  by_cases hp : conn.ksnc_proto = ksocknal_protocol_v2x
  · by_cases hz : (sock c).msg.ksm_csum = 0
    · refine ⟨conn.ksnc_rx_csum, by simp [hp, hz], ?_⟩
      simp only [hp, if_true, hz, ne_eq, not_true_eq_false, if_false]
      congr 2
      cases conn
      simp only [ksock_conn_t.mk.injEq, true_and, and_true]
      rw [← hz]
    · obtain ⟨csum, hcs⟩ := rx_csum_loop_some upd (sock c).mem
        { (sock c).msg with ksm_csum := 0 } staged (sock c).rc conn.ksnc_rx_csum hrc
      refine ⟨csum, by simp [hp, hz, hcs], ?_⟩
      simp only [hp, if_true, hz, ne_eq, not_false_eq_true, hcs]
  · refine ⟨conn.ksnc_rx_csum, by simp [hp], ?_⟩
    simp only [hp, if_false, ne_eq, not_true_eq_false]

/-- What ksocknal_lib_recv_kiov returns when a page fragment is staged, the
staged bytes are wanted and the socket answers with no more than it was asked
for. -/
theorem ksocknal_lib_recv_kiov_eq (cfg : build_config) (upd : Nat → Nat → Nat)
    (sock : recv_answer) (conn : ksock_conn_t) (staged : List iovec) (c : sock_call)
    (hst : staged = (conn.ksnc_rx_kiov.take
      (if cfg.SOCKNAL_SINGLE_FRAG_RX || !cfg.SOCKNAL_RISK_KMAP_DEADLOCK then 1
        else conn.ksnc_rx_nkiov)).map kiov_map)
    (hc : c = sock_call.sock_recvmsg staged 0 (iov_nob staged) MSG_DONTWAIT)
    (hkiov : conn.ksnc_rx_kiov ≠ [])
    (hwant : iov_nob (conn.ksnc_rx_kiov.map kiov_map) ≤ conn.ksnc_rx_nob_wanted)
    (hrc : (sock c).rc ≤ iov_nob staged) :
    ∃ csum,
      (if (sock c).msg.ksm_csum ≠ 0 then
        rx_csum_loop upd (sock c).mem (sock c).msg staged (sock c).rc conn.ksnc_rx_csum
          = some csum
       else csum = conn.ksnc_rx_csum) ∧
      ksocknal_lib_recv_kiov cfg upd sock conn =
        some { rc := (sock c).rc,
               conn := { conn with ksnc_rx_csum := csum, ksnc_msg := (sock c).msg },
               mem := (sock c).mem, events := [event.call c] } := by
  have hlen : 1 ≤ conn.ksnc_rx_kiov.length := by
    cases h : conn.ksnc_rx_kiov with
    | nil => exact absurd h hkiov
    | cons a l => simp
  have hn2 : ¬ (if cfg.SOCKNAL_SINGLE_FRAG_RX || !cfg.SOCKNAL_RISK_KMAP_DEADLOCK then 1
      else conn.ksnc_rx_nkiov) > conn.ksnc_rx_kiov.length := by
    unfold ksock_conn_t.ksnc_rx_nkiov
    split_ifs <;> omega
  have hn3 : iov_nob ((conn.ksnc_rx_kiov.take
      (if cfg.SOCKNAL_SINGLE_FRAG_RX || !cfg.SOCKNAL_RISK_KMAP_DEADLOCK then 1
        else conn.ksnc_rx_nkiov)).map kiov_map) ≤ conn.ksnc_rx_nob_wanted := by
    rw [List.map_take]
    exact le_trans (iov_nob_take_le _ _) hwant
  have hfun : ksocknal_lib_recv_kiov cfg upd sock conn =
      (if (sock c).msg.ksm_csum ≠ 0 then
        match rx_csum_loop upd (sock c).mem (sock c).msg staged (sock c).rc
            conn.ksnc_rx_csum with
        | none => none
        | some csum =>
          some { rc := (sock c).rc,
                 conn := { conn with ksnc_rx_csum := csum, ksnc_msg := (sock c).msg },
                 mem := (sock c).mem, events := [event.call c] }
      else
        some { rc := (sock c).rc, conn := { conn with ksnc_msg := (sock c).msg },
               mem := (sock c).mem, events := [event.call c] }) := by
    simp only [ksocknal_lib_recv_kiov, hn2, hn3, not_true_eq_false, if_false]
    rw [← hst, ← hc]
  rw [hfun]
  by_cases hz : (sock c).msg.ksm_csum = 0
  · exact ⟨conn.ksnc_rx_csum, by simp [hz], by simp [hz]⟩
  · obtain ⟨csum, hcs⟩ := rx_csum_loop_some upd (sock c).mem (sock c).msg staged (sock c).rc
      conn.ksnc_rx_csum hrc
    exact ⟨csum, by simp [hz, hcs], by simp [hz, hcs]⟩

/-- C9. Each of ksocknal_lib_send_iov, ksocknal_lib_send_kiov,
ksocknal_lib_recv_iov and ksocknal_lib_recv_kiov, run on a well-formed unit or
connection against any socket, returns; it makes exactly one socket call and
the value it returns is the value that call returned, whatever that value is
(a byte count, or the negative would-block or error code). -/
theorem lib_calls_return_socket_answer (cfg : build_config) (upd : Nat → Nat → Nat)
    (mem : memory) (ssock : send_answer) (rsock : recv_answer) (tun : ksock_tunables_t)
    (conn rconn kconn : ksock_conn_t) (tx txk : ksock_tx_t) (k : lnet_kiov_t)
    (ks : List lnet_kiov_t)
    (hfrag : tx.tx_iov ≠ [])
    (hassert : csum_wanted tun conn tx →
      tx_header_first tx ∧ tx.tx_conn = some ksocknal_protocol_v2x)
    (hk : txk.tx_kiov = some (k :: ks))
    (hriov : rconn.ksnc_rx_iov ≠ [])
    (hrwant : iov_nob rconn.ksnc_rx_iov ≤ rconn.ksnc_rx_nob_wanted)
    (hkiov : kconn.ksnc_rx_kiov ≠ [])
    (hkwant : iov_nob (kconn.ksnc_rx_kiov.map kiov_map) ≤ kconn.ksnc_rx_nob_wanted)
    (hrc : ∀ c, (rsock c).rc ≤ call_offered c) :
    (∃ r c, ksocknal_lib_send_iov cfg upd mem ssock tun conn tx = some r ∧
      sock_calls r.events = [c] ∧ r.rc = ssock c) ∧
    (∃ r c, ksocknal_lib_send_kiov cfg ssock tun conn txk = some r ∧
      sock_calls r.events = [c] ∧ r.rc = ssock c) ∧
    (∃ out c, ksocknal_lib_recv_iov cfg upd rsock rconn = some out ∧
      sock_calls out.events = [c] ∧ out.rc = (rsock c).rc) ∧
    (∃ out c, ksocknal_lib_recv_kiov cfg upd rsock kconn = some out ∧
      sock_calls out.events = [c] ∧ out.rc = (rsock c).rc) := by
  refine ⟨?_, ?_, ?_, ?_⟩
  · obtain ⟨r, hr⟩ := ksocknal_lib_send_iov_returns cfg upd mem ssock tun conn tx hfrag hassert
    obtain ⟨staged, -, hcalls, hrc1⟩ :=
      ksocknal_lib_send_iov_call cfg upd mem ssock tun conn tx r hr
    exact ⟨r, _, hr, hcalls, hrc1⟩
  · by_cases hz : zc_wanted tun txk k
    · exact ⟨_, _, ksocknal_lib_send_kiov_zc cfg ssock tun conn txk k ks hk hz _ rfl, rfl, rfl⟩
    · exact ⟨_, _, ksocknal_lib_send_kiov_copy cfg ssock tun conn txk k ks hk hz _ rfl, rfl, rfl⟩
  · obtain ⟨csum, -, h⟩ := ksocknal_lib_recv_iov_eq cfg upd rsock rconn _ _ rfl rfl hriov hrwant
      (hrc _)
    exact ⟨_, _, h, rfl, rfl⟩
  · obtain ⟨csum, -, h⟩ := ksocknal_lib_recv_kiov_eq cfg upd rsock kconn _ _ rfl rfl hkiov hkwant
      (hrc _)
    exact ⟨_, _, h, rfl, rfl⟩

/-- Witness for C9: a socket that would block on send and delivers 6 bytes on
receive. -/
theorem lib_calls_return_socket_answer_witness :
    (∃ r c, ksocknal_lib_send_iov cfg_multi_frag crc32_le_byte (mem_payload 1 2 3 4)
        sock_would_block tun_csum_on conn_v2x tx_payload4 = some r ∧
      sock_calls r.events = [c] ∧ r.rc = sock_would_block c) ∧
    (∃ r c, ksocknal_lib_send_kiov cfg_multi_frag sock_would_block tun_csum_on conn_v2x
        tx_paged = some r ∧
      sock_calls r.events = [c] ∧ r.rc = sock_would_block c) ∧
    (∃ out c, ksocknal_lib_recv_iov cfg_multi_frag crc32_le_byte sock_recv6 conn_rx_iov
        = some out ∧
      sock_calls out.events = [c] ∧ out.rc = (sock_recv6 c).rc) ∧
    (∃ out c, ksocknal_lib_recv_kiov cfg_multi_frag crc32_le_byte sock_recv6 conn_rx_kiov
        = some out ∧
      sock_calls out.events = [c] ∧ out.rc = (sock_recv6 c).rc) :=
  lib_calls_return_socket_answer cfg_multi_frag crc32_le_byte (mem_payload 1 2 3 4)
    sock_would_block sock_recv6 tun_csum_on conn_v2x conn_rx_iov conn_rx_kiov tx_payload4
    tx_paged { kiov_page := 2, kiov_len := 4096, kiov_offset := 0 }
    [{ kiov_page := 3, kiov_len := 100, kiov_offset := 0 }]
    (by decide) (fun _ => ⟨by decide, rfl⟩) rfl (by decide) (by decide) (by decide) (by decide)
    (fun c => min_le_left _ _)

/-- C10. In ksocknal_lib_recv_iov and ksocknal_lib_recv_kiov, run on a connection
with fragments staged against a socket that returns no more than it was asked
for: when checksum accumulation applies (for recv_iov a V2.x connection and a
non-zero ksm_csum in the header, for recv_kiov a non-zero ksm_csum) and rc > 0
bytes came in, the new ksnc_rx_csum is ksocknal_csum, started from the previous
ksnc_rx_csum, over exactly the first rc bytes of the staged fragments in order
(recv_iov reads them with the checksum field of the header zero); when
rc <= 0, ksnc_rx_csum is unchanged. -/
theorem recv_csum_accumulates (cfg : build_config) (upd : Nat → Nat → Nat)
    (sock : recv_answer) (conn kconn : ksock_conn_t)
    (hriov : conn.ksnc_rx_iov ≠ [])
    (hrwant : iov_nob conn.ksnc_rx_iov ≤ conn.ksnc_rx_nob_wanted)
    (hkiov : kconn.ksnc_rx_kiov ≠ [])
    (hkwant : iov_nob (kconn.ksnc_rx_kiov.map kiov_map) ≤ kconn.ksnc_rx_nob_wanted)
    (hrc : ∀ c, (sock c).rc ≤ call_offered c)
    (hwf : ∀ c, ∀ v ∈ conn.ksnc_rx_iov,
      (iov_bytes (sock c).mem { (sock c).msg with ksm_csum := 0 } v).length = v.iov_len)
    (hkwf : ∀ c, ∀ f ∈ kconn.ksnc_rx_kiov,
      (kiov_bytes (sock c).mem (sock c).msg f).length = f.kiov_len) :
    (∃ out, ksocknal_lib_recv_iov cfg upd sock conn = some out ∧
      (conn.ksnc_proto = ksocknal_protocol_v2x → out.conn.ksnc_msg.ksm_csum ≠ 0 → 0 < out.rc →
        out.conn.ksnc_rx_csum = ksocknal_csum upd conn.ksnc_rx_csum
          ((((conn.ksnc_rx_iov.take
              (if cfg.SOCKNAL_SINGLE_FRAG_RX then 1 else conn.ksnc_rx_niov)).map
            (iov_bytes out.mem { out.conn.ksnc_msg with ksm_csum := 0 })).flatten).take
              out.rc.toNat)) ∧
      (out.rc ≤ 0 → out.conn.ksnc_rx_csum = conn.ksnc_rx_csum)) ∧
    (∃ out, ksocknal_lib_recv_kiov cfg upd sock kconn = some out ∧
      (out.conn.ksnc_msg.ksm_csum ≠ 0 → 0 < out.rc →
        out.conn.ksnc_rx_csum = ksocknal_csum upd kconn.ksnc_rx_csum
          ((((kconn.ksnc_rx_kiov.take
              (if cfg.SOCKNAL_SINGLE_FRAG_RX || !cfg.SOCKNAL_RISK_KMAP_DEADLOCK then 1
                else kconn.ksnc_rx_nkiov)).map
            (kiov_bytes out.mem out.conn.ksnc_msg)).flatten).take out.rc.toNat)) ∧
      (out.rc ≤ 0 → out.conn.ksnc_rx_csum = kconn.ksnc_rx_csum)) := by
  constructor
  · obtain ⟨staged, hst⟩ : ∃ l, l = conn.ksnc_rx_iov.take
        (if cfg.SOCKNAL_SINGLE_FRAG_RX then 1 else conn.ksnc_rx_niov) := ⟨_, rfl⟩
    obtain ⟨c, hc⟩ : ∃ c, c = sock_call.sock_recvmsg staged 0 (iov_nob staged) MSG_DONTWAIT :=
      ⟨_, rfl⟩
    have hrc1 : (sock c).rc ≤ iov_nob staged := by
      have := hrc c
      rw [hc] at this ⊢
      exact this
    have hw : ∀ v ∈ staged,
        (iov_bytes (sock c).mem { (sock c).msg with ksm_csum := 0 } v).length = v.iov_len := by
      intro v hv
      rw [hst] at hv
      exact hwf c v (List.mem_of_mem_take hv)
    obtain ⟨csum, hcs, h⟩ := ksocknal_lib_recv_iov_eq cfg upd sock conn staged c hst hc hriov
      hrwant hrc1
    refine ⟨_, h, ?_, ?_⟩
    · intro hp hz _
      simp only at hz ⊢
      rw [if_pos ⟨hp, hz⟩, rx_csum_loop_eq upd _ _ staged _ _ hrc1 hw] at hcs
      rw [← hst]
      exact (Option.some.inj hcs).symm
    · intro hle
      simp only at hle ⊢
      split_ifs at hcs
      · rw [rx_csum_loop_nonpos upd _ _ _ _ _ hle] at hcs
        exact (Option.some.inj hcs).symm
      · exact hcs
  · obtain ⟨kstaged, hkst⟩ : ∃ l, l = kconn.ksnc_rx_kiov.take
        (if cfg.SOCKNAL_SINGLE_FRAG_RX || !cfg.SOCKNAL_RISK_KMAP_DEADLOCK then 1
          else kconn.ksnc_rx_nkiov) := ⟨_, rfl⟩
    obtain ⟨staged, hst⟩ : ∃ l, l = kstaged.map kiov_map := ⟨_, rfl⟩
    obtain ⟨c, hc⟩ : ∃ c, c = sock_call.sock_recvmsg staged 0 (iov_nob staged) MSG_DONTWAIT :=
      ⟨_, rfl⟩
    have hrc1 : (sock c).rc ≤ iov_nob staged := by
      have := hrc c
      rw [hc] at this ⊢
      exact this
    have hw : ∀ v ∈ staged, (iov_bytes (sock c).mem (sock c).msg v).length = v.iov_len := by
      intro v hv
      rw [hst] at hv
      obtain ⟨f, hf, rfl⟩ := List.mem_map.mp hv
      rw [hkst] at hf
      exact hkwf c f (List.mem_of_mem_take hf)
    obtain ⟨csum, hcs, h⟩ := ksocknal_lib_recv_kiov_eq cfg upd sock kconn staged c
      (by rw [hst, hkst]) hc hkiov hkwant hrc1
    refine ⟨_, h, ?_, ?_⟩
    · intro hz _
      simp only at hz ⊢
      rw [if_pos hz, rx_csum_loop_eq upd _ _ staged _ _ hrc1 hw] at hcs
      rw [← hkst, ← Option.some.inj hcs, hst, List.map_map]
      rfl
    · intro hle
      simp only at hle ⊢
      split_ifs at hcs
      · rw [rx_csum_loop_nonpos upd _ _ _ _ _ hle] at hcs
        exact (Option.some.inj hcs).symm
      · exact hcs

/-- Witness for C10: 6 bytes delivered into two 4-byte buffers, and into a page. -/
theorem recv_csum_accumulates_witness :
    (∃ out, ksocknal_lib_recv_iov cfg_multi_frag crc32_le_byte sock_recv6 conn_rx_iov
        = some out ∧
      (conn_rx_iov.ksnc_proto = ksocknal_protocol_v2x → out.conn.ksnc_msg.ksm_csum ≠ 0 →
        0 < out.rc →
        out.conn.ksnc_rx_csum = ksocknal_csum crc32_le_byte conn_rx_iov.ksnc_rx_csum
          ((((conn_rx_iov.ksnc_rx_iov.take
              (if cfg_multi_frag.SOCKNAL_SINGLE_FRAG_RX then 1 else conn_rx_iov.ksnc_rx_niov)).map
            (iov_bytes out.mem { out.conn.ksnc_msg with ksm_csum := 0 })).flatten).take
              out.rc.toNat)) ∧
      (out.rc ≤ 0 → out.conn.ksnc_rx_csum = conn_rx_iov.ksnc_rx_csum)) ∧
    (∃ out, ksocknal_lib_recv_kiov cfg_multi_frag crc32_le_byte sock_recv6 conn_rx_kiov
        = some out ∧
      (out.conn.ksnc_msg.ksm_csum ≠ 0 → 0 < out.rc →
        out.conn.ksnc_rx_csum = ksocknal_csum crc32_le_byte conn_rx_kiov.ksnc_rx_csum
          ((((conn_rx_kiov.ksnc_rx_kiov.take
              (if cfg_multi_frag.SOCKNAL_SINGLE_FRAG_RX ||
                  !cfg_multi_frag.SOCKNAL_RISK_KMAP_DEADLOCK then 1
                else conn_rx_kiov.ksnc_rx_nkiov)).map
            (kiov_bytes out.mem out.conn.ksnc_msg)).flatten).take out.rc.toNat)) ∧
      (out.rc ≤ 0 → out.conn.ksnc_rx_csum = conn_rx_kiov.ksnc_rx_csum)) :=
  recv_csum_accumulates cfg_multi_frag crc32_le_byte sock_recv6 conn_rx_iov conn_rx_kiov
    (by decide) (by decide) (by decide) (by decide) (fun c => min_le_left _ _)
    (fun c v hv => by
      simp only [conn_rx_iov, List.mem_cons, List.mem_singleton, List.not_mem_nil, or_false] at hv
      rcases hv with h | h <;> subst h <;> rfl)
    (fun c f hf => by
      simp only [conn_rx_kiov, List.mem_singleton] at hf
      subst hf
      rfl)

/-! ## When the receive functions accumulate -/

/-- What a returning ksocknal_lib_recv_iov has done: one receive call, whose
answer it returns; ksnc_rx_csum is touched only on a V2.x connection whose
header, as the call left it, has a non-zero ksm_csum. -/
theorem ksocknal_lib_recv_iov_some (cfg : build_config) (upd : Nat → Nat → Nat)
    (sock : recv_answer) (conn : ksock_conn_t) (out : recv_outcome)
    (h : ksocknal_lib_recv_iov cfg upd sock conn = some out) :
    ∃ c, out.events = [event.call c] ∧ out.rc = (sock c).rc ∧ out.mem = (sock c).mem ∧
      out.conn.ksnc_msg = (sock c).msg ∧
      (out.conn.ksnc_rx_csum = conn.ksnc_rx_csum ∨
        (conn.ksnc_proto = ksocknal_protocol_v2x ∧ (sock c).msg.ksm_csum ≠ 0)) := by
  by_cases h1 : (if cfg.SOCKNAL_SINGLE_FRAG_RX then 1 else conn.ksnc_rx_niov) > 0
  swap
  · have hn : ksocknal_lib_recv_iov cfg upd sock conn = none := by
      simp only [ksocknal_lib_recv_iov, h1, not_false_eq_true, if_true]
    rw [hn] at h
    cases h
  by_cases h2 : (if cfg.SOCKNAL_SINGLE_FRAG_RX then 1 else conn.ksnc_rx_niov) >
      conn.ksnc_rx_iov.length
  · have hn : ksocknal_lib_recv_iov cfg upd sock conn = none := by
      simp only [ksocknal_lib_recv_iov, h1, h2, not_true_eq_false, if_false, if_true]
    rw [hn] at h
    cases h
  by_cases h3 : iov_nob (conn.ksnc_rx_iov.take
      (if cfg.SOCKNAL_SINGLE_FRAG_RX then 1 else conn.ksnc_rx_niov)) ≤ conn.ksnc_rx_nob_wanted
  swap
  · have hn : ksocknal_lib_recv_iov cfg upd sock conn = none := by
      simp only [ksocknal_lib_recv_iov, h1, h2, h3, not_true_eq_false, not_false_eq_true,
        if_false, if_true]
    rw [hn] at h
    cases h
  obtain ⟨staged, hst⟩ : ∃ l, l = conn.ksnc_rx_iov.take
      (if cfg.SOCKNAL_SINGLE_FRAG_RX then 1 else conn.ksnc_rx_niov) := ⟨_, rfl⟩
  obtain ⟨c, hc⟩ : ∃ c, c = sock_call.sock_recvmsg staged 0 (iov_nob staged) MSG_DONTWAIT :=
    ⟨_, rfl⟩
  simp only [ksocknal_lib_recv_iov, h1, h2, h3, not_true_eq_false, if_false,
    decide_eq_true_eq] at h
  rw [← hst, ← hc] at h
  refine ⟨c, ?_⟩
  by_cases hp : conn.ksnc_proto = ksocknal_protocol_v2x
  · by_cases hz : (sock c).msg.ksm_csum = 0
    · simp only [hp, if_true, hz, ne_eq, not_true_eq_false, if_false, Option.some.injEq] at h
      subst h
      refine ⟨rfl, rfl, rfl, ?_, Or.inl rfl⟩
      simp only
      cases hm : (sock c).msg
      rw [hm] at hz
      simp only at hz
      subst hz
      rfl
    · simp only [hp, if_true, hz, ne_eq, not_false_eq_true] at h
      cases hl : rx_csum_loop upd (sock c).mem { (sock c).msg with ksm_csum := 0 } staged
          (sock c).rc conn.ksnc_rx_csum with
      | none => simp [hl] at h
      | some csum =>
        simp only [hl, Option.some.injEq] at h
        subst h
        exact ⟨rfl, rfl, rfl, rfl, Or.inr ⟨hp, hz⟩⟩
  · simp only [hp, if_false, ne_eq, not_true_eq_false, Option.some.injEq] at h
    subst h
    exact ⟨rfl, rfl, rfl, rfl, Or.inl rfl⟩

/-- What a returning ksocknal_lib_recv_kiov has done: one receive call, whose
answer it returns; ksnc_rx_csum is touched only when the header has a non-zero
ksm_csum. The protocol of the connection is not looked at. -/
theorem ksocknal_lib_recv_kiov_some (cfg : build_config) (upd : Nat → Nat → Nat)
    (sock : recv_answer) (conn : ksock_conn_t) (out : recv_outcome)
    (h : ksocknal_lib_recv_kiov cfg upd sock conn = some out) :
    ∃ c, out.events = [event.call c] ∧ out.rc = (sock c).rc ∧ out.mem = (sock c).mem ∧
      out.conn.ksnc_msg = (sock c).msg ∧
      (out.conn.ksnc_rx_csum = conn.ksnc_rx_csum ∨ (sock c).msg.ksm_csum ≠ 0) := by
  by_cases h2 : (if cfg.SOCKNAL_SINGLE_FRAG_RX || !cfg.SOCKNAL_RISK_KMAP_DEADLOCK then 1
      else conn.ksnc_rx_nkiov) > conn.ksnc_rx_kiov.length
  · have hn : ksocknal_lib_recv_kiov cfg upd sock conn = none := by
      simp only [ksocknal_lib_recv_kiov, h2, if_true]
    rw [hn] at h
    cases h
  by_cases h3 : iov_nob ((conn.ksnc_rx_kiov.take
      (if cfg.SOCKNAL_SINGLE_FRAG_RX || !cfg.SOCKNAL_RISK_KMAP_DEADLOCK then 1
        else conn.ksnc_rx_nkiov)).map kiov_map) ≤ conn.ksnc_rx_nob_wanted
  swap
  · have hn : ksocknal_lib_recv_kiov cfg upd sock conn = none := by
      simp only [ksocknal_lib_recv_kiov, h2, h3, not_false_eq_true, if_false, if_true]
    rw [hn] at h
    cases h
  obtain ⟨staged, hst⟩ : ∃ l, l = (conn.ksnc_rx_kiov.take
      (if cfg.SOCKNAL_SINGLE_FRAG_RX || !cfg.SOCKNAL_RISK_KMAP_DEADLOCK then 1
        else conn.ksnc_rx_nkiov)).map kiov_map := ⟨_, rfl⟩
  obtain ⟨c, hc⟩ : ∃ c, c = sock_call.sock_recvmsg staged 0 (iov_nob staged) MSG_DONTWAIT :=
    ⟨_, rfl⟩
  simp only [ksocknal_lib_recv_kiov, h2, h3, not_true_eq_false, if_false] at h
  rw [← hst, ← hc] at h
  refine ⟨c, ?_⟩
  by_cases hz : (sock c).msg.ksm_csum = 0
  · simp only [hz, ne_eq, not_true_eq_false, if_false, Option.some.injEq] at h
    subst h
    exact ⟨rfl, rfl, rfl, rfl, Or.inl rfl⟩
  · simp only [hz, ne_eq, not_false_eq_true, if_true] at h
    cases hl : rx_csum_loop upd (sock c).mem (sock c).msg staged (sock c).rc
        conn.ksnc_rx_csum with
    | none => simp [hl] at h
    | some csum =>
      simp only [hl, Option.some.injEq] at h
      subst h
      exact ⟨rfl, rfl, rfl, rfl, Or.inr hz⟩

/-- A header whose ksm_csum is zero leaves ksnc_rx_csum alone in both receive
functions, and so does a connection on another protocol in
ksocknal_lib_recv_iov. -/
theorem recv_csum_frame (cfg : build_config) (upd : Nat → Nat → Nat) (sock : recv_answer)
    (conn : ksock_conn_t) (out : recv_outcome) :
    (ksocknal_lib_recv_iov cfg upd sock conn = some out →
      (conn.ksnc_proto ≠ ksocknal_protocol_v2x ∨ out.conn.ksnc_msg.ksm_csum = 0) →
      out.conn.ksnc_rx_csum = conn.ksnc_rx_csum) ∧
    (ksocknal_lib_recv_kiov cfg upd sock conn = some out →
      out.conn.ksnc_msg.ksm_csum = 0 → out.conn.ksnc_rx_csum = conn.ksnc_rx_csum) := by
  constructor
  · intro h hf
    obtain ⟨c, -, -, -, hm, hcs⟩ := ksocknal_lib_recv_iov_some cfg upd sock conn out h
    rcases hcs with hcs | ⟨hp, hz⟩
    · exact hcs
    · rw [hm] at hf
      rcases hf with hf | hf
      · exact absurd hp hf
      · exact absurd hf hz
  · intro h hf
    obtain ⟨c, -, -, -, hm, hcs⟩ := ksocknal_lib_recv_kiov_some cfg upd sock conn out h
    rcases hcs with hcs | hz
    · exact hcs
    · rw [hm] at hf
      exact absurd hf hz

/-- C11, the code at the failing input. On a connection whose protocol is not
V2.x, with a header whose ksm_csum is 5 and 6 bytes received,
ksocknal_lib_recv_kiov rolls the 6 bytes into ksnc_rx_csum (0xffffffff becomes
3202685453), while ksocknal_lib_recv_iov on such a connection leaves
ksnc_rx_csum as it was. -/
theorem ksocknal_lib_recv_kiov_ignores_proto :
    conn_rx_kiov_v1.ksnc_proto ≠ ksocknal_protocol_v2x ∧
    conn_rx_kiov_v1.ksnc_rx_csum = 0xffffffff ∧
    (ksocknal_lib_recv_kiov cfg_multi_frag crc32_le_byte sock_recv6 conn_rx_kiov_v1).map
      (fun o => (o.rc, o.conn.ksnc_msg.ksm_csum, o.conn.ksnc_rx_csum)) =
        some (6, 5, 3202685453) ∧
    (ksocknal_lib_recv_iov cfg_multi_frag crc32_le_byte sock_recv6 conn_rx_iov_v1).map
      (fun o => (o.rc, o.conn.ksnc_msg.ksm_csum, o.conn.ksnc_rx_csum)) =
        some (6, 5, 0xffffffff) := by
  refine ⟨by decide, rfl, by decide!, by decide!⟩

/-! ## The readiness callbacks -/

/-- C12. ksocknal_data_ready, called outside interrupt context on a socket whose
slot is not left pointing at ksocknal_data_ready while nothing is bound,
returns, leaves the socket as it is, and does this and nothing else: it takes
the global lock in read mode, then looks up sk_user_data; if no connection is
bound it calls the target sk_data_ready holds, once, with the same sk and n,
and does not call ksocknal_read_callback; if a connection is bound it calls
ksocknal_read_callback on that connection, once, and forwards nothing; then it
releases the lock. -/
theorem ksocknal_data_ready_dispatch (sk : struct_sock) (n : Int)
    (hslot : sk.sk_user_data = none → sk.sk_data_ready ≠ sk_callback.ksocknal_data_ready) :
    ∃ out, ksocknal_data_ready false sk n = some out ∧ out.sk = sk ∧
      (sk.sk_user_data = none →
        out.events = [sk_event.read_lock, sk_event.load_user_data,
                      sk_event.sk_data_ready sk.sk_data_ready n, sk_event.read_unlock]) ∧
      (∀ conn, sk.sk_user_data = some conn →
        out.events = [sk_event.read_lock, sk_event.load_user_data,
                      sk_event.ksocknal_read_callback conn, sk_event.read_unlock]) := by
  cases hu : sk.sk_user_data with
  | none =>
    have hne := hslot hu
    refine ⟨_, by simp only [ksocknal_data_ready, hu, hne, Bool.false_eq_true, if_false]; rfl,
      rfl, fun _ => rfl, fun conn hc => absurd hc (by simp)⟩
  | some conn =>
    refine ⟨_, by simp only [ksocknal_data_ready, hu, Bool.false_eq_true, if_false]; rfl,
      rfl, fun hc => absurd hc (by simp), fun c hc => ?_⟩
    simp only [Option.some.injEq] at hc
    subst hc
    rfl

/-- Witness for C12: the fresh socket sk_fresh, nothing bound. -/
theorem ksocknal_data_ready_dispatch_witness :
    ∃ out, ksocknal_data_ready false sk_fresh 5 = some out ∧ out.sk = sk_fresh ∧
      (sk_fresh.sk_user_data = none →
        out.events = [sk_event.read_lock, sk_event.load_user_data,
                      sk_event.sk_data_ready sk_fresh.sk_data_ready 5, sk_event.read_unlock]) ∧
      (∀ conn, sk_fresh.sk_user_data = some conn →
        out.events = [sk_event.read_lock, sk_event.load_user_data,
                      sk_event.ksocknal_read_callback conn, sk_event.read_unlock]) :=
  ksocknal_data_ready_dispatch sk_fresh 5 (fun _ => by decide)

/-- C13. For every socket with a bound connection, ksocknal_write_space called
while the write space is below the low-water mark (wspace < min_wspace) takes
and releases the lock and does nothing else: it does not call
ksocknal_write_callback, makes no clear_bit, and leaves the socket, its
SOCK_NOSPACE flag included, unchanged. -/
theorem ksocknal_write_space_below_mark (sk : struct_sock) (conn : Nat)
    (hb : sk.sk_user_data = some conn) (hw : sk.wspace < sk.min_wspace) :
    ∃ out, ksocknal_write_space false sk = some out ∧
      out.events = [sk_event.read_lock, sk_event.load_user_data, sk_event.read_unlock] ∧
      (∀ c, sk_event.ksocknal_write_callback c ∉ out.events) ∧
      (∀ nr, sk_event.clear_bit nr ∉ out.events) ∧
      out.sk = sk ∧ out.sk.flags SOCK_NOSPACE = sk.flags SOCK_NOSPACE := by
  have hnot : ¬ sk.wspace ≥ sk.min_wspace := by omega
  refine ⟨_, by simp only [ksocknal_write_space, hb, hnot, Bool.false_eq_true, if_false]; rfl,
    rfl, ?_, ?_, rfl, rfl⟩
  · intro c
    simp
  · intro nr
    simp

/-- Witness for C13: the bound socket with 100 bytes of space under a mark of 5461. -/
theorem ksocknal_write_space_below_mark_witness :
    ∃ out, ksocknal_write_space false sk_bound_low = some out ∧
      out.events = [sk_event.read_lock, sk_event.load_user_data, sk_event.read_unlock] ∧
      (∀ c, sk_event.ksocknal_write_callback c ∉ out.events) ∧
      (∀ nr, sk_event.clear_bit nr ∉ out.events) ∧
      out.sk = sk_bound_low ∧ out.sk.flags SOCK_NOSPACE = sk_bound_low.flags SOCK_NOSPACE :=
  ksocknal_write_space_below_mark sk_bound_low 42 rfl (by decide)

/-- C14. For every socket with a bound connection, ksocknal_write_space called
with write space at or above the low-water mark (wspace >= min_wspace) calls
ksocknal_write_callback on the connection exactly once and then clears
SOCK_NOSPACE, in that order: whatever comes before the clear_bit in the events
includes the call of ksocknal_write_callback; when the function returns the flag
is clear and no other bit has changed. -/
theorem ksocknal_write_space_above_mark (sk : struct_sock) (conn : Nat)
    (hb : sk.sk_user_data = some conn) (hw : sk.wspace ≥ sk.min_wspace) :
    ∃ out, ksocknal_write_space false sk = some out ∧
      out.events = [sk_event.read_lock, sk_event.load_user_data,
                    sk_event.ksocknal_write_callback conn,
                    sk_event.clear_bit SOCK_NOSPACE, sk_event.read_unlock] ∧
      out.events.count (sk_event.ksocknal_write_callback conn) = 1 ∧
      (∀ pre post, out.events = pre ++ sk_event.clear_bit SOCK_NOSPACE :: post →
        sk_event.ksocknal_write_callback conn ∈ pre) ∧
      out.sk.flags SOCK_NOSPACE = false ∧
      (∀ i, i ≠ SOCK_NOSPACE → out.sk.flags i = sk.flags i) := by
  refine ⟨_, by simp only [ksocknal_write_space, hb, hw, Bool.false_eq_true, if_false, if_true]; rfl,
    rfl, ?_, ?_, ?_, ?_⟩
  · simp [List.count_cons]
  · intro pre post h
    simp only at h
    rcases pre with _ | ⟨a, _ | ⟨b, _ | ⟨c, _ | ⟨d, pre⟩⟩⟩⟩ <;> simp_all
  · simp [clear_bit]
  · intro i hi
    simp [clear_bit, hi]

/-- Witness for C14: the bound socket with 16384 bytes of space over a mark of 5461. -/
theorem ksocknal_write_space_above_mark_witness :
    ∃ out, ksocknal_write_space false sk_bound = some out ∧
      out.events = [sk_event.read_lock, sk_event.load_user_data,
                    sk_event.ksocknal_write_callback 42,
                    sk_event.clear_bit SOCK_NOSPACE, sk_event.read_unlock] ∧
      out.events.count (sk_event.ksocknal_write_callback 42) = 1 ∧
      (∀ pre post, out.events = pre ++ sk_event.clear_bit SOCK_NOSPACE :: post →
        sk_event.ksocknal_write_callback 42 ∈ pre) ∧
      out.sk.flags SOCK_NOSPACE = false ∧
      (∀ i, i ≠ SOCK_NOSPACE → out.sk.flags i = sk_bound.flags i) :=
  ksocknal_write_space_above_mark sk_bound 42 rfl (by decide)

/-- C15. For every socket and connection, ksocknal_lib_save_callback followed by
ksocknal_lib_set_callback and then ksocknal_lib_reset_callback hands the
notification slot back intact: sk_data_ready and sk_write_space have the values
they had before the save, sk_user_data is NULL, and nothing else of the socket
has changed; in between, after set_callback, the socket is bound to the
connection and its two slots hold ksocknal_data_ready and ksocknal_write_space. -/
theorem callbacks_round_trip (sk : struct_sock) (conn : ksock_conn_saved) (p : Nat) :
    (ksocknal_lib_reset_callback (ksocknal_lib_set_callback sk p)
        (ksocknal_lib_save_callback sk conn)).sk_data_ready = sk.sk_data_ready ∧
    (ksocknal_lib_reset_callback (ksocknal_lib_set_callback sk p)
        (ksocknal_lib_save_callback sk conn)).sk_write_space = sk.sk_write_space ∧
    (ksocknal_lib_reset_callback (ksocknal_lib_set_callback sk p)
        (ksocknal_lib_save_callback sk conn)).sk_user_data = none ∧
    ksocknal_lib_reset_callback (ksocknal_lib_set_callback sk p)
        (ksocknal_lib_save_callback sk conn) = { sk with sk_user_data := none } ∧
    (ksocknal_lib_set_callback sk p).sk_user_data = some p ∧
    (ksocknal_lib_set_callback sk p).sk_data_ready = sk_callback.ksocknal_data_ready ∧
    (ksocknal_lib_set_callback sk p).sk_write_space = sk_callback.ksocknal_write_space :=
  ⟨rfl, rfl, rfl, rfl, rfl, rfl, rfl⟩

/-- On a socket with nothing bound and both slots on functions that are not the
callbacks of this driver, a notification is forwarded and nothing the callbacks
own is changed. -/
theorem sk_notify_unbound (sk : struct_sock) (e : sk_notification)
    (hu : sk.sk_user_data = none)
    (hd : sk.sk_data_ready ≠ sk_callback.ksocknal_data_ready)
    (hw : sk.sk_write_space ≠ sk_callback.ksocknal_write_space) :
    ∃ sk1, sk_notify sk e =
        some { sk := sk1, events := forward_events sk.sk_data_ready sk.sk_write_space e } ∧
      sk1.flags = sk.flags ∧ sk1.sk_user_data = none ∧
      sk1.sk_data_ready = sk.sk_data_ready ∧ sk1.sk_write_space = sk.sk_write_space := by
  cases e with
  | readable n =>
    refine ⟨sk, ?_, rfl, hu, rfl, rfl⟩
    simp only [sk_notify, ksocknal_data_ready, hu, hd, Bool.false_eq_true, if_false,
      forward_events]
  | writable w m =>
    refine ⟨{ sk with wspace := w, min_wspace := m }, ?_, rfl, hu, rfl, rfl⟩
    obtain ⟨ud, dr, ws, a, b, fl⟩ := sk
    simp only at hu hw
    subst hu
    simp only [sk_notify, ksocknal_write_space, hw, Bool.false_eq_true, if_false,
      forward_events]

/-- On such a socket every sequence of notifications is forwarded. -/
theorem sk_notify_all_unbound (evs : List sk_notification) :
    ∀ sk : struct_sock, sk.sk_user_data = none →
      sk.sk_data_ready ≠ sk_callback.ksocknal_data_ready →
      sk.sk_write_space ≠ sk_callback.ksocknal_write_space →
      ∃ sk3, sk_notify_all sk evs =
          some (sk3, evs.map (forward_events sk.sk_data_ready sk.sk_write_space)) ∧
        sk3.flags = sk.flags ∧ sk3.sk_user_data = none ∧
        sk3.sk_data_ready = sk.sk_data_ready ∧ sk3.sk_write_space = sk.sk_write_space := by
  induction evs with
  | nil =>
    intro sk _ _ _
    exact ⟨sk, rfl, rfl, by assumption, rfl, rfl⟩
  | cons e more ih =>
    intro sk hu hd hw
    obtain ⟨sk1, h1, hf1, hu1, hd1, hw1⟩ := sk_notify_unbound sk e hu hd hw
    obtain ⟨sk3, h3, hf, hu3, hd3, hw3⟩ := ih sk1 hu1 (by rw [hd1]; exact hd)
      (by rw [hw1]; exact hw)
    refine ⟨sk3, ?_, by rw [hf, hf1], hu3, by rw [hd3, hd1], by rw [hw3, hw1]⟩
    rw [hd1, hw1] at h3
    simp only [sk_notify_all, h1, h3, Option.map_some', List.map_cons]

/-- C16. After ksocknal_lib_reset_callback has run on a socket (following
save_callback and set_callback) whose original targets are not the callbacks
of this driver, every later invocation of ksocknal_data_ready or
ksocknal_write_space on it, in any number and order, only forwards: it takes
the lock, looks up the binding, calls the original target of the socket once
and releases the lock; it never calls ksocknal_read_callback or
ksocknal_write_callback (so no connection record is reached), makes no
clear_bit, and the flag word, SOCK_NOSPACE included, stays as it was. -/
theorem callbacks_after_reset_forward (sk : struct_sock) (conn : ksock_conn_saved) (p : Nat)
    (evs : List sk_notification)
    (hd : sk.sk_data_ready ≠ sk_callback.ksocknal_data_ready)
    (hw : sk.sk_write_space ≠ sk_callback.ksocknal_write_space) :
    ∃ sk3 traces,
      sk_notify_all (ksocknal_lib_reset_callback (ksocknal_lib_set_callback sk p)
        (ksocknal_lib_save_callback sk conn)) evs = some (sk3, traces) ∧
      traces = evs.map (forward_events sk.sk_data_ready sk.sk_write_space) ∧
      (∀ t ∈ traces, ∀ c nr, sk_event.ksocknal_read_callback c ∉ t ∧
        sk_event.ksocknal_write_callback c ∉ t ∧ sk_event.clear_bit nr ∉ t) ∧
      sk3.flags = sk.flags ∧ sk3.flags SOCK_NOSPACE = sk.flags SOCK_NOSPACE ∧
      sk3.sk_user_data = none ∧ sk3.sk_data_ready = sk.sk_data_ready ∧
      sk3.sk_write_space = sk.sk_write_space := by
  obtain ⟨sk3, h3, hf, hu3, hd3, hw3⟩ := sk_notify_all_unbound evs
    (ksocknal_lib_reset_callback (ksocknal_lib_set_callback sk p)
      (ksocknal_lib_save_callback sk conn)) rfl hd hw
  refine ⟨sk3, _, h3, rfl, ?_, hf, by rw [hf]; rfl, hu3, hd3, hw3⟩
  intro t ht c nr
  obtain ⟨e, -, rfl⟩ := List.mem_map.mp ht
  cases e <;> simp [forward_events]

/-- Witness for C16: the fresh socket, bound to the connection at 42 and
released again, then notified readable, writable and readable. -/
theorem callbacks_after_reset_forward_witness :
    ∃ sk3 traces,
      sk_notify_all (ksocknal_lib_reset_callback (ksocknal_lib_set_callback sk_fresh 42)
        (ksocknal_lib_save_callback sk_fresh conn_saved_none))
        [sk_notification.readable 5, sk_notification.writable 16384 5461,
         sk_notification.readable 0] = some (sk3, traces) ∧
      traces = [sk_notification.readable 5, sk_notification.writable 16384 5461,
         sk_notification.readable 0].map
           (forward_events sk_fresh.sk_data_ready sk_fresh.sk_write_space) ∧
      (∀ t ∈ traces, ∀ c nr, sk_event.ksocknal_read_callback c ∉ t ∧
        sk_event.ksocknal_write_callback c ∉ t ∧ sk_event.clear_bit nr ∉ t) ∧
      sk3.flags = sk_fresh.flags ∧ sk3.flags SOCK_NOSPACE = sk_fresh.flags SOCK_NOSPACE ∧
      sk3.sk_user_data = none ∧ sk3.sk_data_ready = sk_fresh.sk_data_ready ∧
      sk3.sk_write_space = sk_fresh.sk_write_space :=
  callbacks_after_reset_forward sk_fresh conn_saved_none 42
    [sk_notification.readable 5, sk_notification.writable 16384 5461,
     sk_notification.readable 0] (by decide) (by decide)

/-! ## The closing flag -/

theorem ksocknal_lib_send_kiov_some (cfg : build_config) (sock : send_answer)
    (tun : ksock_tunables_t) (conn : ksock_conn_t) (tx : ksock_tx_t) (r : send_kiov_result)
    (h : ksocknal_lib_send_kiov cfg sock tun conn tx = some r) :
    ∃ c, r.events = [event.call c] ∧ r.rc = sock c := by
  cases hk : tx.tx_kiov with
  | none => simp [ksocknal_lib_send_kiov, hk] at h
  | some l =>
    cases l with
    | nil => simp [ksocknal_lib_send_kiov, hk] at h
    | cons k ks =>
      by_cases hz : zc_wanted tun tx k
      · rw [ksocknal_lib_send_kiov_zc cfg sock tun conn tx k ks hk hz _ rfl] at h
        simp only [Option.some.injEq] at h
        subst h
        exact ⟨_, rfl, rfl⟩
      · rw [ksocknal_lib_send_kiov_copy cfg sock tun conn tx k ks hk hz _ rfl] at h
        simp only [Option.some.injEq] at h
        subst h
        exact ⟨_, rfl, rfl⟩

/-- C17 (as amended). None of ksocknal_lib_send_iov, ksocknal_lib_send_kiov,
ksocknal_lib_recv_iov and ksocknal_lib_recv_kiov reads ksnc_closing: run on a
connection with the flag set to any value, each does exactly what it does on
the same connection with the flag as it was, leaving the flag alone; and
whenever one of them returns on a closing connection it has made its one socket
call and returns the answer of that call. -/
theorem lib_calls_closing_independent (cfg : build_config) (upd : Nat → Nat → Nat)
    (mem : memory) (ssock : send_answer) (rsock : recv_answer) (tun : ksock_tunables_t)
    (conn : ksock_conn_t) (tx : ksock_tx_t) (b : Bool) :
    (ksocknal_lib_send_iov cfg upd mem ssock tun { conn with ksnc_closing := b } tx =
      ksocknal_lib_send_iov cfg upd mem ssock tun conn tx) ∧
    (ksocknal_lib_send_kiov cfg ssock tun { conn with ksnc_closing := b } tx =
      ksocknal_lib_send_kiov cfg ssock tun conn tx) ∧
    (ksocknal_lib_recv_iov cfg upd rsock { conn with ksnc_closing := b } =
      (ksocknal_lib_recv_iov cfg upd rsock conn).map
        (fun o => { o with conn := { o.conn with ksnc_closing := b } })) ∧
    (ksocknal_lib_recv_kiov cfg upd rsock { conn with ksnc_closing := b } =
      (ksocknal_lib_recv_kiov cfg upd rsock conn).map
        (fun o => { o with conn := { o.conn with ksnc_closing := b } })) ∧
    (∀ r, ksocknal_lib_send_iov cfg upd mem ssock tun { conn with ksnc_closing := true } tx
        = some r → ∃ c, sock_calls r.events = [c] ∧ r.rc = ssock c) ∧
    (∀ r, ksocknal_lib_send_kiov cfg ssock tun { conn with ksnc_closing := true } tx
        = some r → ∃ c, sock_calls r.events = [c] ∧ r.rc = ssock c) ∧
    (∀ o, ksocknal_lib_recv_iov cfg upd rsock { conn with ksnc_closing := true } = some o →
      ∃ c, sock_calls o.events = [c] ∧ o.rc = (rsock c).rc) ∧
    (∀ o, ksocknal_lib_recv_kiov cfg upd rsock { conn with ksnc_closing := true } = some o →
      ∃ c, sock_calls o.events = [c] ∧ o.rc = (rsock c).rc) := by
  refine ⟨rfl, rfl, ?_, ?_, ?_, ?_, ?_, ?_⟩
  · unfold ksocknal_lib_recv_iov
    simp only [ksock_conn_t.ksnc_rx_niov]
    split_ifs <;> try rfl
    all_goals (split <;> simp_all)
  · unfold ksocknal_lib_recv_kiov
    simp only [ksock_conn_t.ksnc_rx_nkiov]
    split_ifs <;> try rfl
    all_goals (split <;> simp_all)
  · intro r hr
    obtain ⟨staged, -, hcalls, hrc⟩ := ksocknal_lib_send_iov_call cfg upd mem ssock tun _ tx r hr
    exact ⟨_, hcalls, hrc⟩
  · intro r hr
    obtain ⟨c, hev, hrc⟩ := ksocknal_lib_send_kiov_some cfg ssock tun _ tx r hr
    exact ⟨c, by rw [hev]; rfl, hrc⟩
  · intro o ho
    obtain ⟨c, hev, hrc, -⟩ := ksocknal_lib_recv_iov_some cfg upd rsock _ o ho
    exact ⟨c, by rw [hev]; rfl, hrc⟩
  · intro o ho
    obtain ⟨c, hev, hrc, -⟩ := ksocknal_lib_recv_kiov_some cfg upd rsock _ o ho
    exact ⟨c, by rw [hev]; rfl, hrc⟩

/-- Counterexample to C17 as stated. On connections whose closing flag is set,
ksocknal_lib_send_iov issues its sock_sendmsg and returns the 100 the socket
answered, ksocknal_lib_send_kiov issues its sendpage and returns the answer,
and the two receive functions issue sock_recvmsg, return the 6 bytes received
and roll them into ksnc_rx_csum: none returns -ESHUTDOWN and each touches the
socket. -/
theorem lib_calls_on_closing_connection :
    conn_closing.ksnc_closing = true ∧ conn_rx_iov_closing.ksnc_closing = true ∧
    conn_rx_kiov_closing.ksnc_closing = true ∧
    (ksocknal_lib_send_iov cfg_multi_frag crc32_le_byte (mem_payload 1 2 3 4) sock_takes_all
        tun_csum_on conn_closing tx_payload4).map
      (fun r => (r.rc, sock_calls r.events, decide (r.rc = -ESHUTDOWN))) =
        some (100, [call_payload4], false) ∧
    (ksocknal_lib_send_kiov cfg_multi_frag sock_takes_all tun_csum_on conn_closing
        tx_paged).map
      (fun r => (r.rc, r.events.length, decide (r.rc = -ESHUTDOWN))) = some (100, 1, false) ∧
    (ksocknal_lib_recv_iov cfg_multi_frag crc32_le_byte sock_recv6 conn_rx_iov_closing).map
      (fun o => (o.rc, o.events.length, o.conn.ksnc_rx_csum)) = some (6, 1, 2114554075) ∧
    (ksocknal_lib_recv_kiov cfg_multi_frag crc32_le_byte sock_recv6 conn_rx_kiov_closing).map
      (fun o => (o.rc, o.events.length, o.conn.ksnc_rx_csum)) = some (6, 1, 3202685453) := by
  refine ⟨rfl, rfl, rfl, by decide!, by decide!, by decide!, by decide!⟩

/-! ## Socket set-up -/

/-- The set-up function is its list of option calls, issued until one fails. -/
theorem ksocknal_lib_setup_sock_eq_plan (b : setup_build) (ans : sockopt_answer)
    (tun : ksock_setup_tunables_t) :
    ksocknal_lib_setup_sock b ans tun = run_plan ans (setup_plan b tun) [] := by
  unfold ksocknal_lib_setup_sock setup_plan
  simp only
  generalize (tun.ksnd_nagle == 0) = x1
  generalize (b.SOCKNAL_BACKOFF && decide (tun.ksnd_backoff_init > 0)) = x2
  generalize (b.SOCKNAL_BACKOFF && decide (tun.ksnd_backoff_max > 0)) = x3
  generalize (decide (tun.ksnd_keepalive_idle > 0) && decide (tun.ksnd_keepalive_count > 0) &&
    decide (tun.ksnd_keepalive_intvl > 0)) = x4
  cases x1 <;> cases x2 <;> cases x3 <;> cases x4 <;> rfl

theorem run_plan_all_ok (ans : sockopt_answer) (plan : List sockopt_call) :
    ∀ done : List sockopt_call, (∀ c ∈ plan, ans c = 0) →
      run_plan ans plan done =
        { rc := 0, calls := done ++ plan, sk_allocation := gfp_t.GFP_NOFS } := by
  induction plan with
  | nil =>
    intro done _
    simp [run_plan]
  | cons c rest ih =>
    intro done hok
    have hc : ans c = 0 := hok c (List.mem_cons_self _ _)
    simp only [run_plan, hc, ne_eq, not_true_eq_false, if_false]
    rw [ih (done ++ [c]) (fun d hd => hok d (List.mem_cons_of_mem _ hd))]
    simp

/-- A run of option calls stops at the first failure: the calls issued are the
calls before the failing one followed by it, and the failing answer is
returned; with no failure all are issued and 0 is returned. -/
theorem run_plan_first_failure (ans : sockopt_answer) (plan : List sockopt_call) :
    ∀ done : List sockopt_call,
      ((run_plan ans plan done).rc ≠ 0 →
        ∃ pre c post, plan = pre ++ c :: post ∧
          (run_plan ans plan done).calls = done ++ pre ++ [c] ∧
          ans c = (run_plan ans plan done).rc ∧ ∀ d ∈ pre, ans d = 0) ∧
      ((run_plan ans plan done).rc = 0 →
        (run_plan ans plan done).calls = done ++ plan ∧ ∀ d ∈ plan, ans d = 0) := by
  induction plan with
  | nil =>
    intro done
    simp [run_plan]
  | cons c rest ih =>
    intro done
    by_cases hc : ans c = 0
    · have hrun : run_plan ans (c :: rest) done = run_plan ans rest (done ++ [c]) := by
        simp only [run_plan, hc, ne_eq, not_true_eq_false, if_false]
      rw [hrun]
      obtain ⟨ih1, ih2⟩ := ih (done ++ [c])
      constructor
      · intro hne
        obtain ⟨pre, f, post, hp, hcalls, hf, hpre⟩ := ih1 hne
        refine ⟨c :: pre, f, post, by rw [hp]; rfl, ?_, hf, ?_⟩
        · rw [hcalls]
          simp
        · intro d hd
          rcases List.mem_cons.mp hd with h | h
          · rw [h]
            exact hc
          · exact hpre d h
      · intro h0
        obtain ⟨hcalls, hall⟩ := ih2 h0
        refine ⟨by rw [hcalls]; simp, ?_⟩
        intro d hd
        rcases List.mem_cons.mp hd with h | h
        · rw [h]
          exact hc
        · exact hall d h
    · have hrun : run_plan ans (c :: rest) done =
          { rc := ans c, calls := done ++ [c], sk_allocation := gfp_t.GFP_NOFS } := by
        simp only [run_plan, hc, ne_eq, not_false_eq_true, if_true]
      rw [hrun]
      constructor
      · intro _
        exact ⟨[], c, rest, rfl, by simp, rfl, by simp⟩
      · intro h0
        exact absurd h0 hc

/-- The plan written with the conditions of the source as propositions. -/
theorem setup_plan_eq (b : setup_build) (tun : ksock_setup_tunables_t) :
    setup_plan b tun =
      [sockopt_call.SO_LINGER 0 0, sockopt_call.TCP_LINGER2 (-1)] ++
      (if tun.ksnd_nagle = 0 then [sockopt_call.TCP_NODELAY 1] else []) ++
      [sockopt_call.libcfs_sock_setbuf tun.ksnd_tx_buffer_size tun.ksnd_rx_buffer_size] ++
      (if b.SOCKNAL_BACKOFF = true ∧ tun.ksnd_backoff_init > 0 then
        [sockopt_call.TCP_BACKOFF_INIT
          (if b.SOCKNAL_BACKOFF_MS = true then int32_wrap (tun.ksnd_backoff_init * 1000)
            else tun.ksnd_backoff_init)] else []) ++
      (if b.SOCKNAL_BACKOFF = true ∧ tun.ksnd_backoff_max > 0 then
        [sockopt_call.TCP_BACKOFF_MAX
          (if b.SOCKNAL_BACKOFF_MS = true then int32_wrap (tun.ksnd_backoff_max * 1000)
            else tun.ksnd_backoff_max)] else []) ++
      [sockopt_call.SO_KEEPALIVE
        (if tun.ksnd_keepalive_idle > 0 ∧ tun.ksnd_keepalive_count > 0 ∧
            tun.ksnd_keepalive_intvl > 0 then 1 else 0)] ++
      (if tun.ksnd_keepalive_idle > 0 ∧ tun.ksnd_keepalive_count > 0 ∧
          tun.ksnd_keepalive_intvl > 0 then
        [sockopt_call.TCP_KEEPIDLE tun.ksnd_keepalive_idle,
         sockopt_call.TCP_KEEPINTVL tun.ksnd_keepalive_intvl,
         sockopt_call.TCP_KEEPCNT tun.ksnd_keepalive_count] else []) := by
  simp only [setup_plan, backoff_option, Bool.and_eq_true, decide_eq_true_eq, beq_iff_eq,
    and_assoc]

/-- C18 (as amended). When every option call succeeds, ksocknal_lib_setup_sock
returns 0 having issued exactly these calls, in this order: SO_LINGER with
l_onoff = 0 and l_linger = 0; TCP_LINGER2 = -1; TCP_NODELAY = 1 if and only if the
nagle tunable is 0; the buffer sizes tx_buffer_size and rx_buffer_size; in a
build with SOCKNAL_BACKOFF, TCP_BACKOFF_INIT and TCP_BACKOFF_MAX for each back-off
tunable that is greater than 0 (its value; under SOCKNAL_BACKOFF_MS its value
times 1000 as a 32-bit int, which is the product for a tunable up to 2147483
and wraps above); SO_KEEPALIVE = 1 if the keepalive idle, count and interval
tunables are all greater than 0 and = 0 otherwise; and, only when keepalive is
enabled, TCP_KEEPIDLE, TCP_KEEPINTVL and TCP_KEEPCNT set to those tunables. In
a build without SOCKNAL_BACKOFF no back-off option is set. -/
theorem ksocknal_lib_setup_sock_applies (b : setup_build) (ans : sockopt_answer)
    (tun : ksock_setup_tunables_t) (hok : ∀ c, ans c = 0) :
    ksocknal_lib_setup_sock b ans tun =
      { rc := 0, sk_allocation := gfp_t.GFP_NOFS,
        calls :=
          [sockopt_call.SO_LINGER 0 0, sockopt_call.TCP_LINGER2 (-1)] ++
          (if tun.ksnd_nagle = 0 then [sockopt_call.TCP_NODELAY 1] else []) ++
          [sockopt_call.libcfs_sock_setbuf tun.ksnd_tx_buffer_size tun.ksnd_rx_buffer_size] ++
          (if b.SOCKNAL_BACKOFF = true ∧ tun.ksnd_backoff_init > 0 then
            [sockopt_call.TCP_BACKOFF_INIT
              (if b.SOCKNAL_BACKOFF_MS = true then int32_wrap (tun.ksnd_backoff_init * 1000)
                else tun.ksnd_backoff_init)] else []) ++
          (if b.SOCKNAL_BACKOFF = true ∧ tun.ksnd_backoff_max > 0 then
            [sockopt_call.TCP_BACKOFF_MAX
              (if b.SOCKNAL_BACKOFF_MS = true then int32_wrap (tun.ksnd_backoff_max * 1000)
                else tun.ksnd_backoff_max)] else []) ++
          [sockopt_call.SO_KEEPALIVE
            (if tun.ksnd_keepalive_idle > 0 ∧ tun.ksnd_keepalive_count > 0 ∧
                tun.ksnd_keepalive_intvl > 0 then 1 else 0)] ++
          (if tun.ksnd_keepalive_idle > 0 ∧ tun.ksnd_keepalive_count > 0 ∧
              tun.ksnd_keepalive_intvl > 0 then
            [sockopt_call.TCP_KEEPIDLE tun.ksnd_keepalive_idle,
             sockopt_call.TCP_KEEPINTVL tun.ksnd_keepalive_intvl,
             sockopt_call.TCP_KEEPCNT tun.ksnd_keepalive_count] else []) } ∧
    (b.SOCKNAL_BACKOFF = false →
      (ksocknal_lib_setup_sock b ans tun).calls =
        [sockopt_call.SO_LINGER 0 0, sockopt_call.TCP_LINGER2 (-1)] ++
        (if tun.ksnd_nagle = 0 then [sockopt_call.TCP_NODELAY 1] else []) ++
        [sockopt_call.libcfs_sock_setbuf tun.ksnd_tx_buffer_size tun.ksnd_rx_buffer_size] ++
        [sockopt_call.SO_KEEPALIVE
          (if tun.ksnd_keepalive_idle > 0 ∧ tun.ksnd_keepalive_count > 0 ∧
              tun.ksnd_keepalive_intvl > 0 then 1 else 0)] ++
        (if tun.ksnd_keepalive_idle > 0 ∧ tun.ksnd_keepalive_count > 0 ∧
            tun.ksnd_keepalive_intvl > 0 then
          [sockopt_call.TCP_KEEPIDLE tun.ksnd_keepalive_idle,
           sockopt_call.TCP_KEEPINTVL tun.ksnd_keepalive_intvl,
           sockopt_call.TCP_KEEPCNT tun.ksnd_keepalive_count] else [])) ∧
    (∀ v : Int, -2147483 ≤ v → v ≤ 2147483 → int32_wrap (v * 1000) = v * 1000) ∧
    (∀ v : Int, -2 ^ 31 ≤ int32_wrap v ∧ int32_wrap v < 2 ^ 31) := by
  have h : ksocknal_lib_setup_sock b ans tun =
      { rc := 0, calls := setup_plan b tun, sk_allocation := gfp_t.GFP_NOFS } := by
    rw [ksocknal_lib_setup_sock_eq_plan, run_plan_all_ok ans _ [] (fun c _ => hok c)]
    rfl
  refine ⟨?_, ?_, ?_, ?_⟩
  · rw [h, setup_plan_eq]
  · intro hb
    rw [h]
    simp only
    rw [setup_plan_eq]
    simp [hb]
  · intro v h1 h2
    unfold int32_wrap
    omega
  · intro v
    unfold int32_wrap
    omega

/-- Witness for C18: a stock build, Nagle off, keepalive 30/5/5, every option
accepted. -/
theorem ksocknal_lib_setup_sock_applies_witness :
    ksocknal_lib_setup_sock build_stock sockopt_all_ok setup_tun_backoff =
      { rc := 0, sk_allocation := gfp_t.GFP_NOFS,
        calls := [sockopt_call.SO_LINGER 0 0, sockopt_call.TCP_LINGER2 (-1),
                  sockopt_call.TCP_NODELAY 1, sockopt_call.libcfs_sock_setbuf 0 0,
                  sockopt_call.SO_KEEPALIVE 1, sockopt_call.TCP_KEEPIDLE 30,
                  sockopt_call.TCP_KEEPINTVL 5, sockopt_call.TCP_KEEPCNT 5] } :=
  (ksocknal_lib_setup_sock_applies build_stock sockopt_all_ok setup_tun_backoff
    (fun _ => rfl)).1

/-- Counterexample to C18 as stated. In a build with SOCKNAL_BACKOFF and back-off
tunables 2 and 60, with every option accepted, the calls issued include
TCP_BACKOFF_INIT = 2 and TCP_BACKOFF_MAX = 60, which are not in the
configuration the claim lists. -/
theorem ksocknal_lib_setup_sock_backoff :
    ksocknal_lib_setup_sock build_backoff sockopt_all_ok setup_tun_backoff =
      { rc := 0, sk_allocation := gfp_t.GFP_NOFS,
        calls := [sockopt_call.SO_LINGER 0 0, sockopt_call.TCP_LINGER2 (-1),
                  sockopt_call.TCP_NODELAY 1, sockopt_call.libcfs_sock_setbuf 0 0,
                  sockopt_call.TCP_BACKOFF_INIT 2, sockopt_call.TCP_BACKOFF_MAX 60,
                  sockopt_call.SO_KEEPALIVE 1, sockopt_call.TCP_KEEPIDLE 30,
                  sockopt_call.TCP_KEEPINTVL 5, sockopt_call.TCP_KEEPCNT 5] } := by
  decide

/-- Under SOCKNAL_BACKOFF_MS the product is taken in a 32-bit int: a back-off
tunable of 2 is passed as 2000, one of 3000000 as -1294967296. -/
theorem backoff_option_wraps :
    backoff_option { SOCKNAL_BACKOFF := true, SOCKNAL_BACKOFF_MS := true } 2 = 2000 ∧
    backoff_option { SOCKNAL_BACKOFF := true, SOCKNAL_BACKOFF_MS := true } 3000000 =
      -1294967296 ∧
    (ksocknal_lib_setup_sock { SOCKNAL_BACKOFF := true, SOCKNAL_BACKOFF_MS := true }
        sockopt_all_ok { setup_tun_backoff with ksnd_backoff_init := 3000000 }).calls =
      [sockopt_call.SO_LINGER 0 0, sockopt_call.TCP_LINGER2 (-1),
       sockopt_call.TCP_NODELAY 1, sockopt_call.libcfs_sock_setbuf 0 0,
       sockopt_call.TCP_BACKOFF_INIT (-1294967296), sockopt_call.TCP_BACKOFF_MAX 60000,
       sockopt_call.SO_KEEPALIVE 1, sockopt_call.TCP_KEEPIDLE 30,
       sockopt_call.TCP_KEEPINTVL 5, sockopt_call.TCP_KEEPCNT 5] := by
  decide

/-- C19. ksocknal_lib_setup_sock propagates the first failure. If it returns a
non-zero code, that code is the answer of the last option call it issued,
every call before that one had answered 0, and the calls issued are the calls
of a run without failure cut right after the failing one (no later call is
made). It returns 0 if and only if every call it issued answered 0, and then
it has issued all the calls of a run without failure. -/
theorem ksocknal_lib_setup_sock_first_failure (b : setup_build) (ans : sockopt_answer)
    (tun : ksock_setup_tunables_t) :
    ((ksocknal_lib_setup_sock b ans tun).rc ≠ 0 →
      ∃ pre c post,
        (ksocknal_lib_setup_sock b (fun _ => 0) tun).calls = pre ++ c :: post ∧
        (ksocknal_lib_setup_sock b ans tun).calls = pre ++ [c] ∧
        ans c = (ksocknal_lib_setup_sock b ans tun).rc ∧ ∀ d ∈ pre, ans d = 0) ∧
    ((ksocknal_lib_setup_sock b ans tun).rc = 0 ↔
      ∀ d ∈ (ksocknal_lib_setup_sock b ans tun).calls, ans d = 0) ∧
    ((ksocknal_lib_setup_sock b ans tun).rc = 0 →
      (ksocknal_lib_setup_sock b ans tun).calls =
        (ksocknal_lib_setup_sock b (fun _ => 0) tun).calls) := by
  have hfull : (ksocknal_lib_setup_sock b (fun _ => 0) tun).calls = setup_plan b tun := by
    rw [ksocknal_lib_setup_sock_eq_plan, run_plan_all_ok _ _ [] (fun _ _ => rfl)]
    rfl
  rw [hfull, ksocknal_lib_setup_sock_eq_plan]
  obtain ⟨h1, h2⟩ := run_plan_first_failure ans (setup_plan b tun) []
  refine ⟨?_, ⟨?_, ?_⟩, ?_⟩
  · intro hne
    obtain ⟨pre, c, post, hp, hcalls, hc, hpre⟩ := h1 hne
    exact ⟨pre, c, post, hp, by rw [hcalls]; simp, hc, hpre⟩
  · intro h0
    obtain ⟨hcalls, hall⟩ := h2 h0
    intro d hd
    rw [hcalls] at hd
    exact hall d (by simpa using hd)
  · intro hall
    by_contra hne
    obtain ⟨pre, c, post, -, hcalls, hc, -⟩ := h1 hne
    have hmem : c ∈ (run_plan ans (setup_plan b tun) []).calls := by
      rw [hcalls]
      simp
    exact hne (by rw [← hc]; exact hall c hmem)
  · intro h0
    rw [(h2 h0).1]
    simp

/-! ## Layout of ksock_msg_t -/

theorem le_bytes_four (v : Nat) :
    le_bytes 4 v = [v % 256, v / 256 % 256, v / 65536 % 256, v / 16777216 % 256] := by
  simp [le_bytes, List.range_succ]

theorem le_bytes_eight (v : Nat) :
    le_bytes 8 v = [v % 256, v / 256 % 256, v / 65536 % 256, v / 16777216 % 256,
      v / 4294967296 % 256, v / 1099511627776 % 256, v / 281474976710656 % 256,
      v / 72057594037927936 % 256] := by
  simp [le_bytes, List.range_succ]

theorem le_value_le_bytes_four (v : Nat) : le_value (le_bytes 4 v) = v % 2 ^ 32 := by
  rw [le_bytes_four]
  simp only [le_value, List.foldr]
  omega

theorem le_value_le_bytes_eight (v : Nat) : le_value (le_bytes 8 v) = v % 2 ^ 64 := by
  rw [le_bytes_eight]
  simp only [le_value, List.foldr]
  omega

/-- C20. Layout of the message header ksock_msg_t. Whether the struct is packed or
laid out with natural alignment, and whatever the size of the union and its
alignment among 1, 2, 4 and 8, the members sit at byte offsets ksm_type 0,
ksm_csum 4, ksm_zc_req_cookie 8, ksm_zc_ack_cookie 16 and ksm_u 24. In the memory
image of a header the 4 bytes at offset 0 hold ksm_type, the 4 bytes at offset 4
hold ksm_csum, the 8 bytes at offset 8 hold ksm_zc_req_cookie, the 8 bytes at
offset 16 hold ksm_zc_ack_cookie (each as its 32-bit or 64-bit value), the
embedded message begins at offset 24 and the image is 24 bytes longer than it.
The two kinds are KSOCK_MSG_NOOP = 0xC0 and KSOCK_MSG_LNET = 0xC1, which differ,
also in their first byte on the wire. -/
theorem ksock_msg_t_layout (m : ksock_msg_t) (packed : Bool) (usize : Nat) :
    (∀ ualign ∈ [1, 2, 4, 8],
      struct_offsets packed 0 (ksock_msg_decl (c_type.aggregate usize ualign)) =
        [(ksock_msg_field.ksm_type, 0), (ksock_msg_field.ksm_csum, 4),
         (ksock_msg_field.ksm_zc_req_cookie, 8), (ksock_msg_field.ksm_zc_ack_cookie, 16),
         (ksock_msg_field.ksm_u, 24)] ∧
      ksock_msg_offsetof packed (c_type.aggregate usize ualign) ksock_msg_field.ksm_type
        = some 0 ∧
      ksock_msg_offsetof packed (c_type.aggregate usize ualign) ksock_msg_field.ksm_csum
        = some 4 ∧
      ksock_msg_offsetof packed (c_type.aggregate usize ualign)
        ksock_msg_field.ksm_zc_req_cookie = some 8 ∧
      ksock_msg_offsetof packed (c_type.aggregate usize ualign)
        ksock_msg_field.ksm_zc_ack_cookie = some 16 ∧
      ksock_msg_offsetof packed (c_type.aggregate usize ualign) ksock_msg_field.ksm_u
        = some 24) ∧
    bytes_at (ksock_msg_bytes m) 0 4 = le_bytes 4 m.ksm_type ∧
    bytes_at (ksock_msg_bytes m) 4 4 = le_bytes 4 m.ksm_csum ∧
    bytes_at (ksock_msg_bytes m) 8 8 = le_bytes 8 m.ksm_zc_req_cookie ∧
    bytes_at (ksock_msg_bytes m) 16 8 = le_bytes 8 m.ksm_zc_ack_cookie ∧
    (ksock_msg_bytes m).drop 24 = m.ksm_u ∧
    (ksock_msg_bytes m).length = 24 + m.ksm_u.length ∧
    le_value (bytes_at (ksock_msg_bytes m) 0 4) = m.ksm_type % 2 ^ 32 ∧
    le_value (bytes_at (ksock_msg_bytes m) 4 4) = m.ksm_csum % 2 ^ 32 ∧
    le_value (bytes_at (ksock_msg_bytes m) 8 8) = m.ksm_zc_req_cookie % 2 ^ 64 ∧
    le_value (bytes_at (ksock_msg_bytes m) 16 8) = m.ksm_zc_ack_cookie % 2 ^ 64 ∧
    KSOCK_MSG_NOOP = 0xc0 ∧ KSOCK_MSG_LNET = 0xc1 ∧ KSOCK_MSG_NOOP ≠ KSOCK_MSG_LNET ∧
    le_bytes 4 KSOCK_MSG_NOOP = [0xc0, 0, 0, 0] ∧
    le_bytes 4 KSOCK_MSG_LNET = [0xc1, 0, 0, 0] := by
  have h0 : bytes_at (ksock_msg_bytes m) 0 4 = le_bytes 4 m.ksm_type := by
    simp [bytes_at, ksock_msg_bytes, le_bytes_four, le_bytes_eight]
  have h4 : bytes_at (ksock_msg_bytes m) 4 4 = le_bytes 4 m.ksm_csum := by
    simp [bytes_at, ksock_msg_bytes, le_bytes_four, le_bytes_eight]
  have h8 : bytes_at (ksock_msg_bytes m) 8 8 = le_bytes 8 m.ksm_zc_req_cookie := by
    simp [bytes_at, ksock_msg_bytes, le_bytes_four, le_bytes_eight]
  have h16 : bytes_at (ksock_msg_bytes m) 16 8 = le_bytes 8 m.ksm_zc_ack_cookie := by
    simp [bytes_at, ksock_msg_bytes, le_bytes_four, le_bytes_eight]
  refine ⟨?_, h0, h4, h8, h16, ?_, ?_, ?_, ?_, ?_, ?_, rfl, rfl, by decide, by decide,
    by decide⟩
  · intro ualign hu
    simp only [List.mem_cons, List.mem_singleton, List.not_mem_nil, or_false] at hu
    cases packed <;> rcases hu with rfl | rfl | rfl | rfl <;>
      simp [struct_offsets, ksock_msg_decl, ksock_msg_offsetof, align_up, c_sizeof, c_alignof]
  · simp [ksock_msg_bytes, le_bytes_four, le_bytes_eight]
  · simp [ksock_msg_bytes, le_bytes_four, le_bytes_eight]
    omega
  · rw [h0, le_value_le_bytes_four]
  · rw [h4, le_value_le_bytes_four]
  · rw [h8, le_value_le_bytes_eight]
  · rw [h16, le_value_le_bytes_eight]

/-! ## Object metadata: obdo_cmp_md and obdo_cpy_md -/

theorem cmp_md_step_ne_zero (compare flag : Nat) (differs : Bool) (res : Int) :
    cmp_md_step compare flag differs res ≠ 0 ↔
      res ≠ 0 ∨ (compare &&& flag ≠ 0 ∧ differs = true) := by
  unfold cmp_md_step
  by_cases hc : compare &&& flag ≠ 0
  · rw [if_pos hc]
    by_cases hr : res ≠ 0 ∨ differs = true
    · rw [if_pos hr]
      constructor
      · intro _
        rcases hr with h | h
        · exact Or.inl h
        · exact Or.inr ⟨hc, h⟩
      · intro _
        exact one_ne_zero
    · rw [if_neg hr]
      constructor
      · intro h
        exact absurd rfl h
      · rintro (h | ⟨-, h⟩)
        · exact absurd (Or.inl h) hr
        · exact absurd (Or.inr h) hr
  · rw [if_neg hc]
    constructor
    · intro h
      exact Or.inl h
    · rintro (h | ⟨h, -⟩)
      · exact h
      · exact absurd h hc

theorem cmp_md_step_bool (compare flag : Nat) (differs : Bool) (res : Int)
    (h : res = 0 ∨ res = 1) :
    cmp_md_step compare flag differs res = 0 ∨ cmp_md_step compare flag differs res = 1 := by
  unfold cmp_md_step
  split_ifs
  · exact Or.inr rfl
  · exact Or.inl rfl
  · exact h

theorem obdo_cmp_md_ne_zero (dst src : obdo) (compare : Nat) :
    obdo_cmp_md dst src compare ≠ 0 ↔
      (compare &&& OBD_MD_FLATIME ≠ 0 ∧ dst.o_atime ≠ src.o_atime) ∨
      (compare &&& OBD_MD_FLMTIME ≠ 0 ∧ dst.o_mtime ≠ src.o_mtime) ∨
      (compare &&& OBD_MD_FLCTIME ≠ 0 ∧ dst.o_ctime ≠ src.o_ctime) ∨
      (compare &&& OBD_MD_FLSIZE ≠ 0 ∧ dst.o_size ≠ src.o_size) ∨
      (compare &&& OBD_MD_FLBLOCKS ≠ 0 ∧ dst.o_blocks ≠ src.o_blocks) ∨
      (compare &&& OBD_MD_FLBLKSZ ≠ 0 ∧ dst.o_blksize ≠ src.o_blksize) ∨
      (compare &&& OBD_MD_FLMODE ≠ 0 ∧ dst.o_mode ≠ src.o_mode) ∨
      (compare &&& OBD_MD_FLUID ≠ 0 ∧ dst.o_uid ≠ src.o_uid) ∨
      (compare &&& OBD_MD_FLGID ≠ 0 ∧ dst.o_gid ≠ src.o_gid) ∨
      (compare &&& OBD_MD_FLFLAGS ≠ 0 ∧ dst.o_flags ≠ src.o_flags) ∨
      (compare &&& OBD_MD_FLNLINK ≠ 0 ∧ dst.o_nlink ≠ src.o_nlink) ∨
      (compare &&& OBD_MD_FLGENER ≠ 0 ∧ dst.o_generation ≠ src.o_generation) := by
  simp only [obdo_cmp_md, cmp_md_step_ne_zero, decide_eq_true_eq]
  simp only [ne_eq, not_true_eq_false, false_or, or_assoc]

theorem obdo_cmp_md_bool (dst src : obdo) (compare : Nat) :
    obdo_cmp_md dst src compare = 0 ∨ obdo_cmp_md dst src compare = 1 := by
  unfold obdo_cmp_md
  simp only
  repeat apply cmp_md_step_bool
  exact Or.inl rfl

theorem land_flag_of_disjoint (a m f mask : Nat) (hm : m &&& mask = 0)
    (hf : mask &&& f = f) : (a ^^^ m) &&& f = a &&& f := by
  have h0 : m &&& f = 0 := by
    rw [← hf, ← Nat.and_assoc, hm, Nat.zero_and]
  rw [Nat.and_xor_distrib_right, h0, Nat.xor_zero]

/-- Two objects with the same members are the same object. -/
theorem obdo_ext (x y : obdo) : x.o_id = y.o_id → x.o_gr = y.o_gr → x.o_atime = y.o_atime →
    x.o_mtime = y.o_mtime → x.o_ctime = y.o_ctime → x.o_size = y.o_size →
    x.o_blocks = y.o_blocks → x.o_blksize = y.o_blksize → x.o_mode = y.o_mode →
    x.o_uid = y.o_uid → x.o_gid = y.o_gid → x.o_flags = y.o_flags →
    x.o_obdflags = y.o_obdflags → x.o_nlink = y.o_nlink →
    x.o_generation = y.o_generation → x.o_valid = y.o_valid → x.o_inline = y.o_inline →
    x.o_obdmd = y.o_obdmd → x = y := by
  cases x
  cases y
  simp only [obdo.mk.injEq]
  intros
  simp only [*, and_self]

/-- The result of obdo_cpy_md, member by member. -/
theorem obdo_cpy_md_eq (dst src : obdo) :
    obdo_cpy_md dst src =
      { o_id := dst.o_id,
        o_gr := dst.o_gr,
        o_atime := if src.o_valid &&& OBD_MD_FLATIME ≠ 0 then src.o_atime else dst.o_atime,
        o_mtime := if src.o_valid &&& OBD_MD_FLMTIME ≠ 0 then src.o_mtime else dst.o_mtime,
        o_ctime := if src.o_valid &&& OBD_MD_FLCTIME ≠ 0 then src.o_ctime else dst.o_ctime,
        o_size := if src.o_valid &&& OBD_MD_FLSIZE ≠ 0 then src.o_size else dst.o_size,
        o_blocks := if src.o_valid &&& OBD_MD_FLBLOCKS ≠ 0 then src.o_blocks else dst.o_blocks,
        o_blksize := if src.o_valid &&& OBD_MD_FLBLKSZ ≠ 0 then src.o_blksize else dst.o_blksize,
        o_mode := if src.o_valid &&& OBD_MD_FLMODE ≠ 0 then src.o_mode else dst.o_mode,
        o_uid := if src.o_valid &&& OBD_MD_FLUID ≠ 0 then src.o_uid else dst.o_uid,
        o_gid := if src.o_valid &&& OBD_MD_FLGID ≠ 0 then src.o_gid else dst.o_gid,
        o_flags := if src.o_valid &&& OBD_MD_FLFLAGS ≠ 0 then src.o_flags else dst.o_flags,
        o_obdflags :=
          (if src.o_valid &&& OBD_MD_FLINLINE ≠ 0 ∧ src.o_obdflags &&& OBD_FL_INLINEDATA ≠ 0
            then dst.o_obdflags ||| OBD_FL_INLINEDATA else dst.o_obdflags) |||
          (if src.o_valid &&& OBD_MD_FLOBDMD ≠ 0 ∧ src.o_obdflags &&& OBD_FL_OBDMDEXISTS ≠ 0
            then OBD_FL_OBDMDEXISTS else 0),
        o_nlink := if src.o_valid &&& OBD_MD_FLNLINK ≠ 0 then src.o_nlink else dst.o_nlink,
        o_generation := if src.o_valid &&& OBD_MD_FLGENER ≠ 0 then src.o_generation else dst.o_generation,
        o_valid := dst.o_valid ||| src.o_valid,
        o_inline :=
          if src.o_valid &&& OBD_MD_FLINLINE ≠ 0 ∧ src.o_obdflags &&& OBD_FL_INLINEDATA ≠ 0
            then src.o_inline else dst.o_inline,
        o_obdmd :=
          if src.o_valid &&& OBD_MD_FLOBDMD ≠ 0 ∧ src.o_obdflags &&& OBD_FL_OBDMDEXISTS ≠ 0
            then src.o_obdmd else dst.o_obdmd } := by
  apply obdo_ext
  · simp only [obdo_cpy_md, apply_ite obdo.o_id, ite_self]
  · simp only [obdo_cpy_md, apply_ite obdo.o_gr, ite_self]
  · simp only [obdo_cpy_md, apply_ite obdo.o_atime, ite_self]
  · simp only [obdo_cpy_md, apply_ite obdo.o_mtime, ite_self]
  · simp only [obdo_cpy_md, apply_ite obdo.o_ctime, ite_self]
  · simp only [obdo_cpy_md, apply_ite obdo.o_size, ite_self]
  · simp only [obdo_cpy_md, apply_ite obdo.o_blocks, ite_self]
  · simp only [obdo_cpy_md, apply_ite obdo.o_blksize, ite_self]
  · simp only [obdo_cpy_md, apply_ite obdo.o_mode, ite_self]
  · simp only [obdo_cpy_md, apply_ite obdo.o_uid, ite_self]
  · simp only [obdo_cpy_md, apply_ite obdo.o_gid, ite_self]
  · simp only [obdo_cpy_md, apply_ite obdo.o_flags, ite_self]
  · simp only [obdo_cpy_md, apply_ite obdo.o_obdflags, ite_self]
    split_ifs <;> simp
  · simp only [obdo_cpy_md, apply_ite obdo.o_nlink, ite_self]
  · simp only [obdo_cpy_md, apply_ite obdo.o_generation, ite_self]
  · simp only [obdo_cpy_md, apply_ite obdo.o_valid, ite_self]
  · simp only [obdo_cpy_md, apply_ite obdo.o_inline, ite_self]
  · simp only [obdo_cpy_md, apply_ite obdo.o_obdmd, ite_self]


theorem cmp_md_step_congr (c2 c flag : Nat) (differs : Bool) (res : Int)
    (h : c2 &&& flag = c &&& flag) :
    cmp_md_step c2 flag differs res = cmp_md_step c flag differs res := by
  unfold cmp_md_step
  rw [h]

/-- obdo_cmp_md reads compare only through the twelve flags. -/
theorem obdo_cmp_md_congr (dst src : obdo) (c c2 : Nat)
    (h : ∀ f ∈ OBD_MD_CMP_FLAGS, c2 &&& f = c &&& f) :
    obdo_cmp_md dst src c2 = obdo_cmp_md dst src c := by
  unfold obdo_cmp_md
  simp only
  rw [cmp_md_step_congr c2 c OBD_MD_FLATIME _ _ (h _ (by decide)),
    cmp_md_step_congr c2 c OBD_MD_FLMTIME _ _ (h _ (by decide)),
    cmp_md_step_congr c2 c OBD_MD_FLCTIME _ _ (h _ (by decide)),
    cmp_md_step_congr c2 c OBD_MD_FLSIZE _ _ (h _ (by decide)),
    cmp_md_step_congr c2 c OBD_MD_FLBLOCKS _ _ (h _ (by decide)),
    cmp_md_step_congr c2 c OBD_MD_FLBLKSZ _ _ (h _ (by decide)),
    cmp_md_step_congr c2 c OBD_MD_FLMODE _ _ (h _ (by decide)),
    cmp_md_step_congr c2 c OBD_MD_FLUID _ _ (h _ (by decide)),
    cmp_md_step_congr c2 c OBD_MD_FLGID _ _ (h _ (by decide)),
    cmp_md_step_congr c2 c OBD_MD_FLFLAGS _ _ (h _ (by decide)),
    cmp_md_step_congr c2 c OBD_MD_FLNLINK _ _ (h _ (by decide)),
    cmp_md_step_congr c2 c OBD_MD_FLGENER _ _ (h _ (by decide))]

theorem lor_twice (a b : Nat) : a ||| b ||| b = a ||| b := by
  rw [Nat.or_assoc, Nat.or_self]

theorem lor_twice_cross (d i o : Nat) : d ||| i ||| o ||| i ||| o = d ||| i ||| o := by
  apply Nat.eq_of_testBit_eq
  intro k
  simp only [Nat.testBit_or]
  cases d.testBit k <;> cases i.testBit k <;> cases o.testBit k <;> rfl

/-- C21. obdo_cmp_md(dst, src, compare) returns 0 or 1, and it returns non-zero
if and only if some flag among ATIME, MTIME, CTIME, SIZE, BLOCKS, BLKSZ, MODE,
UID, GID, FLAGS, NLINK, GENER is set in compare and the member of dst that goes
with it differs from that of src. The result does not depend on o_valid of
either object, nor on any bit of compare outside those twelve flags: toggling
any set of such bits, ID, OBDFLG, INLINE and OBDMD among them, leaves it as it
is. -/
theorem obdo_cmp_md_selected (dst src : obdo) (compare : Nat) :
    (obdo_cmp_md dst src compare = 0 ∨ obdo_cmp_md dst src compare = 1) ∧
    (obdo_cmp_md dst src compare ≠ 0 ↔
      (compare &&& OBD_MD_FLATIME ≠ 0 ∧ dst.o_atime ≠ src.o_atime) ∨
      (compare &&& OBD_MD_FLMTIME ≠ 0 ∧ dst.o_mtime ≠ src.o_mtime) ∨
      (compare &&& OBD_MD_FLCTIME ≠ 0 ∧ dst.o_ctime ≠ src.o_ctime) ∨
      (compare &&& OBD_MD_FLSIZE ≠ 0 ∧ dst.o_size ≠ src.o_size) ∨
      (compare &&& OBD_MD_FLBLOCKS ≠ 0 ∧ dst.o_blocks ≠ src.o_blocks) ∨
      (compare &&& OBD_MD_FLBLKSZ ≠ 0 ∧ dst.o_blksize ≠ src.o_blksize) ∨
      (compare &&& OBD_MD_FLMODE ≠ 0 ∧ dst.o_mode ≠ src.o_mode) ∨
      (compare &&& OBD_MD_FLUID ≠ 0 ∧ dst.o_uid ≠ src.o_uid) ∨
      (compare &&& OBD_MD_FLGID ≠ 0 ∧ dst.o_gid ≠ src.o_gid) ∨
      (compare &&& OBD_MD_FLFLAGS ≠ 0 ∧ dst.o_flags ≠ src.o_flags) ∨
      (compare &&& OBD_MD_FLNLINK ≠ 0 ∧ dst.o_nlink ≠ src.o_nlink) ∨
      (compare &&& OBD_MD_FLGENER ≠ 0 ∧ dst.o_generation ≠ src.o_generation)) ∧
    (∀ v w, obdo_cmp_md { dst with o_valid := v } { src with o_valid := w } compare =
      obdo_cmp_md dst src compare) ∧
    (∀ m, m &&& OBD_MD_CMP_MASK = 0 →
      obdo_cmp_md dst src (compare ^^^ m) = obdo_cmp_md dst src compare) ∧
    (∀ f ∈ [OBD_MD_FLID, OBD_MD_FLOBDFLG, OBD_MD_FLINLINE, OBD_MD_FLOBDMD],
      f &&& OBD_MD_CMP_MASK = 0) ∧
    (OBD_MD_FLID ||| OBD_MD_FLOBDFLG ||| OBD_MD_FLINLINE ||| OBD_MD_FLOBDMD) &&&
      OBD_MD_CMP_MASK = 0 := by
  refine ⟨obdo_cmp_md_bool dst src compare, obdo_cmp_md_ne_zero dst src compare,
    fun _ _ => rfl, ?_, by decide, by decide⟩
  intro m hm
  have hmask : ∀ f ∈ OBD_MD_CMP_FLAGS, OBD_MD_CMP_MASK &&& f = f := by decide
  exact obdo_cmp_md_congr dst src compare (compare ^^^ m)
    (fun f hf => land_flag_of_disjoint compare m f OBD_MD_CMP_MASK hm (hmask f hf))

theorem obdo_cpy_md_cmp (dst src : obdo) :
    obdo_cmp_md (obdo_cpy_md dst src) src src.o_valid = 0 := by
  by_contra hne
  have h2 := (obdo_cmp_md_ne_zero _ _ _).mp hne
  rw [obdo_cpy_md_eq] at h2
  rcases h2 with ⟨h, hd⟩ | ⟨h, hd⟩ | ⟨h, hd⟩ | ⟨h, hd⟩ | ⟨h, hd⟩ | ⟨h, hd⟩ | ⟨h, hd⟩ |
    ⟨h, hd⟩ | ⟨h, hd⟩ | ⟨h, hd⟩ | ⟨h, hd⟩ | ⟨h, hd⟩ <;>
  exact hd (if_pos h)

theorem obdo_cpy_md_idem (dst src : obdo) :
    obdo_cpy_md (obdo_cpy_md dst src) src = obdo_cpy_md dst src := by
  rw [obdo_cpy_md_eq (obdo_cpy_md dst src) src, obdo_cpy_md_eq dst src]
  apply obdo_ext
  all_goals simp only
  all_goals first
    | rfl
    | exact lor_twice _ _
    | (split_ifs <;>
        first
          | rfl
          | exact lor_twice _ _
          | exact lor_twice_cross _ _ _)

/-- C26 (as amended). After obdo_cpy_md(dst, src) the two objects agree on every
member src marks valid: obdo_cmp_md(dst, src, src->o_valid) returns 0, and each
of the twelve compared members whose flag is set in src->o_valid equals that of
src. dst->o_valid is the old dst->o_valid OR src->o_valid. o_id and o_gr keep
their values in every case; each of the twelve members, and o_inline and
o_obdmd, keeps its value when its flag is not set in src->o_valid. o_obdflags
is never copied: it is the old value with OBD_FL_INLINEDATA added when the
inline data is copied (INLINE valid and src has inline data) and
OBD_FL_OBDMDEXISTS added when o_obdmd is copied, so it keeps its value when
neither INLINE nor OBDMD is set in src->o_valid. Applying obdo_cpy_md(dst, src)
a second time changes nothing. -/
theorem obdo_cpy_md_agrees (dst src : obdo) :
    obdo_cmp_md (obdo_cpy_md dst src) src src.o_valid = 0 ∧
    (src.o_valid &&& OBD_MD_FLATIME ≠ 0 → (obdo_cpy_md dst src).o_atime = src.o_atime) ∧
    (src.o_valid &&& OBD_MD_FLMTIME ≠ 0 → (obdo_cpy_md dst src).o_mtime = src.o_mtime) ∧
    (src.o_valid &&& OBD_MD_FLCTIME ≠ 0 → (obdo_cpy_md dst src).o_ctime = src.o_ctime) ∧
    (src.o_valid &&& OBD_MD_FLSIZE ≠ 0 → (obdo_cpy_md dst src).o_size = src.o_size) ∧
    (src.o_valid &&& OBD_MD_FLBLOCKS ≠ 0 → (obdo_cpy_md dst src).o_blocks = src.o_blocks) ∧
    (src.o_valid &&& OBD_MD_FLBLKSZ ≠ 0 → (obdo_cpy_md dst src).o_blksize = src.o_blksize) ∧
    (src.o_valid &&& OBD_MD_FLMODE ≠ 0 → (obdo_cpy_md dst src).o_mode = src.o_mode) ∧
    (src.o_valid &&& OBD_MD_FLUID ≠ 0 → (obdo_cpy_md dst src).o_uid = src.o_uid) ∧
    (src.o_valid &&& OBD_MD_FLGID ≠ 0 → (obdo_cpy_md dst src).o_gid = src.o_gid) ∧
    (src.o_valid &&& OBD_MD_FLFLAGS ≠ 0 → (obdo_cpy_md dst src).o_flags = src.o_flags) ∧
    (src.o_valid &&& OBD_MD_FLNLINK ≠ 0 → (obdo_cpy_md dst src).o_nlink = src.o_nlink) ∧
    (src.o_valid &&& OBD_MD_FLGENER ≠ 0 → (obdo_cpy_md dst src).o_generation = src.o_generation) ∧
    (obdo_cpy_md dst src).o_valid = dst.o_valid ||| src.o_valid ∧
    (obdo_cpy_md dst src).o_id = dst.o_id ∧
    (obdo_cpy_md dst src).o_gr = dst.o_gr ∧
    (src.o_valid &&& OBD_MD_FLATIME = 0 → (obdo_cpy_md dst src).o_atime = dst.o_atime) ∧
    (src.o_valid &&& OBD_MD_FLMTIME = 0 → (obdo_cpy_md dst src).o_mtime = dst.o_mtime) ∧
    (src.o_valid &&& OBD_MD_FLCTIME = 0 → (obdo_cpy_md dst src).o_ctime = dst.o_ctime) ∧
    (src.o_valid &&& OBD_MD_FLSIZE = 0 → (obdo_cpy_md dst src).o_size = dst.o_size) ∧
    (src.o_valid &&& OBD_MD_FLBLOCKS = 0 → (obdo_cpy_md dst src).o_blocks = dst.o_blocks) ∧
    (src.o_valid &&& OBD_MD_FLBLKSZ = 0 → (obdo_cpy_md dst src).o_blksize = dst.o_blksize) ∧
    (src.o_valid &&& OBD_MD_FLMODE = 0 → (obdo_cpy_md dst src).o_mode = dst.o_mode) ∧
    (src.o_valid &&& OBD_MD_FLUID = 0 → (obdo_cpy_md dst src).o_uid = dst.o_uid) ∧
    (src.o_valid &&& OBD_MD_FLGID = 0 → (obdo_cpy_md dst src).o_gid = dst.o_gid) ∧
    (src.o_valid &&& OBD_MD_FLFLAGS = 0 → (obdo_cpy_md dst src).o_flags = dst.o_flags) ∧
    (src.o_valid &&& OBD_MD_FLNLINK = 0 → (obdo_cpy_md dst src).o_nlink = dst.o_nlink) ∧
    (src.o_valid &&& OBD_MD_FLGENER = 0 → (obdo_cpy_md dst src).o_generation = dst.o_generation) ∧
    (src.o_valid &&& OBD_MD_FLINLINE = 0 → (obdo_cpy_md dst src).o_inline = dst.o_inline) ∧
    (src.o_valid &&& OBD_MD_FLOBDMD = 0 → (obdo_cpy_md dst src).o_obdmd = dst.o_obdmd) ∧
    (obdo_cpy_md dst src).o_obdflags =
      (if src.o_valid &&& OBD_MD_FLINLINE ≠ 0 ∧ src.o_obdflags &&& OBD_FL_INLINEDATA ≠ 0
        then dst.o_obdflags ||| OBD_FL_INLINEDATA else dst.o_obdflags) |||
      (if src.o_valid &&& OBD_MD_FLOBDMD ≠ 0 ∧ src.o_obdflags &&& OBD_FL_OBDMDEXISTS ≠ 0
        then OBD_FL_OBDMDEXISTS else 0) ∧
    (src.o_valid &&& OBD_MD_FLINLINE = 0 → src.o_valid &&& OBD_MD_FLOBDMD = 0 →
      (obdo_cpy_md dst src).o_obdflags = dst.o_obdflags) ∧
    obdo_cpy_md (obdo_cpy_md dst src) src = obdo_cpy_md dst src := by
  refine ⟨obdo_cpy_md_cmp dst src, ?_⟩
  rw [obdo_cpy_md_idem, obdo_cpy_md_eq dst src]
  refine ⟨fun h => if_pos h, fun h => if_pos h, fun h => if_pos h, fun h => if_pos h, fun h => if_pos h, fun h => if_pos h, fun h => if_pos h, fun h => if_pos h, fun h => if_pos h, fun h => if_pos h, fun h => if_pos h, fun h => if_pos h,
    rfl, rfl, rfl,
    fun h => if_neg (fun hn => hn h), fun h => if_neg (fun hn => hn h), fun h => if_neg (fun hn => hn h), fun h => if_neg (fun hn => hn h), fun h => if_neg (fun hn => hn h), fun h => if_neg (fun hn => hn h), fun h => if_neg (fun hn => hn h), fun h => if_neg (fun hn => hn h), fun h => if_neg (fun hn => hn h), fun h => if_neg (fun hn => hn h), fun h => if_neg (fun hn => hn h), fun h => if_neg (fun hn => hn h),
    fun h => if_neg (fun hc => hc.1 h), fun h => if_neg (fun hc => hc.1 h), rfl, ?_, rfl⟩
  intro h1 h2
  show (if _ then _ else _) ||| (if _ then _ else _) = _
  rw [if_neg (fun hc => hc.1 h1), if_neg (fun hc => hc.1 h2)]
  exact Nat.or_zero _

/-- Counterexample to C26 as stated. With src marking only INLINE valid and
carrying inline data, OBD_MD_FLOBDFLG is not set in src->o_valid, yet
obdo_cpy_md changes o_obdflags of dst from 0 to OBD_FL_INLINEDATA. -/
theorem obdo_cpy_md_sets_obdflags :
    obdo_inline_src.o_valid &&& OBD_MD_FLOBDFLG = 0 ∧
    obdo_zero.o_obdflags = 0 ∧
    (obdo_cpy_md obdo_zero obdo_inline_src).o_obdflags = OBD_FL_INLINEDATA ∧
    (obdo_cpy_md obdo_zero obdo_inline_src).o_obdflags ≠ obdo_zero.o_obdflags := by
  decide

/-! ## not_uml -/

/-- C22, the code against its comment. not_uml never returns a negative value:
when stat fails with an errno other than ENOENT (here EACCES, 13) it prints the
error and returns 1, as on the host, where its comment documents a value below
0 for a failed lookup. The two other documented values hold: 0 when stat
succeeds and 1 when stat fails with ENOENT. -/
theorem not_uml_never_negative :
    not_uml { rc := -1, errno := 13 } = { rc := 1, stderr := [13] } ∧
    (∀ st : stat_answer, st.rc < 0 → st.errno ≠ ENOENT →
      not_uml st = { rc := 1, stderr := [st.errno] }) ∧
    (∀ st : stat_answer, st.rc < 0 → st.errno = ENOENT →
      not_uml st = { rc := 1, stderr := [] }) ∧
    (∀ st : stat_answer, st.rc = 0 → not_uml st = { rc := 0, stderr := [] }) ∧
    (∀ st : stat_answer, ¬ (not_uml st).rc < 0) := by
  refine ⟨by decide, ?_, ?_, ?_, ?_⟩
  · intro st h1 h2
    simp [not_uml, h1, h2]
  · intro st h1 h2
    simp [not_uml, h1, h2]
  · intro st h
    simp [not_uml, h]
  · intro st
    unfold not_uml
    simp only
    split_ifs <;> simp_all

/-! ## ksocknal_lib_get_conn_tunables -/

/-- C23. ksocknal_lib_get_conn_tunables: if ksocknal_connsock_addref fails on a
closing connection it returns -ESHUTDOWN with the three outputs 0, having made
no socket call and no decref (and with the connection not closing its LASSERT
fails). If the reference is taken and reading the buffer sizes fails, or
reading TCP_NODELAY fails, it returns that error with the three outputs 0. On
success it returns 0 with the buffer sizes read and *nagle the logical negation
of the TCP_NODELAY value (1 when it is 0, 0 otherwise). Whenever the reference
was taken it is released exactly once, after the last socket call. -/
theorem ksocknal_lib_get_conn_tunables_cases (conn : ksock_conn_t) (addref : Int)
    (getbuf : getbuf_answer) (getsockopt : getsockopt_answer) :
    (addref ≠ 0 → conn.ksnc_closing = true →
      ksocknal_lib_get_conn_tunables conn addref getbuf getsockopt =
        some { rc := -ESHUTDOWN, txmem := 0, rxmem := 0, nagle := 0,
               calls := [tunables_call.ksocknal_connsock_addref] }) ∧
    (addref ≠ 0 → conn.ksnc_closing = false →
      ksocknal_lib_get_conn_tunables conn addref getbuf getsockopt = none) ∧
    (addref = 0 → getbuf.rc ≠ 0 →
      ksocknal_lib_get_conn_tunables conn addref getbuf getsockopt =
        some { rc := getbuf.rc, txmem := 0, rxmem := 0, nagle := 0,
               calls := [tunables_call.ksocknal_connsock_addref,
                         tunables_call.libcfs_sock_getbuf,
                         tunables_call.ksocknal_connsock_decref] }) ∧
    (addref = 0 → getbuf.rc = 0 → getsockopt.rc ≠ 0 →
      ksocknal_lib_get_conn_tunables conn addref getbuf getsockopt =
        some { rc := getsockopt.rc, txmem := 0, rxmem := 0, nagle := 0,
               calls := [tunables_call.ksocknal_connsock_addref,
                         tunables_call.libcfs_sock_getbuf,
                         tunables_call.getsockopt_TCP_NODELAY,
                         tunables_call.ksocknal_connsock_decref] }) ∧
    (addref = 0 → getbuf.rc = 0 → getsockopt.rc = 0 →
      ksocknal_lib_get_conn_tunables conn addref getbuf getsockopt =
        some { rc := 0, txmem := getbuf.txmem, rxmem := getbuf.rxmem,
               nagle := if getsockopt.val = 0 then 1 else 0,
               calls := [tunables_call.ksocknal_connsock_addref,
                         tunables_call.libcfs_sock_getbuf,
                         tunables_call.getsockopt_TCP_NODELAY,
                         tunables_call.ksocknal_connsock_decref] }) ∧
    (∀ r, ksocknal_lib_get_conn_tunables conn addref getbuf getsockopt = some r →
      r.calls.count tunables_call.ksocknal_connsock_addref = 1 ∧
      r.calls.count tunables_call.ksocknal_connsock_decref = (if addref = 0 then 1 else 0) ∧
      (addref ≠ 0 → r.rc = -ESHUTDOWN ∧ r.calls = [tunables_call.ksocknal_connsock_addref]) ∧
      (r.rc ≠ 0 → r.txmem = 0 ∧ r.rxmem = 0 ∧ r.nagle = 0) ∧
      (addref = 0 → r.calls.getLast? = some tunables_call.ksocknal_connsock_decref)) := by
  have c1 : addref ≠ 0 → conn.ksnc_closing = true →
      ksocknal_lib_get_conn_tunables conn addref getbuf getsockopt =
        some { rc := -ESHUTDOWN, txmem := 0, rxmem := 0, nagle := 0,
               calls := [tunables_call.ksocknal_connsock_addref] } := by
    intro h hc
    simp [ksocknal_lib_get_conn_tunables, h, hc]
  have c2 : addref ≠ 0 → conn.ksnc_closing = false →
      ksocknal_lib_get_conn_tunables conn addref getbuf getsockopt = none := by
    intro h hc
    simp [ksocknal_lib_get_conn_tunables, h, hc]
  have c3 : addref = 0 → getbuf.rc ≠ 0 →
      ksocknal_lib_get_conn_tunables conn addref getbuf getsockopt =
        some { rc := getbuf.rc, txmem := 0, rxmem := 0, nagle := 0,
               calls := [tunables_call.ksocknal_connsock_addref,
                         tunables_call.libcfs_sock_getbuf,
                         tunables_call.ksocknal_connsock_decref] } := by
    intro h hg
    simp [ksocknal_lib_get_conn_tunables, h, hg]
  have c4 : addref = 0 → getbuf.rc = 0 → getsockopt.rc ≠ 0 →
      ksocknal_lib_get_conn_tunables conn addref getbuf getsockopt =
        some { rc := getsockopt.rc, txmem := 0, rxmem := 0, nagle := 0,
               calls := [tunables_call.ksocknal_connsock_addref,
                         tunables_call.libcfs_sock_getbuf,
                         tunables_call.getsockopt_TCP_NODELAY,
                         tunables_call.ksocknal_connsock_decref] } := by
    intro h hg hs
    simp [ksocknal_lib_get_conn_tunables, h, hg, hs]
  have c5 : addref = 0 → getbuf.rc = 0 → getsockopt.rc = 0 →
      ksocknal_lib_get_conn_tunables conn addref getbuf getsockopt =
        some { rc := 0, txmem := getbuf.txmem, rxmem := getbuf.rxmem,
               nagle := if getsockopt.val = 0 then 1 else 0,
               calls := [tunables_call.ksocknal_connsock_addref,
                         tunables_call.libcfs_sock_getbuf,
                         tunables_call.getsockopt_TCP_NODELAY,
                         tunables_call.ksocknal_connsock_decref] } := by
    intro h hg hs
    simp [ksocknal_lib_get_conn_tunables, h, hg, hs]
  refine ⟨c1, c2, c3, c4, c5, ?_⟩
  intro r hr
  by_cases h1 : addref = 0
  · by_cases h2 : getbuf.rc = 0
    · by_cases h3 : getsockopt.rc = 0
      · rw [c5 h1 h2 h3] at hr
        simp only [Option.some.injEq] at hr
        subst hr
        simp [h1]
      · rw [c4 h1 h2 h3] at hr
        simp only [Option.some.injEq] at hr
        subst hr
        simp [h1]
    · rw [c3 h1 h2] at hr
      simp only [Option.some.injEq] at hr
      subst hr
      simp [h1]
  · cases hc : conn.ksnc_closing
    · rw [c2 h1 hc] at hr
      cases hr
    · rw [c1 h1 hc] at hr
      simp only [Option.some.injEq] at hr
      subst hr
      simp [h1]
/-! ## The checksum loop of the receive functions comes to an end -/

theorem rx_csum_loop_steps_nonpos (lens : List Nat) (i : Nat) (sum : Int) (h : sum ≤ 0) :
    rx_csum_loop_steps lens i sum = some [] := by
  have : ¬ sum > 0 := by omega
  cases lens <;> simp [rx_csum_loop_steps, this]

theorem rx_csum_loop_steps_spec (lens : List Nat) :
    ∀ (i : Nat) (sum : Int), sum ≤ (lens.sum : Nat) →
      ∃ steps, rx_csum_loop_steps lens i sum = some steps ∧
        steps.length ≤ lens.length ∧
        steps.map Prod.fst = List.range' i steps.length ∧
        (∀ s ∈ steps, i ≤ s.1 ∧ s.1 < i + lens.length ∧ 0 ≤ s.2 ∧
          s.2 ≤ ((lens.getD (s.1 - i) 0 : Nat) : Int)) ∧
        (steps.map Prod.snd).sum = max sum 0 := by
  induction lens with
  | nil =>
    intro i sum hsum
    have hle : sum ≤ 0 := by simpa using hsum
    refine ⟨[], rx_csum_loop_steps_nonpos [] i sum hle, le_refl _, rfl, ?_, ?_⟩
    · intro s hs
      cases hs
    · simp [max_eq_right hle]
  | cons len rest ih =>
    intro i sum hsum
    by_cases hpos : sum > 0
    · have hsum2 : sum ≤ (len : Int) + ((rest.sum : Nat) : Int) := by
        simpa using hsum
      obtain ⟨fragnob, hf⟩ : ∃ f : Int, f = if (len : Int) > sum then sum else (len : Int) :=
        ⟨_, rfl⟩
      have hf0 : 0 ≤ fragnob := by
        rw [hf]
        split_ifs <;> omega
      have hfl : fragnob ≤ (len : Int) := by
        rw [hf]
        split_ifs <;> omega
      have hfs : fragnob ≤ sum := by
        rw [hf]
        split_ifs <;> omega
      have hrest : sum - fragnob ≤ ((rest.sum : Nat) : Int) := by
        rw [hf]
        split_ifs <;> omega
      obtain ⟨t, ht, hlen, hidx, hall, hsumt⟩ := ih (i + 1) (sum - fragnob) hrest
      have hrun : rx_csum_loop_steps (len :: rest) i sum = some ((i, fragnob) :: t) := by
        simp only [rx_csum_loop_steps, hpos, if_true]
        rw [← hf, ht]
        rfl
      refine ⟨(i, fragnob) :: t, hrun, ?_, ?_, ?_, ?_⟩
      · simp only [List.length_cons]
        omega
      · simp only [List.map_cons, List.length_cons, List.range'_succ, hidx]
      · intro s hs
        rcases List.mem_cons.mp hs with rfl | hs
        · refine ⟨le_refl _, ?_, hf0, ?_⟩
          · simp only [List.length_cons]
            omega
          · simpa using hfl
        · obtain ⟨h1, h2, h3, h4⟩ := hall s hs
          refine ⟨by omega, ?_, h3, ?_⟩
          · simp only [List.length_cons]
            omega
          · have he : s.1 - i = (s.1 - (i + 1)) + 1 := by omega
            rw [he, List.getD_cons_succ]
            exact h4
      · simp only [List.map_cons, List.sum_cons, hsumt]
        have : max (sum - fragnob) 0 = sum - fragnob := max_eq_left (by omega)
        rw [this, max_eq_left (by omega)]
        ring
    · have hle : sum ≤ 0 := by omega
      refine ⟨[], rx_csum_loop_steps_nonpos _ i sum hle, Nat.zero_le _, rfl, ?_, ?_⟩
      · intro s hs
        cases hs
      · simp [max_eq_right hle]

/-- C24. In the checksum loop of ksocknal_lib_recv_iov and ksocknal_lib_recv_kiov,
for every list of fragment lengths (zero lengths included) and every received
count rc with 0 < rc <= the sum of the lengths, the loop comes to an end
without failing LASSERT (i < niov): it makes at most niov iterations, with
i = 0, 1, 2, ... each below niov; the byte count fragnob of each iteration is
at least 0 and at most the length of fragment i; and the byte counts sum to
exactly rc. The loop of both functions, run on buffer fragments or on page
fragments of these lengths, returns a checksum. -/
theorem rx_csum_loop_terminates (lens : List Nat) (rc : Int) (hpos : 0 < rc)
    (hrc : rc ≤ (lens.sum : Nat)) :
    lens.length > 0 ∧
    (∃ steps, rx_csum_loop_steps lens 0 rc = some steps ∧
      0 < steps.length ∧ steps.length ≤ lens.length ∧
      steps.map Prod.fst = List.range steps.length ∧
      (∀ s ∈ steps, s.1 < lens.length ∧ 0 ≤ s.2 ∧ s.2 ≤ ((lens.getD s.1 0 : Nat) : Int)) ∧
      (steps.map Prod.snd).sum = rc) ∧
    (∀ (upd : Nat → Nat → Nat) (mem : memory) (m : ksock_msg_t) (csum : Nat)
        (iov : List iovec), iov.map (fun v => v.iov_len) = lens →
      ∃ c, rx_csum_loop upd mem m iov rc csum = some c) ∧
    (∀ (upd : Nat → Nat → Nat) (mem : memory) (m : ksock_msg_t) (csum : Nat)
        (kiov : List lnet_kiov_t), kiov.map (fun k => k.kiov_len) = lens →
      ∃ c, rx_csum_loop upd mem m (kiov.map kiov_map) rc csum = some c) := by
  obtain ⟨steps, hrun, hlen, hidx, hall, hsum⟩ := rx_csum_loop_steps_spec lens 0 rc hrc
  have hsum2 : (steps.map Prod.snd).sum = rc := by
    rw [hsum]
    exact max_eq_left (by omega)
  have hne : 0 < steps.length := by
    rcases steps with _ | ⟨s, t⟩
    · simp at hsum2
      omega
    · simp
  refine ⟨by omega, ⟨steps, hrun, hne, hlen, ?_, ?_, hsum2⟩, ?_, ?_⟩
  · rw [hidx, List.range_eq_range']
  · intro s hs
    obtain ⟨-, h2, h3, h4⟩ := hall s hs
    exact ⟨by simpa using h2, h3, by simpa using h4⟩
  · intro upd mem m csum iov hiov
    apply rx_csum_loop_some
    rw [iov_nob_eq_sum, hiov]
    exact hrc
  · intro upd mem m csum kiov hk
    apply rx_csum_loop_some
    rw [iov_nob_eq_sum, List.map_map]
    have : (kiov.map ((fun v => v.iov_len) ∘ kiov_map)) = lens := by
      rw [← hk]
      rfl
    rw [this]
    exact hrc

/-- Witness for C24: fragments of 4, 0 and 8 bytes, 6 bytes received. -/
theorem rx_csum_loop_terminates_witness :
    [4, 0, 8].length > 0 ∧
    (∃ steps, rx_csum_loop_steps [4, 0, 8] 0 6 = some steps ∧
      0 < steps.length ∧ steps.length ≤ [4, 0, 8].length ∧
      steps.map Prod.fst = List.range steps.length ∧
      (∀ s ∈ steps, s.1 < [4, 0, 8].length ∧ 0 ≤ s.2 ∧
        s.2 ≤ (([4, 0, 8].getD s.1 0 : Nat) : Int)) ∧
      (steps.map Prod.snd).sum = 6) ∧
    (∀ (upd : Nat → Nat → Nat) (mem : memory) (m : ksock_msg_t) (csum : Nat)
        (iov : List iovec), iov.map (fun v => v.iov_len) = [4, 0, 8] →
      ∃ c, rx_csum_loop upd mem m iov 6 csum = some c) ∧
    (∀ (upd : Nat → Nat → Nat) (mem : memory) (m : ksock_msg_t) (csum : Nat)
        (kiov : List lnet_kiov_t), kiov.map (fun k => k.kiov_len) = [4, 0, 8] →
      ∃ c, rx_csum_loop upd mem m (kiov.map kiov_map) 6 csum = some c) :=
  rx_csum_loop_terminates [4, 0, 8] 6 (by decide) (by decide)
/-! ## The slot invariant over sequences of save, set and reset -/

theorem callback_run_cons (s : callback_state) (op : callback_op) (ops : List callback_op) :
    callback_run s (op :: ops) = callback_run (callback_apply s op) ops := rfl

theorem callback_ordered_of_append (pre post : List callback_op) :
    ∀ installed saved, callback_ordered installed saved (pre ++ post) = true →
      callback_ordered installed saved pre = true := by
  induction pre with
  | nil =>
    intro installed saved _
    rfl
  | cons op rest ih =>
    intro installed saved h
    cases op with
    | save =>
      simp only [List.cons_append, callback_ordered] at h ⊢
      exact ih _ _ h
    | set p =>
      simp only [List.cons_append, callback_ordered] at h ⊢
      exact ih _ _ h
    | reset =>
      simp only [List.cons_append, callback_ordered, Bool.and_eq_true] at h ⊢
      exact ⟨h.1, ih _ _ h.2⟩

/-- What holds of a state after an ordered sequence: with the callbacks not
installed the slots hold other targets, with them installed a connection is
bound, and targets saved before the set are other targets. -/
theorem callback_run_invariant (ops : List callback_op) :
    ∀ (installed saved : Bool) (s : callback_state),
      (installed = false →
        s.sk.sk_data_ready ≠ sk_callback.ksocknal_data_ready ∧
        s.sk.sk_write_space ≠ sk_callback.ksocknal_write_space) →
      (installed = true → s.sk.sk_user_data ≠ none) →
      (saved = true →
        s.conn.ksnc_saved_data_ready ≠ sk_callback.ksocknal_data_ready ∧
        s.conn.ksnc_saved_write_space ≠ sk_callback.ksocknal_write_space) →
      callback_ordered installed saved ops = true →
      sk_slot_invariant (callback_run s ops).sk := by
  induction ops with
  | nil =>
    intro installed saved s h1 h2 _ _ hu
    cases installed with
    | false => exact h1 rfl
    | true => exact absurd hu (h2 rfl)
  | cons op rest ih =>
    intro installed saved s h1 h2 h3 hord
    rw [callback_run_cons]
    cases op with
    | save =>
      simp only [callback_ordered] at hord
      refine ih installed (!installed) _ h1 h2 ?_ hord
      intro hs
      have hi : installed = false := by
        cases installed
        · rfl
        · cases hs
      exact h1 hi
    | set p =>
      simp only [callback_ordered] at hord
      refine ih true saved _ ?_ ?_ h3 hord
      · intro h
        cases h
      · intro _
        simp [callback_apply, ksocknal_lib_set_callback]
    | reset =>
      simp only [callback_ordered, Bool.and_eq_true] at hord
      refine ih false saved _ ?_ ?_ h3 hord.2
      · intro _
        exact h3 hord.1
      · intro h
        cases h

/-- C25. From a socket whose original targets are not the callbacks of the
driver, in every state reached by a sequence of save_callback, set_callback
and reset_callback in which every reset restores targets that were saved
before the matching set, the invariant holds: sk_user_data == NULL implies
sk_data_ready != ksocknal_data_ready and sk_write_space !=
ksocknal_write_space. So in every such state ksocknal_data_ready and
ksocknal_write_space return (the assertion of the unbound branch does not
fail), and the call they forward is never one to the callback itself. -/
theorem callback_slot_invariant (sk : struct_sock) (conn : ksock_conn_saved)
    (ops : List callback_op)
    (hd : sk.sk_data_ready ≠ sk_callback.ksocknal_data_ready)
    (hw : sk.sk_write_space ≠ sk_callback.ksocknal_write_space)
    (hord : callback_ordered false false ops = true) :
    ∀ pre post, ops = pre ++ post →
      sk_slot_invariant (callback_run { sk := sk, conn := conn } pre).sk ∧
      (∀ n, ∃ out,
        ksocknal_data_ready false (callback_run { sk := sk, conn := conn } pre).sk n =
          some out ∧
        ∀ k, sk_event.sk_data_ready sk_callback.ksocknal_data_ready k ∉ out.events) ∧
      (∃ out,
        ksocknal_write_space false (callback_run { sk := sk, conn := conn } pre).sk =
          some out ∧
        sk_event.sk_write_space sk_callback.ksocknal_write_space ∉ out.events) := by
  intro pre post hops
  rw [hops] at hord
  have hinv : sk_slot_invariant (callback_run { sk := sk, conn := conn } pre).sk :=
    callback_run_invariant pre false false _ (fun _ => ⟨hd, hw⟩)
      (fun h => by cases h) (fun h => by cases h) (callback_ordered_of_append pre post _ _ hord)
  obtain ⟨sk2, hsk2⟩ : ∃ x, x = (callback_run { sk := sk, conn := conn } pre).sk := ⟨_, rfl⟩
  rw [← hsk2] at hinv ⊢
  refine ⟨hinv, ?_, ?_⟩
  · intro n
    cases hu : sk2.sk_user_data with
    | none =>
      have hne := (hinv hu).1
      refine ⟨_, by simp only [ksocknal_data_ready, hu, hne, Bool.false_eq_true, if_false]; rfl,
        ?_⟩
      intro k hk
      simp only [List.mem_cons, sk_event.sk_data_ready.injEq, List.mem_singleton,
        List.not_mem_nil, or_false, false_or, reduceCtorEq] at hk
      exact hne hk.1.symm
    | some c =>
      refine ⟨_, by simp only [ksocknal_data_ready, hu, Bool.false_eq_true, if_false]; rfl, ?_⟩
      intro k hk
      simp at hk
  · cases hu : sk2.sk_user_data with
    | none =>
      have hne := (hinv hu).2
      refine ⟨_, by simp only [ksocknal_write_space, hu, hne, Bool.false_eq_true, if_false]; rfl,
        ?_⟩
      intro hk
      simp only [List.mem_cons, sk_event.sk_write_space.injEq, List.mem_singleton,
        List.not_mem_nil, or_false, false_or, reduceCtorEq] at hk
      exact hne hk.symm
    | some c =>
      by_cases hsp : sk2.wspace ≥ sk2.min_wspace
      · simp only [ksocknal_write_space, hu, hsp, Bool.false_eq_true, if_false, if_true]
        exact ⟨_, rfl, by simp⟩
      · simp only [ksocknal_write_space, hu, hsp, Bool.false_eq_true, if_false]
        exact ⟨_, rfl, by simp⟩

/-- Witness for C25: the fresh socket taken through save, set, reset, set,
reset, looked at after the first reset. -/
theorem callback_slot_invariant_witness :
    sk_slot_invariant (callback_run { sk := sk_fresh, conn := conn_saved_none }
      [callback_op.save, callback_op.set 42, callback_op.reset]).sk ∧
    (∀ n, ∃ out,
      ksocknal_data_ready false
        (callback_run { sk := sk_fresh, conn := conn_saved_none }
          [callback_op.save, callback_op.set 42, callback_op.reset]).sk n = some out ∧
      ∀ k, sk_event.sk_data_ready sk_callback.ksocknal_data_ready k ∉ out.events) ∧
    (∃ out,
      ksocknal_write_space false
        (callback_run { sk := sk_fresh, conn := conn_saved_none }
          [callback_op.save, callback_op.set 42, callback_op.reset]).sk = some out ∧
      sk_event.sk_write_space sk_callback.ksocknal_write_space ∉ out.events) :=
  callback_slot_invariant sk_fresh conn_saved_none
    [callback_op.save, callback_op.set 42, callback_op.reset, callback_op.set 43,
      callback_op.reset] (by decide) (by decide) (by decide)
    [callback_op.save, callback_op.set 42, callback_op.reset]
    [callback_op.set 43, callback_op.reset] rfl

/-! ## FLD client: targets and their count -/

theorem fld_name_scan_eq (name : lu_fld_target → Option (List Nat)) (n : List Nat)
    (l : List lu_fld_target) (h : ∀ t ∈ l, name t ≠ none) :
    fld_name_scan name n l = some (decide (∃ t ∈ l, name t = some n)) := by
  induction l with
  | nil => simp [fld_name_scan]
  | cons tmp rest ih =>
    have hrest : ∀ t ∈ rest, name t ≠ none := fun t ht => h t (List.mem_cons_of_mem _ ht)
    cases hn : name tmp with
    | none => exact absurd hn (h tmp (List.mem_cons_self _ _))
    | some tmp_name =>
      by_cases heq : tmp_name = n
      · subst heq
        simp [fld_name_scan, hn]
      · have hne : ¬ (n.length = tmp_name.length ∧ tmp_name = n) := fun hc => heq hc.2
        simp only [fld_name_scan, hn, hne, if_false, ih hrest]
        simp [hn, heq]

theorem fld_del_scan_some (idx : Nat) (l : List lu_fld_target) :
    ∀ t others, fld_del_scan idx l = some (t, others) →
      ∃ pre post, l = pre ++ t :: post ∧ t.ft_idx = idx ∧ (∀ x ∈ pre, x.ft_idx ≠ idx) ∧
        others = pre ++ post := by
  induction l with
  | nil =>
    intro t others h
    simp [fld_del_scan] at h
  | cons a rest ih =>
    intro t others h
    by_cases ha : a.ft_idx = idx
    · simp only [fld_del_scan, ha, if_true, Option.some.injEq, Prod.mk.injEq] at h
      obtain ⟨rfl, rfl⟩ := h
      exact ⟨[], rest, rfl, ha, (fun x hx => by cases hx), rfl⟩
    · simp only [fld_del_scan, ha, if_false, Option.map_eq_some', Prod.mk.injEq] at h
      obtain ⟨⟨t2, o2⟩, hr, rfl, rfl⟩ := h
      obtain ⟨pre, post, hl, hidx, hpre, ho⟩ := ih t2 o2 hr
      refine ⟨a :: pre, post, by rw [hl]; rfl, hidx, ?_, by simp only [ho]; rfl⟩
      intro x hx
      rcases List.mem_cons.mp hx with rfl | hx
      · exact ha
      · exact hpre x hx

theorem fld_del_scan_none (idx : Nat) (l : List lu_fld_target)
    (h : fld_del_scan idx l = none) : ∀ x ∈ l, x.ft_idx ≠ idx := by
  induction l with
  | nil =>
    intro x hx
    cases hx
  | cons a rest ih =>
    by_cases ha : a.ft_idx = idx
    · simp [fld_del_scan, ha] at h
    · simp only [fld_del_scan, ha, if_false, Option.map_eq_none'] at h
      intro x hx
      rcases List.mem_cons.mp hx with rfl | hx
      · exact ha
      · exact ih h x hx

theorem fld_client_fini_loop_fst (l : List lu_fld_target) :
    ∀ (count : Int) (calls : List fld_call),
      (fld_client_fini_loop l count calls).1 = count - l.length := by
  induction l with
  | nil =>
    intro count calls
    simp [fld_client_fini_loop]
  | cons t rest ih =>
    intro count calls
    simp only [fld_client_fini_loop, ih, List.length_cons]
    push_cast
    ring

theorem fld_client_fini_state (kernel : Bool) (fld : lu_client_fld) :
    (fld_client_fini kernel fld).1.lcf_targets = [] ∧
    (fld_client_fini kernel fld).1.lcf_count = fld.lcf_count - fld.lcf_targets.length ∧
    (fld_client_fini kernel fld).1.lcf_hash = fld.lcf_hash := by
  unfold fld_client_fini
  simp only [fld_client_fini_loop_fst]
  cases kernel
  · exact ⟨rfl, rfl, rfl⟩
  · cases hc : fld.lcf_cache <;> simp [hc]

theorem fld_client_fini_zero (kernel : Bool) (fld : lu_client_fld)
    (hc : fld.lcf_count = 0) (ht : fld.lcf_targets = []) :
    (fld_client_fini kernel fld).1.lcf_count = 0 ∧
    (fld_client_fini kernel fld).1.lcf_targets = [] := by
  obtain ⟨h1, h2, -⟩ := fld_client_fini_state kernel fld
  refine ⟨?_, h1⟩
  rw [h2, hc, ht]
  rfl

/-- C27. fld_client_add_target, called with a named target that has a server
site or an export on a client whose targets all have names, returns. If the
allocation fails it returns -ENOMEM, and if a target of the same name is in
lcf_targets it returns -EEXIST after freeing the allocation: in both cases the
client, target list and lcf_count included, is unchanged. Otherwise it returns
0, the target list is the old one, in its order, with one new target at the
tail carrying ft_exp, ft_srv and ft_idx of tar, lcf_count is one more than
before, and a reference is taken on the export when there is one. -/
theorem fld_client_add_target_atomic (alloc : Bool)
    (name : lu_fld_target → Option (List Nat)) (fld : lu_client_fld) (tar : lu_fld_target)
    (hname : name tar ≠ none)
    (hsrv : tar.ft_srv ≠ none ∨ tar.ft_exp ≠ none)
    (hnames : ∀ t ∈ fld.lcf_targets, name t ≠ none) :
    ∃ r, fld_client_add_target alloc name fld tar = some r ∧
      (alloc = false → r.rc = -ENOMEM ∧ r.fld = fld ∧ r.calls = [fld_call.OBD_ALLOC_PTR]) ∧
      (alloc = true → (∃ t ∈ fld.lcf_targets, name t = name tar) →
        r.rc = -EEXIST ∧ r.fld = fld ∧
        r.calls = [fld_call.OBD_ALLOC_PTR, fld_call.OBD_FREE_PTR]) ∧
      (alloc = true → (∀ t ∈ fld.lcf_targets, name t ≠ name tar) →
        r.rc = 0 ∧
        r.fld.lcf_targets = fld.lcf_targets ++
          [{ ft_exp := tar.ft_exp, ft_srv := tar.ft_srv, ft_idx := tar.ft_idx }] ∧
        r.fld.lcf_count = fld.lcf_count + 1 ∧
        r.fld.lcf_hash = fld.lcf_hash ∧ r.fld.lcf_cache = fld.lcf_cache ∧
        r.calls = fld_call.OBD_ALLOC_PTR ::
          (match tar.ft_exp with
           | none => []
           | some exp => [fld_call.class_export_get exp])) ∧
      (r.rc = 0 ∨ r.rc = -ENOMEM ∨ r.rc = -EEXIST) ∧
      (r.rc ≠ 0 → r.fld = fld) := by
  obtain ⟨tar_name, htn⟩ : ∃ n, name tar = some n := by
    cases h : name tar with
    | none => exact absurd h hname
    | some n => exact ⟨n, rfl⟩
  have hs : ¬ ¬ (tar.ft_srv ≠ none ∨ tar.ft_exp ≠ none) := not_not.mpr hsrv
  cases alloc with
  | false =>
    refine ⟨{ rc := -ENOMEM, fld := fld, calls := [fld_call.OBD_ALLOC_PTR] }, ?_,
      fun _ => ⟨rfl, rfl, rfl⟩, (fun h => by cases h), (fun h => by cases h),
      Or.inr (Or.inl rfl), fun _ => rfl⟩
    simp only [fld_client_add_target, htn, hs, if_false, Bool.false_eq_true, not_false_eq_true,
      if_true]
  | true =>
    have hscan := fld_name_scan_eq name tar_name fld.lcf_targets hnames
    by_cases hdup : ∃ t ∈ fld.lcf_targets, name t = some tar_name
    · rw [decide_eq_true hdup] at hscan
      refine ⟨{ rc := -EEXIST, fld := fld,
                calls := [fld_call.OBD_ALLOC_PTR, fld_call.OBD_FREE_PTR] }, ?_,
        (fun h => by cases h), fun _ _ => ⟨rfl, rfl, rfl⟩, ?_, Or.inr (Or.inr rfl), fun _ => rfl⟩
      · simp only [fld_client_add_target, htn, hs, if_false, not_true_eq_false, hscan]
      · intro _ hno
        obtain ⟨t, ht, hnt⟩ := hdup
        exact absurd (hnt.trans htn.symm) (hno t ht)
    · rw [decide_eq_false hdup] at hscan
      refine ⟨{ rc := 0,
                fld := { fld with
                  lcf_targets := fld.lcf_targets ++
                    [{ ft_exp := tar.ft_exp, ft_srv := tar.ft_srv, ft_idx := tar.ft_idx }],
                  lcf_count := fld.lcf_count + 1 },
                calls := fld_call.OBD_ALLOC_PTR ::
                  (match tar.ft_exp with
                   | none => []
                   | some exp => [fld_call.class_export_get exp]) }, ?_,
        (fun h => by cases h), ?_, fun _ _ => ⟨rfl, rfl, rfl, rfl, rfl, rfl⟩,
        Or.inl rfl, fun h => absurd rfl h⟩
      · simp only [fld_client_add_target, htn, hs, if_false, not_true_eq_false, hscan]
      · intro _ hex
        obtain ⟨t, ht, hnt⟩ := hex
        exact absurd ⟨t, ht, hnt.trans htn⟩ hdup

/-- Witness for C27: a third target added to the client fld_two. -/
theorem fld_client_add_target_atomic_witness :
    ∃ r, fld_client_add_target true fld_name_by_idx fld_two
        { ft_exp := some 12, ft_srv := none, ft_idx := 2 } = some r ∧
      (true = false → r.rc = -ENOMEM ∧ r.fld = fld_two ∧ r.calls = [fld_call.OBD_ALLOC_PTR]) ∧
      (true = true → (∃ t ∈ fld_two.lcf_targets, fld_name_by_idx t =
          fld_name_by_idx { ft_exp := some 12, ft_srv := none, ft_idx := 2 }) →
        r.rc = -EEXIST ∧ r.fld = fld_two ∧
        r.calls = [fld_call.OBD_ALLOC_PTR, fld_call.OBD_FREE_PTR]) ∧
      (true = true → (∀ t ∈ fld_two.lcf_targets, fld_name_by_idx t ≠
          fld_name_by_idx { ft_exp := some 12, ft_srv := none, ft_idx := 2 }) →
        r.rc = 0 ∧
        r.fld.lcf_targets = fld_two.lcf_targets ++
          [{ ft_exp := some 12, ft_srv := none, ft_idx := 2 }] ∧
        r.fld.lcf_count = fld_two.lcf_count + 1 ∧
        r.fld.lcf_hash = fld_two.lcf_hash ∧ r.fld.lcf_cache = fld_two.lcf_cache ∧
        r.calls = fld_call.OBD_ALLOC_PTR ::
          (match (some 12 : Option Nat) with
           | none => []
           | some exp => [fld_call.class_export_get exp])) ∧
      (r.rc = 0 ∨ r.rc = -ENOMEM ∨ r.rc = -EEXIST) ∧
      (r.rc ≠ 0 → r.fld = fld_two) :=
  fld_client_add_target_atomic true fld_name_by_idx fld_two
    { ft_exp := some 12, ft_srv := none, ft_idx := 2 } (by decide) (by decide) (by decide)

/-- C28. The FLD client keeps lcf_count equal to the number of targets in
lcf_targets. After a successful fld_client_init, on any client record, both
are 0 (and after a failed one past the hash check too). On a client where the
two agree: they agree after fld_client_add_target, whatever it returns; they
agree after fld_client_del_target, which returns 0 having removed exactly one
target, the first in list order whose ft_idx equals idx, or returns -ENOENT
having changed nothing when no target has that index; and fld_client_fini
leaves the list empty and the count 0. -/
theorem fld_count_invariant (fld : lu_client_fld)
    (hinv : fld.lcf_count = fld.lcf_targets.length) :
    (∀ kernel cache_err proc_rc (fld0 : lu_client_fld) hash,
      ((fld_client_init kernel cache_err proc_rc fld0 hash).rc = 0 →
        (fld_client_init kernel cache_err proc_rc fld0 hash).fld.lcf_count = 0 ∧
        (fld_client_init kernel cache_err proc_rc fld0 hash).fld.lcf_targets = []) ∧
      (hash_is_sane hash = true →
        (fld_client_init kernel cache_err proc_rc fld0 hash).fld.lcf_count = 0 ∧
        (fld_client_init kernel cache_err proc_rc fld0 hash).fld.lcf_targets = [])) ∧
    (∀ alloc name tar r, fld_client_add_target alloc name fld tar = some r →
      r.fld.lcf_count = r.fld.lcf_targets.length) ∧
    (∀ idx,
      (fld_client_del_target fld idx).fld.lcf_count =
        (fld_client_del_target fld idx).fld.lcf_targets.length ∧
      ((fld_client_del_target fld idx).rc = 0 ∨
        (fld_client_del_target fld idx).rc = -ENOENT) ∧
      ((fld_client_del_target fld idx).rc = 0 →
        ∃ pre t post, fld.lcf_targets = pre ++ t :: post ∧ t.ft_idx = idx ∧
          (∀ x ∈ pre, x.ft_idx ≠ idx) ∧
          (fld_client_del_target fld idx).fld.lcf_targets = pre ++ post ∧
          (fld_client_del_target fld idx).fld.lcf_count = fld.lcf_count - 1) ∧
      ((fld_client_del_target fld idx).rc ≠ 0 →
        (fld_client_del_target fld idx).fld = fld ∧ ∀ x ∈ fld.lcf_targets, x.ft_idx ≠ idx)) ∧
    (∀ kernel,
      (fld_client_fini kernel fld).1.lcf_targets = [] ∧
      (fld_client_fini kernel fld).1.lcf_count = 0) := by
  refine ⟨?_, ?_, ?_, ?_⟩
  · intro kernel cache_err proc_rc fld0 hash
    have key : hash_is_sane hash = true →
        (fld_client_init kernel cache_err proc_rc fld0 hash).fld.lcf_count = 0 ∧
        (fld_client_init kernel cache_err proc_rc fld0 hash).fld.lcf_targets = [] := by
      intro hs
      unfold fld_client_init
      simp only [hs, not_true_eq_false, if_false]
      split_ifs
      all_goals first
        | exact ⟨rfl, rfl⟩
        | exact fld_client_fini_zero kernel _ rfl rfl
    refine ⟨?_, key⟩
    intro hrc
    cases hs : hash_is_sane hash
    · exfalso
      simp [fld_client_init, hs, EINVAL] at hrc
    · exact key hs
  · intro alloc name tar r hr
    unfold fld_client_add_target at hr
    cases hn : name tar with
    | none =>
      simp only [hn] at hr
      cases hr
    | some n =>
      simp only [hn] at hr
      by_cases hsrv : tar.ft_srv ≠ none ∨ tar.ft_exp ≠ none
      · rw [if_neg (not_not.mpr hsrv)] at hr
        cases alloc with
        | false =>
          simp only [Bool.false_eq_true, not_false_eq_true, if_true, Option.some.injEq] at hr
          subst hr
          exact hinv
        | true =>
          simp only [not_true_eq_false, if_false] at hr
          cases hsc : fld_name_scan name n fld.lcf_targets with
          | none =>
            simp only [hsc] at hr
            cases hr
          | some found =>
            cases found with
            | true =>
              simp only [hsc, Option.some.injEq] at hr
              subst hr
              exact hinv
            | false =>
              simp only [hsc, Option.some.injEq] at hr
              subst hr
              simp only [List.length_append, List.length_singleton, hinv]
              push_cast
              ring
      · rw [if_pos hsrv] at hr
        cases hr
  · intro idx
    cases hscan : fld_del_scan idx fld.lcf_targets with
    | none =>
      have hr : fld_client_del_target fld idx = { rc := -ENOENT, fld := fld, calls := [] } := by
        simp only [fld_client_del_target, hscan]
      rw [hr]
      refine ⟨hinv, Or.inr rfl, ?_, fun _ => ⟨rfl, fld_del_scan_none idx _ hscan⟩⟩
      intro h
      simp [ENOENT] at h
    | some p =>
      obtain ⟨t, others⟩ := p
      obtain ⟨pre, post, hl, hidx, hpre, ho⟩ := fld_del_scan_some idx _ t others hscan
      have hr : fld_client_del_target fld idx =
          { rc := 0, fld := { fld with lcf_count := fld.lcf_count - 1, lcf_targets := others },
            calls := fld_target_release t } := by
        simp only [fld_client_del_target, hscan]
      rw [hr]
      refine ⟨?_, Or.inl rfl, fun _ => ⟨pre, t, post, hl, hidx, hpre, ho, rfl⟩,
        fun h => absurd rfl h⟩
      simp only [hinv, hl, ho, List.length_append, List.length_cons]
      push_cast
      ring
  · intro kernel
    obtain ⟨h1, h2, -⟩ := fld_client_fini_state kernel fld
    exact ⟨h1, by rw [h2, hinv]; ring⟩

/-- Witness for C28: the client fld_two, two targets and a count of 2. -/
theorem fld_count_invariant_witness :
    fld_two.lcf_count = fld_two.lcf_targets.length ∧
    ((∀ kernel cache_err proc_rc (fld0 : lu_client_fld) hash,
      ((fld_client_init kernel cache_err proc_rc fld0 hash).rc = 0 →
        (fld_client_init kernel cache_err proc_rc fld0 hash).fld.lcf_count = 0 ∧
        (fld_client_init kernel cache_err proc_rc fld0 hash).fld.lcf_targets = []) ∧
      (hash_is_sane hash = true →
        (fld_client_init kernel cache_err proc_rc fld0 hash).fld.lcf_count = 0 ∧
        (fld_client_init kernel cache_err proc_rc fld0 hash).fld.lcf_targets = [])) ∧
    (∀ alloc name tar r, fld_client_add_target alloc name fld_two tar = some r →
      r.fld.lcf_count = r.fld.lcf_targets.length) ∧
    (∀ idx,
      (fld_client_del_target fld_two idx).fld.lcf_count =
        (fld_client_del_target fld_two idx).fld.lcf_targets.length ∧
      ((fld_client_del_target fld_two idx).rc = 0 ∨
        (fld_client_del_target fld_two idx).rc = -ENOENT) ∧
      ((fld_client_del_target fld_two idx).rc = 0 →
        ∃ pre t post, fld_two.lcf_targets = pre ++ t :: post ∧ t.ft_idx = idx ∧
          (∀ x ∈ pre, x.ft_idx ≠ idx) ∧
          (fld_client_del_target fld_two idx).fld.lcf_targets = pre ++ post ∧
          (fld_client_del_target fld_two idx).fld.lcf_count = fld_two.lcf_count - 1) ∧
      ((fld_client_del_target fld_two idx).rc ≠ 0 →
        (fld_client_del_target fld_two idx).fld = fld_two ∧ ∀ x ∈ fld_two.lcf_targets, x.ft_idx ≠ idx)) ∧
    (∀ kernel,
      (fld_client_fini kernel fld_two).1.lcf_targets = [] ∧
      (fld_client_fini kernel fld_two).1.lcf_count = 0)) :=
  ⟨by decide, fld_count_invariant fld_two (by decide)⟩

/-- C29, the code at the failing input. hash_is_sane accepts exactly the indices
0, 1 and 2, the size of fld_hash being 3, and fld_client_init returns -EINVAL,
leaving the client alone, for every index hash_is_sane rejects. The entries 0
and 1 are hash methods with a name and both functions. The entry 2 is the
entry of zeros: fld_client_init with hash 2 returns 0 and leaves lcf_hash
pointing at an entry whose fh_name, fh_hash_func and fh_scan_func are all
NULL, and on that client, with a target added, fld_client_get_target calls
through the NULL fh_scan_func, where with hash 1 it finds the target. -/
theorem fld_client_init_accepts_zero_entry :
    (∀ hash : Int, hash_is_sane hash = true ↔ hash = 0 ∨ hash = 1 ∨ hash = 2) ∧
    (∀ kernel cache_err proc_rc (fld : lu_client_fld) (hash : Int),
      hash_is_sane hash = false →
        fld_client_init kernel cache_err proc_rc fld hash =
          { rc := -EINVAL, fld := fld, calls := [] }) ∧
    (∀ i h, (i = 0 ∨ i = 1) → fld_hash.get? i = some h →
      h.fh_name ≠ none ∧ h.fh_hash_func ≠ none ∧ h.fh_scan_func ≠ none) ∧
    hash_is_sane 2 = true ∧
    fld_hash.get? 2 = some { fh_name := none, fh_hash_func := none, fh_scan_func := none } ∧
    (fld_client_init false 0 0 fld_blank 2).rc = 0 ∧
    (fld_client_init false 0 0 fld_blank 2).fld.lcf_hash = some 2 ∧
    (fld_client_init true 0 0 fld_blank 2).rc = 0 ∧
    (fld_client_init true 0 0 fld_blank 2).fld.lcf_hash = some 2 ∧
    (fld_after_init 2).map (fun f => fld_client_get_target f 0) = some none ∧
    (fld_after_init 1).map (fun f => fld_client_get_target f 0) = some (some fld_target_0) := by
  refine ⟨?_, ?_, ?_, by decide, by decide, by decide, by decide, by decide, by decide,
    by decide, by decide⟩
  · intro hash
    simp only [hash_is_sane, fld_hash, List.length_cons, List.length_nil, Bool.and_eq_true,
      decide_eq_true_eq]
    constructor
    · intro h
      omega
    · intro h
      omega
  · intro kernel cache_err proc_rc fld hash hs
    simp [fld_client_init, hs]
  · intro i h hi hget
    rcases hi with rfl | rfl
    · simp [fld_hash] at hget
      subst hget
      simp
    · simp [fld_hash] at hget
      subst hget
      simp

/-! ## The sysctl table -/

/-- C30. For every combination of CPU_AFFINITY, SOCKNAL_BACKOFF and
SOCKNAL_VERSION_DEBUG, ksocknal_lib_tunables_init returns 0 without storing
outside ksocknal_ctl_table and with both assertions holding: j == i, and
i <= 21. It stores 16 entries, plus 1 with CPU_AFFINITY, 2 with
SOCKNAL_BACKOFF and 1 with SOCKNAL_VERSION_DEBUG, and then the entry of zeros,
so i is at most 21. The entries before the terminator carry the ctl_name 1,
2, ..., i - 1 in table order, all distinct, each with a name and a tunable; the
terminator and every entry after it are zero. -/
theorem ksocknal_lib_tunables_init_fits (b : tunables_build) (registered : Bool) :
    ∃ r, ksocknal_lib_tunables_init b registered = some r ∧
      r.rc = 0 ∧ r.i ≤ 21 ∧ r.j = r.i ∧ r.table.length = 21 ∧
      r.i = 17 + (if b.CPU_AFFINITY then 1 else 0) + (if b.SOCKNAL_BACKOFF then 2 else 0) +
        (if b.SOCKNAL_VERSION_DEBUG then 1 else 0) ∧
      (r.table.take (r.i.toNat - 1)).map (fun e => e.ctl_name) =
        (List.range (r.i.toNat - 1)).map (fun k => (k : Int) + 1) ∧
      ((r.table.take (r.i.toNat - 1)).map (fun e => e.ctl_name)).Nodup ∧
      (∀ e ∈ r.table.take (r.i.toNat - 1), e.procname ≠ none ∧ e.data ≠ none) ∧
      ((r.table.take (r.i.toNat - 1)).map (fun e => e.procname)).Nodup ∧
      r.table.drop (r.i.toNat - 1) = List.replicate (21 - (r.i.toNat - 1)) ctl_zero ∧
      r.ksnd_sysctl = registered := by
  obtain ⟨x, y, z⟩ := b
  cases x <;> cases y <;> cases z <;> cases registered <;>
    exact ⟨_, rfl, by decide⟩

end Lustre
